import Mathlib

/-!
# VulkanAPI (L5-ResourceLoading): buffer allocation, staging upload and mesh resources

A shallow embedding of `include/utilities.h` (`findMemoryTypeIndex`, `createBuffer`,
`copyBuffer`) and `src/mesh.cpp` (`Mesh`), together with the properties of these
functions that the specification states.

The Vulkan driver is not part of the program.  It is represented by a `Driver`:
for every entry point the program calls, a function from the calls made so far to the
values the driver hands back.  The program itself is a function on the list of calls
made so far (the trace); every call the source makes appends one `Event`, carrying the
arguments the source passes and the values the driver returned.  All calls of one mesh go
to the one logical device the mesh was constructed with, so the device handle is not
repeated in the events.
-/

namespace VulkanAPI

/-! ## Constants of the Vulkan headers -/

/-- Vulkan object handles (`VkBuffer`, `VkDeviceMemory`, `VkCommandBuffer`, ...). -/
abbrev Handle := Nat

/-- A `VkResult` code. -/
abbrev VkResult := Int

/-- The header value of `VK_SUCCESS`. -/
def VK_SUCCESS : VkResult := 0

/-- The header value of `VK_NULL_HANDLE`. -/
def VK_NULL_HANDLE : Handle := 0

/-- The header value of `VK_MAX_MEMORY_TYPES`, the length of the `memoryTypes` array. -/
def VK_MAX_MEMORY_TYPES : Nat := 32

/-- The value of `-1` converted to `uint32_t`. -/
def UINT32_MAX : Nat := 4294967295

def VK_BUFFER_USAGE_TRANSFER_SRC_BIT : Nat := 0x1
def VK_BUFFER_USAGE_TRANSFER_DST_BIT : Nat := 0x2
def VK_BUFFER_USAGE_INDEX_BUFFER_BIT : Nat := 0x40
def VK_BUFFER_USAGE_VERTEX_BUFFER_BIT : Nat := 0x80

def VK_MEMORY_PROPERTY_DEVICE_LOCAL_BIT : Nat := 0x1
def VK_MEMORY_PROPERTY_HOST_VISIBLE_BIT : Nat := 0x2
def VK_MEMORY_PROPERTY_HOST_COHERENT_BIT : Nat := 0x4

def VK_SHARING_MODE_EXCLUSIVE : Nat := 0
def VK_COMMAND_BUFFER_LEVEL_PRIMARY : Nat := 0
def VK_COMMAND_BUFFER_USAGE_ONE_TIME_SUBMIT_BIT : Nat := 0x1

/-- The value of `sizeof(Vertex)`: two `glm::vec3`, three 4-byte floats each. -/
def sizeofVertex : Nat := 24

/-- The value of `sizeof(uint32_t)`. -/
def sizeofUint32 : Nat := 4

/-! ## Data model -/

/-- The struct `Vertex` of utilities.h: position and colour, three floats each.  The
component values are never inspected by the code modelled here, only counted and copied. -/
structure Vertex where
  position : Nat × Nat × Nat
  color : Nat × Nat × Nat
  deriving DecidableEq, Repr

/-- One `VkMemoryType` entry. -/
structure VkMemoryType where
  propertyFlags : Nat
  heapIndex : Nat
  deriving DecidableEq, Repr

/-- The part of `VkPhysicalDeviceMemoryProperties` that is read: the count and the
`memoryTypes` array. -/
structure VkPhysicalDeviceMemoryProperties where
  memoryTypeCount : Nat
  memoryTypes : List VkMemoryType
  deriving DecidableEq, Repr

/-- The property flags of `memoryTypes[i]`.  The array has `VK_MAX_MEMORY_TYPES` entries,
of which the first `memoryTypeCount` are filled in; an entry the list does not hold reads
as no flags. -/
def VkPhysicalDeviceMemoryProperties.flagsAt (p : VkPhysicalDeviceMemoryProperties)
    (i : Nat) : Nat :=
  (p.memoryTypes.getD i ⟨0, 0⟩).propertyFlags

/-- The condition of the `if` in the loop of `findMemoryTypeIndex`:
`(allowedTypes & (1ul << i)) && (memoryTypes[i].propertyFlags & flags) == flags`,
the shift being done in 64-bit `unsigned long`. -/
def memoryTypeMatches (p : VkPhysicalDeviceMemoryProperties) (allowedTypes flags i : Nat) :
    Bool :=
  (allowedTypes &&& ((1 <<< i) % 2 ^ 64) != 0) && (p.flagsAt i &&& flags == flags)

/-- The `for` loop of `findMemoryTypeIndex`, with `remaining = memoryTypeCount - i`
iterations still to run from index `i`; leaving the loop reaches `return -1`. -/
def findMemoryTypeIndexFrom (p : VkPhysicalDeviceMemoryProperties) (allowedTypes flags : Nat) :
    Nat → Nat → Nat
  | 0, _ => UINT32_MAX
  | remaining + 1, i =>
    if memoryTypeMatches p allowedTypes flags i then i
    else findMemoryTypeIndexFrom p allowedTypes flags remaining (i + 1)

/-- The function `findMemoryTypeIndex` of utilities.h, on the memory properties that
`vkGetPhysicalDeviceMemoryProperties` reports for the physical device. -/
def findMemoryTypeIndex (p : VkPhysicalDeviceMemoryProperties) (allowedTypes flags : Nat) :
    Nat :=
  findMemoryTypeIndexFrom p allowedTypes flags p.memoryTypeCount 0

/-- What the specification asks of a memory type index: bit `i` of the bitmask is set and
the type has every requested property flag. -/
def Compatible (p : VkPhysicalDeviceMemoryProperties) (allowedTypes flags i : Nat) : Prop :=
  allowedTypes.testBit i = true ∧ p.flagsAt i &&& flags = flags

instance (p : VkPhysicalDeviceMemoryProperties) (allowedTypes flags i : Nat) :
    Decidable (Compatible p allowedTypes flags i) := by
  unfold Compatible; infer_instance

/-! ## The driver and the trace of calls -/

/-- The fields of `VkBufferCreateInfo` that `createBuffer` sets. -/
structure VkBufferCreateInfo where
  size : Nat
  usage : Nat
  sharingMode : Nat
  deriving DecidableEq, Repr

/-- The struct `VkMemoryRequirements` filled in by the driver. -/
structure VkMemoryRequirements where
  size : Nat
  alignment : Nat
  memoryTypeBits : Nat
  deriving DecidableEq, Repr

/-- The fields of `VkMemoryAllocateInfo` that `createBuffer` sets. -/
structure VkMemoryAllocateInfo where
  allocationSize : Nat
  memoryTypeIndex : Nat
  deriving DecidableEq, Repr

/-- One `VkBufferCopy` region. -/
structure VkBufferCopy where
  srcOffset : Nat
  dstOffset : Nat
  size : Nat
  deriving DecidableEq, Repr

/-- The fields of `VkSubmitInfo` that `copyBuffer` sets: the command buffers of the batch
(`commandBufferCount`, `pCommandBuffers`). -/
structure VkSubmitInfo where
  commandBuffers : List Handle
  deriving DecidableEq, Repr

/-- One call made by the program, with the arguments passed and the values returned.
`memcpy` is the host write through the pointer that `vkMapMemory` stored for `memory`; the
source makes it whatever the mapping reported. -/
inductive Event where
  | vkCreateBuffer (info : VkBufferCreateInfo) (result : VkResult) (buffer : Handle)
  | vkGetBufferMemoryRequirements (buffer : Handle) (reqs : VkMemoryRequirements)
  | vkAllocateMemory (info : VkMemoryAllocateInfo) (result : VkResult) (memory : Handle)
  | vkBindBufferMemory (buffer memory : Handle) (memoryOffset : Nat) (result : VkResult)
  | vkMapMemory (memory : Handle) (offset size flags : Nat) (result : VkResult)
  | memcpy (memory : Handle) (count : Nat)
  | vkUnmapMemory (memory : Handle)
  | vkAllocateCommandBuffers (commandPool : Handle) (level commandBufferCount : Nat)
      (result : VkResult) (commandBuffer : Handle)
  | vkBeginCommandBuffer (commandBuffer : Handle) (flags : Nat) (result : VkResult)
  | vkCmdCopyBuffer (commandBuffer srcBuffer dstBuffer : Handle) (regions : List VkBufferCopy)
  | vkEndCommandBuffer (commandBuffer : Handle) (result : VkResult)
  | vkQueueSubmit (queue : Handle) (submits : List VkSubmitInfo) (fence : Handle)
      (result : VkResult)
  | vkQueueWaitIdle (queue : Handle) (result : VkResult)
  | vkFreeCommandBuffers (commandPool : Handle) (commandBuffers : List Handle)
  | vkDestroyBuffer (buffer : Handle)
  | vkFreeMemory (memory : Handle)
  deriving DecidableEq, Repr

/-- The Vulkan implementation the program runs against.  Each field answers one entry
point, given the calls made so far and the arguments of the call.  `memoryProperties` is
what `vkGetPhysicalDeviceMemoryProperties` reports for the physical device. -/
structure Driver where
  memoryProperties : VkPhysicalDeviceMemoryProperties
  vkCreateBuffer : List Event → VkBufferCreateInfo → VkResult × Handle
  vkGetBufferMemoryRequirements : List Event → Handle → VkMemoryRequirements
  vkAllocateMemory : List Event → VkMemoryAllocateInfo → VkResult × Handle
  vkBindBufferMemory : List Event → Handle → Handle → Nat → VkResult
  vkMapMemory : List Event → Handle → Nat → Nat → Nat → VkResult
  vkAllocateCommandBuffers : List Event → Handle → Nat → Nat → VkResult × Handle
  vkBeginCommandBuffer : List Event → Handle → Nat → VkResult
  vkEndCommandBuffer : List Event → Handle → VkResult
  vkQueueSubmit : List Event → Handle → List VkSubmitInfo → Handle → VkResult
  vkQueueWaitIdle : List Event → Handle → VkResult

/-- The `std::runtime_error`s thrown by utilities.h, by message. -/
inductive RuntimeError where
  /-- Thrown with "Failed to create VkBuffer". -/
  | failedToCreateVkBuffer
  /-- Thrown with "Failed to allocate Vertex Buffer memory". -/
  | failedToAllocateVertexBufferMemory
  deriving DecidableEq, Repr

/-- How a call ends: the value it returns, the exception it throws, or undefined
behaviour, after which nothing is known of the program. -/
inductive Outcome (α : Type) where
  | returned (value : α)
  | raised (error : RuntimeError)
  | undefined
  deriving DecidableEq, Repr

/-! ## utilities.h -/

/-- The function `createBuffer` of utilities.h, run after the calls `tr`.  Returns the
calls made so far at the end and either the handles stored through `buffer` and `memory`
or the exception thrown. -/
def createBuffer (drv : Driver) (tr : List Event)
    (bufferSize usageFlags bufferProperties : Nat) :
    List Event × Outcome (Handle × Handle) :=
  let bufferInfo : VkBufferCreateInfo :=
    { size := bufferSize, usage := usageFlags, sharingMode := VK_SHARING_MODE_EXCLUSIVE }
  let created := drv.vkCreateBuffer tr bufferInfo
  let tr1 := tr ++ [Event.vkCreateBuffer bufferInfo created.1 created.2]
  if created.1 ≠ VK_SUCCESS then
    (tr1, Outcome.raised RuntimeError.failedToCreateVkBuffer)
  else
    let memoryReqs := drv.vkGetBufferMemoryRequirements tr1 created.2
    let tr2 := tr1 ++ [Event.vkGetBufferMemoryRequirements created.2 memoryReqs]
    let memoryAllocateInfo : VkMemoryAllocateInfo :=
      { allocationSize := memoryReqs.size,
        memoryTypeIndex :=
          findMemoryTypeIndex drv.memoryProperties memoryReqs.memoryTypeBits bufferProperties }
    let allocated := drv.vkAllocateMemory tr2 memoryAllocateInfo
    let tr3 := tr2 ++ [Event.vkAllocateMemory memoryAllocateInfo allocated.1 allocated.2]
    if allocated.1 ≠ VK_SUCCESS then
      (tr3, Outcome.raised RuntimeError.failedToAllocateVertexBufferMemory)
    else
      let bound := drv.vkBindBufferMemory tr3 created.2 allocated.2 0
      (tr3 ++ [Event.vkBindBufferMemory created.2 allocated.2 0 bound],
        Outcome.returned (created.2, allocated.2))

/-- The function `copyBuffer` of utilities.h, run after the calls `tr`.  No result code is
examined, so it always returns; the value is the list of calls made so far at the end.
The command buffer is the handle the allocation stored, whatever the allocation reported. -/
def copyBuffer (drv : Driver) (tr : List Event)
    (transferQueue transferCmdPool srcBuffer dstBuffer bufferSize : Nat) : List Event :=
  let allocated :=
    drv.vkAllocateCommandBuffers tr transferCmdPool VK_COMMAND_BUFFER_LEVEL_PRIMARY 1
  let transferCmdBuffer := allocated.2
  let tr1 := tr ++ [Event.vkAllocateCommandBuffers transferCmdPool
    VK_COMMAND_BUFFER_LEVEL_PRIMARY 1 allocated.1 transferCmdBuffer]
  let tr2 := tr1 ++ [Event.vkBeginCommandBuffer transferCmdBuffer
    VK_COMMAND_BUFFER_USAGE_ONE_TIME_SUBMIT_BIT
    (drv.vkBeginCommandBuffer tr1 transferCmdBuffer VK_COMMAND_BUFFER_USAGE_ONE_TIME_SUBMIT_BIT)]
  let bufferCopy : VkBufferCopy := { size := bufferSize, srcOffset := 0, dstOffset := 0 }
  let tr3 := tr2 ++ [Event.vkCmdCopyBuffer transferCmdBuffer srcBuffer dstBuffer [bufferCopy]]
  let tr4 := tr3 ++ [Event.vkEndCommandBuffer transferCmdBuffer
    (drv.vkEndCommandBuffer tr3 transferCmdBuffer)]
  let submitInfo : VkSubmitInfo := { commandBuffers := [transferCmdBuffer] }
  let tr5 := tr4 ++ [Event.vkQueueSubmit transferQueue [submitInfo] VK_NULL_HANDLE
    (drv.vkQueueSubmit tr4 transferQueue [submitInfo] VK_NULL_HANDLE)]
  let tr6 := tr5 ++ [Event.vkQueueWaitIdle transferQueue (drv.vkQueueWaitIdle tr5 transferQueue)]
  tr6 ++ [Event.vkFreeCommandBuffers transferCmdPool [transferCmdBuffer]]

/-! ## mesh.cpp -/

/-- The data members of class `Mesh`.  Its physical and logical device are those of the
`Driver` the mesh is built on. -/
structure Mesh where
  m_vertexCount : Int
  m_indexCount : Int
  m_vertexBuffer : Handle
  m_indexBuffer : Handle
  m_vertexBufferMemory : Handle
  m_indexBufferMemory : Handle
  deriving DecidableEq, Repr

/-- Conversion of a `size_t` to `int` (32 bits, two's complement). -/
def toInt (n : Nat) : Int :=
  if n % 2 ^ 32 < 2 ^ 31 then ((n % 2 ^ 32 : Nat) : Int) else ((n % 2 ^ 32 : Nat) : Int) - 2 ^ 32

/-- The member function `Mesh::createVertexBuffer`, run on the object `mesh` after the
calls `tr`.  The pointer `data` is declared without a value and is set by `vkMapMemory`
only when the mapping succeeds; the result of the mapping is not examined, so after a
mapping that reports a failure the `memcpy` goes through the unset pointer, and the
behaviour is undefined from there. -/
def Mesh.createVertexBuffer (drv : Driver) (tr : List Event) (mesh : Mesh)
    (transferQueue transferCmdPool : Handle) (vertices : List Vertex) :
    List Event × Outcome Mesh :=
  let bufferSize := (sizeofVertex * vertices.length) % 2 ^ 64
  match createBuffer drv tr bufferSize VK_BUFFER_USAGE_TRANSFER_SRC_BIT
      (VK_MEMORY_PROPERTY_HOST_VISIBLE_BIT ||| VK_MEMORY_PROPERTY_HOST_COHERENT_BIT) with
  | (tr1, Outcome.raised e) => (tr1, Outcome.raised e)
  | (tr1, Outcome.undefined) => (tr1, Outcome.undefined)
  | (tr1, Outcome.returned (stagingBuffer, stagingBufferMemory)) =>
    let mapped := drv.vkMapMemory tr1 stagingBufferMemory 0 bufferSize 0
    let tr2 := tr1 ++ [Event.vkMapMemory stagingBufferMemory 0 bufferSize 0 mapped]
    if mapped ≠ VK_SUCCESS then (tr2, Outcome.undefined)
    else
      let tr3 := tr2 ++ [Event.memcpy stagingBufferMemory bufferSize]
      let tr4 := tr3 ++ [Event.vkUnmapMemory stagingBufferMemory]
      match createBuffer drv tr4 bufferSize
          (VK_BUFFER_USAGE_VERTEX_BUFFER_BIT ||| VK_BUFFER_USAGE_TRANSFER_DST_BIT)
          VK_MEMORY_PROPERTY_DEVICE_LOCAL_BIT with
      | (tr5, Outcome.raised e) => (tr5, Outcome.raised e)
      | (tr5, Outcome.undefined) => (tr5, Outcome.undefined)
      | (tr5, Outcome.returned (vertexBuffer, vertexBufferMemory)) =>
        let tr6 := copyBuffer drv tr5 transferQueue transferCmdPool stagingBuffer vertexBuffer
          bufferSize
        (tr6 ++ [Event.vkDestroyBuffer stagingBuffer, Event.vkFreeMemory stagingBufferMemory],
          Outcome.returned
            { mesh with
              m_vertexBuffer := vertexBuffer, m_vertexBufferMemory := vertexBufferMemory })

/-- The member function `Mesh::createIndexBuffer`, run on the object `mesh` after the
calls `tr`.  As in `Mesh::createVertexBuffer`, the behaviour is undefined after a mapping
that reports a failure: the `memcpy` goes through the pointer that the mapping did not
set. -/
def Mesh.createIndexBuffer (drv : Driver) (tr : List Event) (mesh : Mesh)
    (transferQueue transferCmdPool : Handle) (indices : List Nat) :
    List Event × Outcome Mesh :=
  let bufferSize := (sizeofUint32 * indices.length) % 2 ^ 64
  match createBuffer drv tr bufferSize VK_BUFFER_USAGE_TRANSFER_SRC_BIT
      (VK_MEMORY_PROPERTY_HOST_VISIBLE_BIT ||| VK_MEMORY_PROPERTY_HOST_COHERENT_BIT) with
  | (tr1, Outcome.raised e) => (tr1, Outcome.raised e)
  | (tr1, Outcome.undefined) => (tr1, Outcome.undefined)
  | (tr1, Outcome.returned (stagingBuffer, stagingBufferMemory)) =>
    let mapped := drv.vkMapMemory tr1 stagingBufferMemory 0 bufferSize 0
    let tr2 := tr1 ++ [Event.vkMapMemory stagingBufferMemory 0 bufferSize 0 mapped]
    if mapped ≠ VK_SUCCESS then (tr2, Outcome.undefined)
    else
      let tr3 := tr2 ++ [Event.memcpy stagingBufferMemory bufferSize]
      let tr4 := tr3 ++ [Event.vkUnmapMemory stagingBufferMemory]
      match createBuffer drv tr4 bufferSize
          (VK_BUFFER_USAGE_INDEX_BUFFER_BIT ||| VK_BUFFER_USAGE_TRANSFER_DST_BIT)
          VK_MEMORY_PROPERTY_DEVICE_LOCAL_BIT with
      | (tr5, Outcome.raised e) => (tr5, Outcome.raised e)
      | (tr5, Outcome.undefined) => (tr5, Outcome.undefined)
      | (tr5, Outcome.returned (indexBuffer, indexBufferMemory)) =>
        let tr6 := copyBuffer drv tr5 transferQueue transferCmdPool stagingBuffer indexBuffer
          bufferSize
        (tr6 ++ [Event.vkDestroyBuffer stagingBuffer, Event.vkFreeMemory stagingBufferMemory],
          Outcome.returned
            { mesh with m_indexBuffer := indexBuffer, m_indexBufferMemory := indexBufferMemory })

/-- The constructor `Mesh::Mesh(phys, log, transferQueue, transferCmdPool, vertices,
indices)`, run after the calls `tr`.  The buffer members hold no value until the two
uploads have stored one; `VK_NULL_HANDLE` stands for that, and no path returns it. -/
def Mesh.new (drv : Driver) (tr : List Event) (transferQueue transferCmdPool : Handle)
    (vertices : List Vertex) (indices : List Nat) : List Event × Outcome Mesh :=
  let mesh : Mesh :=
    { m_vertexCount := toInt vertices.length,
      m_indexCount := toInt indices.length,
      m_vertexBuffer := VK_NULL_HANDLE,
      m_indexBuffer := VK_NULL_HANDLE,
      m_vertexBufferMemory := VK_NULL_HANDLE,
      m_indexBufferMemory := VK_NULL_HANDLE }
  match Mesh.createVertexBuffer drv tr mesh transferQueue transferCmdPool vertices with
  | (tr1, Outcome.raised e) => (tr1, Outcome.raised e)
  | (tr1, Outcome.undefined) => (tr1, Outcome.undefined)
  | (tr1, Outcome.returned mesh1) =>
    Mesh.createIndexBuffer drv tr1 mesh1 transferQueue transferCmdPool indices

/-- The accessor `Mesh::getVertexCount`. -/
def Mesh.getVertexCount (mesh : Mesh) : Int := mesh.m_vertexCount

/-- The accessor `Mesh::getIndexCount`. -/
def Mesh.getIndexCount (mesh : Mesh) : Int := mesh.m_indexCount

/-- The accessor `Mesh::getVertexBuffer`. -/
def Mesh.getVertexBuffer (mesh : Mesh) : Handle := mesh.m_vertexBuffer

/-- The accessor `Mesh::getIndexBuffer`. -/
def Mesh.getIndexBuffer (mesh : Mesh) : Handle := mesh.m_indexBuffer

/-- The member function `Mesh::destroyVertexBuffer`, run after the calls `tr`: the calls
made so far at the end, and the object, no member of which is assigned. -/
def Mesh.destroyVertexBuffer (mesh : Mesh) (tr : List Event) : List Event × Mesh :=
  (tr ++ [Event.vkDestroyBuffer mesh.m_vertexBuffer,
      Event.vkFreeMemory mesh.m_vertexBufferMemory,
      Event.vkDestroyBuffer mesh.m_indexBuffer,
      Event.vkFreeMemory mesh.m_indexBufferMemory],
    mesh)

/-! ## The calls of one run, written out

The values a run obtains from the driver, and the calls the source makes with them on
each path.  The lemmas below show that the functions above make exactly these calls. -/

/-- The values the driver hands back during a `createBuffer` call that returns. -/
structure CreateRun where
  buffer : Handle
  reqs : VkMemoryRequirements
  memory : Handle
  bindResult : VkResult
  deriving DecidableEq, Repr

/-- The calls of a `createBuffer(size, usage, properties)` that returns, in order. -/
def createBufferCalls (p : VkPhysicalDeviceMemoryProperties) (size usage properties : Nat)
    (c : CreateRun) : List Event :=
  [Event.vkCreateBuffer ⟨size, usage, VK_SHARING_MODE_EXCLUSIVE⟩ VK_SUCCESS c.buffer,
    Event.vkGetBufferMemoryRequirements c.buffer c.reqs,
    Event.vkAllocateMemory
      ⟨c.reqs.size, findMemoryTypeIndex p c.reqs.memoryTypeBits properties⟩ VK_SUCCESS c.memory,
    Event.vkBindBufferMemory c.buffer c.memory 0 c.bindResult]

/-- The calls of a `createBuffer(size, usage, properties)` that throws `e`: either the
buffer creation reports a failure, or the buffer is created and the allocation reports a
failure. -/
def CreateBufferRaised (p : VkPhysicalDeviceMemoryProperties) (size usage properties : Nat)
    (evs : List Event) (e : RuntimeError) : Prop :=
  (∃ r b, r ≠ VK_SUCCESS ∧ e = RuntimeError.failedToCreateVkBuffer ∧
    evs = [Event.vkCreateBuffer ⟨size, usage, VK_SHARING_MODE_EXCLUSIVE⟩ r b]) ∨
  (∃ b reqs r m, r ≠ VK_SUCCESS ∧ e = RuntimeError.failedToAllocateVertexBufferMemory ∧
    evs = [Event.vkCreateBuffer ⟨size, usage, VK_SHARING_MODE_EXCLUSIVE⟩ VK_SUCCESS b,
      Event.vkGetBufferMemoryRequirements b reqs,
      Event.vkAllocateMemory ⟨reqs.size, findMemoryTypeIndex p reqs.memoryTypeBits properties⟩
        r m])

/-- The values the driver hands back during a `copyBuffer` call. -/
structure CopyRun where
  commandBuffer : Handle
  allocateResult : VkResult
  beginResult : VkResult
  endResult : VkResult
  submitResult : VkResult
  waitResult : VkResult
  deriving DecidableEq, Repr

/-- The calls of `copyBuffer(device, queue, pool, src, dst, size)`, in order. -/
def copyBufferCalls (queue pool src dst size : Nat) (c : CopyRun) : List Event :=
  [Event.vkAllocateCommandBuffers pool VK_COMMAND_BUFFER_LEVEL_PRIMARY 1 c.allocateResult
      c.commandBuffer,
    Event.vkBeginCommandBuffer c.commandBuffer VK_COMMAND_BUFFER_USAGE_ONE_TIME_SUBMIT_BIT
      c.beginResult,
    Event.vkCmdCopyBuffer c.commandBuffer src dst [⟨0, 0, size⟩],
    Event.vkEndCommandBuffer c.commandBuffer c.endResult,
    Event.vkQueueSubmit queue [⟨[c.commandBuffer]⟩] VK_NULL_HANDLE c.submitResult,
    Event.vkQueueWaitIdle queue c.waitResult,
    Event.vkFreeCommandBuffers pool [c.commandBuffer]]

/-- The values the driver hands back during an upload (`Mesh::createVertexBuffer` or
`Mesh::createIndexBuffer`) that returns. -/
structure UploadRun where
  staging : CreateRun
  mapResult : VkResult
  dst : CreateRun
  copy : CopyRun
  deriving DecidableEq, Repr

/-- The host-side filling of the staging memory: map, `memcpy`, unmap. -/
def fillCalls (size : Nat) (memory : Handle) (mapResult : VkResult) : List Event :=
  [Event.vkMapMemory memory 0 size 0 mapResult, Event.memcpy memory size,
    Event.vkUnmapMemory memory]

/-- The calls of an upload of `size` bytes into a buffer of usage `dstUsage` that returns,
in order. -/
def uploadCalls (p : VkPhysicalDeviceMemoryProperties) (size dstUsage queue pool : Nat)
    (u : UploadRun) : List Event :=
  createBufferCalls p size VK_BUFFER_USAGE_TRANSFER_SRC_BIT
      (VK_MEMORY_PROPERTY_HOST_VISIBLE_BIT ||| VK_MEMORY_PROPERTY_HOST_COHERENT_BIT) u.staging ++
    fillCalls size u.staging.memory u.mapResult ++
    createBufferCalls p size dstUsage VK_MEMORY_PROPERTY_DEVICE_LOCAL_BIT u.dst ++
    copyBufferCalls queue pool u.staging.buffer u.dst.buffer size u.copy ++
    [Event.vkDestroyBuffer u.staging.buffer, Event.vkFreeMemory u.staging.memory]

/-- The calls of an upload that throws `e`: the staging `createBuffer` throws, or it
returns, the staging memory is filled, and the destination `createBuffer` throws. -/
def UploadRaised (p : VkPhysicalDeviceMemoryProperties) (size dstUsage : Nat)
    (evs : List Event) (e : RuntimeError) : Prop :=
  CreateBufferRaised p size VK_BUFFER_USAGE_TRANSFER_SRC_BIT
      (VK_MEMORY_PROPERTY_HOST_VISIBLE_BIT ||| VK_MEMORY_PROPERTY_HOST_COHERENT_BIT) evs e ∨
  (∃ staging mapResult evs2,
    evs = createBufferCalls p size VK_BUFFER_USAGE_TRANSFER_SRC_BIT
        (VK_MEMORY_PROPERTY_HOST_VISIBLE_BIT ||| VK_MEMORY_PROPERTY_HOST_COHERENT_BIT) staging ++
      fillCalls size staging.memory mapResult ++ evs2 ∧
    CreateBufferRaised p size dstUsage VK_MEMORY_PROPERTY_DEVICE_LOCAL_BIT evs2 e)

/-- The size in bytes of the vertex data: `sizeof(Vertex)*vertices->size()` in `size_t`. -/
def vertexBytes (vertices : List Vertex) : Nat := (sizeofVertex * vertices.length) % 2 ^ 64

/-- The size in bytes of the index data: `sizeof(uint32_t)*indices->size()` in `size_t`. -/
def indexBytes (indices : List Nat) : Nat := (sizeofUint32 * indices.length) % 2 ^ 64

/-- The usage of the vertex buffer. -/
def vertexUsage : Nat := VK_BUFFER_USAGE_VERTEX_BUFFER_BIT ||| VK_BUFFER_USAGE_TRANSFER_DST_BIT

/-- The usage of the index buffer. -/
def indexUsage : Nat := VK_BUFFER_USAGE_INDEX_BUFFER_BIT ||| VK_BUFFER_USAGE_TRANSFER_DST_BIT

/-- The calls of a `Mesh` construction that throws `e`: the vertex upload throws, or it
returns and the index upload throws. -/
def MeshRaised (p : VkPhysicalDeviceMemoryProperties) (queue pool : Nat)
    (vertices : List Vertex) (indices : List Nat) (evs : List Event) (e : RuntimeError) : Prop :=
  UploadRaised p (vertexBytes vertices) vertexUsage evs e ∨
  (∃ uv evs2, evs = uploadCalls p (vertexBytes vertices) vertexUsage queue pool uv ++ evs2 ∧
    UploadRaised p (indexBytes indices) indexUsage evs2 e)

/-- The calls of an upload up to the point where its behaviour becomes undefined: the
staging `createBuffer` returns and the mapping of the staging memory reports a failure. -/
def UploadUndefined (p : VkPhysicalDeviceMemoryProperties) (size : Nat)
    (evs : List Event) : Prop :=
  ∃ (staging : CreateRun) (mapResult : VkResult), mapResult ≠ VK_SUCCESS ∧
    evs = createBufferCalls p size VK_BUFFER_USAGE_TRANSFER_SRC_BIT
        (VK_MEMORY_PROPERTY_HOST_VISIBLE_BIT ||| VK_MEMORY_PROPERTY_HOST_COHERENT_BIT) staging ++
      [Event.vkMapMemory staging.memory 0 size 0 mapResult]

/-- The calls of a `Mesh` construction up to the point where its behaviour becomes
undefined: in the vertex upload, or, after the vertex upload has returned, in the index
upload. -/
def MeshUndefined (p : VkPhysicalDeviceMemoryProperties) (queue pool : Nat)
    (vertices : List Vertex) (indices : List Nat) (evs : List Event) : Prop :=
  UploadUndefined p (vertexBytes vertices) evs ∨
  (∃ uv evs2, evs = uploadCalls p (vertexBytes vertices) vertexUsage queue pool uv ++ evs2 ∧
    UploadUndefined p (indexBytes indices) evs2)

/-! ## Observations on traces -/

/-- The calls that carry a byte count: buffer creation, mapping, the host copy and the
recorded buffer copy. -/
def Event.carriesSize : Event → Bool
  | Event.vkCreateBuffer _ _ _ => true
  | Event.vkMapMemory _ _ _ _ _ => true
  | Event.memcpy _ _ => true
  | Event.vkCmdCopyBuffer _ _ _ _ => true
  | _ => false

/-- Every byte count carried by the call is `n`: the size of a created buffer, the size of
a mapped range (which starts at offset 0), the count of a host copy, the size of every
region of a recorded copy. -/
def Event.sizesAre (n : Nat) : Event → Bool
  | Event.vkCreateBuffer info _ _ => info.size == n
  | Event.vkMapMemory _ offset size _ _ => offset == 0 && size == n
  | Event.memcpy _ count => count == n
  | Event.vkCmdCopyBuffer _ _ _ regions => regions.all (fun r => r.size == n)
  | _ => true

/-- The calls that release a buffer or a memory allocation. -/
def Event.isRelease : Event → Bool
  | Event.vkDestroyBuffer _ => true
  | Event.vkFreeMemory _ => true
  | _ => false

/-- The size-carrying calls of an upload of `size` bytes that returns, in order: the
staging buffer is created, its memory mapped from offset 0 and filled, the destination
buffer is created, and one region is copied from offset 0 to offset 0. -/
def sizedCalls (size dstUsage : Nat) (stagingBuffer stagingMemory : Handle)
    (mapResult : VkResult) (dstBuffer cmd : Handle) : List Event :=
  [Event.vkCreateBuffer ⟨size, VK_BUFFER_USAGE_TRANSFER_SRC_BIT, VK_SHARING_MODE_EXCLUSIVE⟩
      VK_SUCCESS stagingBuffer,
    Event.vkMapMemory stagingMemory 0 size 0 mapResult,
    Event.memcpy stagingMemory size,
    Event.vkCreateBuffer ⟨size, dstUsage, VK_SHARING_MODE_EXCLUSIVE⟩ VK_SUCCESS dstBuffer,
    Event.vkCmdCopyBuffer cmd stagingBuffer dstBuffer [⟨0, 0, size⟩]]

/-- The result code the call reported, for the calls that report one. -/
def Event.result : Event → Option VkResult
  | Event.vkCreateBuffer _ r _ => some r
  | Event.vkAllocateMemory _ r _ => some r
  | Event.vkBindBufferMemory _ _ _ r => some r
  | Event.vkMapMemory _ _ _ _ r => some r
  | Event.vkAllocateCommandBuffers _ _ _ r _ => some r
  | Event.vkBeginCommandBuffer _ _ r => some r
  | Event.vkEndCommandBuffer _ r => some r
  | Event.vkQueueSubmit _ _ _ r => some r
  | Event.vkQueueWaitIdle _ r => some r
  | _ => none

/-- The call reported a result other than `VK_SUCCESS`. -/
def Event.failed (e : Event) : Bool :=
  match e.result with
  | some r => r != VK_SUCCESS
  | none => false

/-- The call is a `vkCreateBuffer` or a `vkAllocateMemory` that reported a result other
than `VK_SUCCESS`: the two results that `createBuffer` compares with `VK_SUCCESS`. -/
def Event.isCheckedFailure : Event → Bool
  | Event.vkCreateBuffer _ r _ => r != VK_SUCCESS
  | Event.vkAllocateMemory _ r _ => r != VK_SUCCESS
  | _ => false

/-- The calls made by `createBuffer`: buffer creation, the query of its memory
requirements, memory allocation and binding. -/
def Event.isCreation : Event → Bool
  | Event.vkCreateBuffer _ _ _ => true
  | Event.vkGetBufferMemoryRequirements _ _ => true
  | Event.vkAllocateMemory _ _ _ => true
  | Event.vkBindBufferMemory _ _ _ _ => true
  | _ => false

/-- The calls through which the host reaches device memory: mapping and the host copy. -/
def Event.isHostAccess : Event → Bool
  | Event.vkMapMemory _ _ _ _ _ => true
  | Event.memcpy _ _ => true
  | _ => false

/-- The recorded buffer-to-buffer copies. -/
def Event.isCopy : Event → Bool
  | Event.vkCmdCopyBuffer _ _ _ _ => true
  | _ => false

/-- Every `vkMapMemory` call in `evs` comes right after the four calls of a `createBuffer`
with usage `TRANSFER_SRC` and properties `HOST_VISIBLE | HOST_COHERENT`, maps the memory
that this `createBuffer` allocated, from offset 0, over the size of that buffer. -/
def MapsStaging (p : VkPhysicalDeviceMemoryProperties) (evs : List Event) : Prop :=
  ∀ pre post m offset size flags r,
    evs = pre ++ Event.vkMapMemory m offset size flags r :: post →
    ∃ pre' c, pre = pre' ++ createBufferCalls p size VK_BUFFER_USAGE_TRANSFER_SRC_BIT
        (VK_MEMORY_PROPERTY_HOST_VISIBLE_BIT ||| VK_MEMORY_PROPERTY_HOST_COHERENT_BIT) c ∧
      c.memory = m ∧ offset = 0

/-- Every host copy in `evs` comes right after the mapping of the memory it writes, and
writes as many bytes as were mapped. -/
def WritesMapped (evs : List Event) : Prop :=
  ∀ pre post m count, evs = pre ++ Event.memcpy m count :: post →
    ∃ pre' r, pre = pre' ++ [Event.vkMapMemory m 0 count 0 r]

/-! ## Sample drivers -/

/-- The size with which buffer `b` was last created in `tr`. -/
def createdSize (tr : List Event) (b : Handle) : Nat :=
  tr.foldl
    (fun acc e =>
      match e with
      | Event.vkCreateBuffer info _ h => if h = b then info.size else acc
      | _ => acc)
    0

/-- A device with two memory types: type 0 is device-local, type 1 is host-visible and
host-coherent. -/
def sampleMemoryProperties : VkPhysicalDeviceMemoryProperties :=
  { memoryTypeCount := 2,
    memoryTypes := [⟨VK_MEMORY_PROPERTY_DEVICE_LOCAL_BIT, 0⟩,
      ⟨VK_MEMORY_PROPERTY_HOST_VISIBLE_BIT ||| VK_MEMORY_PROPERTY_HOST_COHERENT_BIT, 1⟩] }

/-- A driver on which every call succeeds.  Each new object gets the number of calls made
so far plus one as its handle, so no handle is handed out twice; a buffer may live in
either memory type. -/
def okDriver : Driver :=
  { memoryProperties := sampleMemoryProperties,
    vkCreateBuffer := fun tr _ => (VK_SUCCESS, tr.length + 1),
    vkGetBufferMemoryRequirements := fun tr b =>
      { size := createdSize tr b, alignment := 1, memoryTypeBits := 3 },
    vkAllocateMemory := fun tr _ => (VK_SUCCESS, tr.length + 1),
    vkBindBufferMemory := fun _ _ _ _ => VK_SUCCESS,
    vkMapMemory := fun _ _ _ _ _ => VK_SUCCESS,
    vkAllocateCommandBuffers := fun tr _ _ _ => (VK_SUCCESS, tr.length + 1),
    vkBeginCommandBuffer := fun _ _ _ => VK_SUCCESS,
    vkEndCommandBuffer := fun _ _ => VK_SUCCESS,
    vkQueueSubmit := fun _ _ _ _ => VK_SUCCESS,
    vkQueueWaitIdle := fun _ _ => VK_SUCCESS }

/-- The driver `okDriver`, except that every buffer may live in memory type 0 only, the
device-local type. -/
def deviceLocalOnlyDriver : Driver :=
  { okDriver with
    vkGetBufferMemoryRequirements := fun tr b =>
      { size := createdSize tr b, alignment := 1, memoryTypeBits := 1 } }

/-- The header value of `VK_ERROR_DEVICE_LOST`. -/
def VK_ERROR_DEVICE_LOST : VkResult := -4

/-- The driver `okDriver` on a device that is lost during the transfer: every queue
submission and every queue-idle wait reports `VK_ERROR_DEVICE_LOST`. -/
def lostDriver : Driver :=
  { okDriver with
    vkQueueSubmit := fun _ _ _ _ => VK_ERROR_DEVICE_LOST,
    vkQueueWaitIdle := fun _ _ => VK_ERROR_DEVICE_LOST }

/-- The header value of `VK_ERROR_MEMORY_MAP_FAILED`. -/
def VK_ERROR_MEMORY_MAP_FAILED : VkResult := -5

/-- The driver `okDriver`, except that every mapping of memory reports
`VK_ERROR_MEMORY_MAP_FAILED`. -/
def mapFailedDriver : Driver :=
  { okDriver with vkMapMemory := fun _ _ _ _ _ => VK_ERROR_MEMORY_MAP_FAILED }

/-- The triangle of the specification's scenario: three vertices. -/
def triangleVertices : List Vertex :=
  [⟨(0, 0, 0), (1, 0, 0)⟩, ⟨(1, 0, 0), (0, 1, 0)⟩, ⟨(0, 1, 0), (0, 0, 1)⟩]

/-- The triangle of the specification's scenario: three indices. -/
def triangleIndices : List Nat := [0, 1, 2]

/-- The header value of `VK_ERROR_OUT_OF_DEVICE_MEMORY`. -/
def VK_ERROR_OUT_OF_DEVICE_MEMORY : VkResult := -2

/-- The driver `okDriver` on a device without free memory: every allocation reports
`VK_ERROR_OUT_OF_DEVICE_MEMORY`. -/
def outOfMemoryDriver : Driver :=
  { okDriver with
    vkAllocateMemory := fun _ _ => (VK_ERROR_OUT_OF_DEVICE_MEMORY, VK_NULL_HANDLE) }

/-- The driver `okDriver`, except that it creates staging buffers only: the creation of a
buffer of any usage other than `TRANSFER_SRC` reports `VK_ERROR_OUT_OF_DEVICE_MEMORY`. -/
def stagingOnlyDriver : Driver :=
  { okDriver with
    vkCreateBuffer := fun tr info =>
      if info.usage = VK_BUFFER_USAGE_TRANSFER_SRC_BIT then (VK_SUCCESS, tr.length + 1)
      else (VK_ERROR_OUT_OF_DEVICE_MEMORY, VK_NULL_HANDLE) }

/-! ## L3-GraphicsPipeline: the renderer

`src/vulkan_renderer.cpp` and `include/vulkan_renderer.h` of L3-GraphicsPipeline, with the
declarations of `utilities.h` it uses.  The window system, the Vulkan loader, the devices
and the file system are a `Platform`; the calls that create or destroy an object are
recorded as `Call`s, the queries are not. -/

def EXIT_SUCCESS : Int := 0
def EXIT_FAILURE : Int := 1

def VK_QUEUE_GRAPHICS_BIT : Nat := 0x1
def VK_FORMAT_UNDEFINED : Nat := 0
def VK_FORMAT_R8G8B8A8_UNORM : Nat := 37
def VK_FORMAT_B8G8R8A8_UNORM : Nat := 44
def VK_COLOR_SPACE_SRGB_NONLINEAR_KHR : Nat := 0
def VK_PRESENT_MODE_MAILBOX_KHR : Nat := 1
def VK_PRESENT_MODE_FIFO_KHR : Nat := 2
def VK_SHARING_MODE_CONCURRENT : Nat := 1
def VK_IMAGE_ASPECT_COLOR_BIT : Nat := 0x1
def VK_IMAGE_USAGE_COLOR_ATTACHMENT_BIT : Nat := 0x10
def VK_COMPOSITE_ALPHA_OPAQUE_BIT_KHR : Nat := 0x1
def VK_IMAGE_VIEW_TYPE_2D : Nat := 1
def VK_TRUE : Nat := 1

/-- The header value of `VK_KHR_SWAPCHAIN_EXTENSION_NAME`. -/
def VK_KHR_SWAPCHAIN_EXTENSION_NAME : String := "VK_KHR_swapchain"

/-- The constant `DEVICE_EXTENSIONS` of utilities.h. -/
def DEVICE_EXTENSIONS : List String :=
  [VK_KHR_SWAPCHAIN_EXTENSION_NAME, "VK_KHR_portability_subset"]

/-- The struct `QueueFamilyIndices` of utilities.h; both members start at -1. -/
structure QueueFamilyIndices where
  graphicsFamily : Int := -1
  presentationFamily : Int := -1
  deriving DecidableEq, Repr

/-- The member function `QueueFamilyIndices::isValid`. -/
def QueueFamilyIndices.isValid (q : QueueFamilyIndices) : Bool :=
  decide (q.graphicsFamily ≥ 0) && decide (q.presentationFamily ≥ 0)

structure VkExtent2D where
  width : Nat
  height : Nat
  deriving DecidableEq, Repr

structure VkSurfaceFormatKHR where
  format : Nat
  colorSpace : Nat
  deriving DecidableEq, Repr

/-- The fields of `VkSurfaceCapabilitiesKHR` that are read. -/
structure VkSurfaceCapabilitiesKHR where
  minImageCount : Nat
  maxImageCount : Nat
  currentExtent : VkExtent2D
  minImageExtent : VkExtent2D
  maxImageExtent : VkExtent2D
  currentTransform : Nat
  deriving DecidableEq, Repr

/-- The fields of `VkQueueFamilyProperties` that are read. -/
structure VkQueueFamilyProperties where
  queueFlags : Nat
  queueCount : Nat
  deriving DecidableEq, Repr

/-- The struct `SwapchainDetails` of utilities.h. -/
structure SwapchainDetails where
  surfaceCapabilities : VkSurfaceCapabilitiesKHR
  formats : List VkSurfaceFormatKHR
  presentModes : List Nat
  deriving DecidableEq, Repr

/-- The struct `SwapchainImage` of utilities.h. -/
structure SwapchainImage where
  image : Handle
  imageView : Handle
  deriving DecidableEq, Repr

/-- The fields of `VkInstanceCreateInfo` that `createInstance` sets. -/
structure VkInstanceCreateInfo where
  enabledLayerNames : List String
  enabledExtensionNames : List String
  deriving DecidableEq, Repr

/-- The fields of `VkDeviceQueueCreateInfo` that `createLogicalDevice` sets. -/
structure VkDeviceQueueCreateInfo where
  queueFamilyIndex : Nat
  queueCount : Nat
  deriving DecidableEq, Repr

/-- The fields of `VkDeviceCreateInfo` that `createLogicalDevice` sets. -/
structure VkDeviceCreateInfo where
  queueCreateInfos : List VkDeviceQueueCreateInfo
  enabledExtensionNames : List String
  deriving DecidableEq, Repr

/-- The struct `VkSwapchainCreateInfoKHR` as `vkCreateSwapchainKHR` reads it;
`queueFamilyIndices` holds the `queueFamilyIndexCount` values that the call finds at
`pQueueFamilyIndices`. -/
structure VkSwapchainCreateInfoKHR where
  surface : Handle
  minImageCount : Nat
  imageFormat : Nat
  imageColorSpace : Nat
  imageExtent : VkExtent2D
  imageArrayLayers : Nat
  imageUsage : Nat
  imageSharingMode : Nat
  queueFamilyIndices : List Nat
  preTransform : Nat
  compositeAlpha : Nat
  presentMode : Nat
  clipped : Nat
  oldSwapchain : Handle
  deriving DecidableEq, Repr

/-- The fields of `VkImageViewCreateInfo` that depend on the arguments of
`createImageView`; the others are constants (identity swizzle, one level, one layer). -/
structure VkImageViewCreateInfo where
  image : Handle
  viewType : Nat
  format : Nat
  aspectMask : Nat
  deriving DecidableEq, Repr

/-- The fields of `VkGraphicsPipelineCreateInfo` that depend on the state of the renderer:
the modules of the two shader stages, the extent of viewport and scissor, the layout and
the render pass.  The fixed-function state is constant. -/
structure VkGraphicsPipelineCreateInfo where
  vertexModule : Handle
  fragmentModule : Handle
  extent : VkExtent2D
  layout : Handle
  renderPass : Handle
  deriving DecidableEq, Repr

/-- One call of the renderer that creates, fetches or destroys an object, with the
arguments passed and the values returned. -/
inductive Call where
  | vkCreateInstance (info : VkInstanceCreateInfo) (result : VkResult) (inst : Handle)
  | glfwCreateWindowSurface (inst window : Handle) (result : VkResult) (surface : Handle)
  | vkCreateDevice (physical : Handle) (info : VkDeviceCreateInfo) (result : VkResult)
      (device : Handle)
  | vkGetDeviceQueue (device : Handle) (queueFamilyIndex queueIndex : Nat) (queue : Handle)
  | vkCreateSwapchainKHR (device : Handle) (info : VkSwapchainCreateInfoKHR)
      (result : VkResult) (swapchain : Handle)
  | vkCreateImageView (device : Handle) (info : VkImageViewCreateInfo) (result : VkResult)
      (view : Handle)
  | vkCreateShaderModule (device : Handle) (code : List Nat) (result : VkResult)
      (shaderModule : Handle)
  | vkCreateRenderPass (device : Handle) (format : Nat) (result : VkResult)
      (renderPass : Handle)
  | vkCreatePipelineLayout (device : Handle) (result : VkResult) (layout : Handle)
  | vkCreateGraphicsPipelines (device : Handle) (info : VkGraphicsPipelineCreateInfo)
      (result : VkResult) (pipeline : Handle)
  | vkDestroyShaderModule (device shaderModule : Handle)
  | vkDestroyPipeline (device pipeline : Handle)
  | vkDestroyPipelineLayout (device layout : Handle)
  | vkDestroyRenderPass (device renderPass : Handle)
  | vkDestroyImageView (device view : Handle)
  | vkDestroySwapchainKHR (device swapchain : Handle)
  | vkDestroyDevice (device : Handle)
  | vkDestroySurfaceKHR (inst surface : Handle)
  | vkDestroyInstance (inst : Handle)
  deriving DecidableEq, Repr

/-- What the renderer runs on.  The first group answers the queries, which report the same
on every call; the second group answers the creating calls, given the calls made so far
and the arguments.  `files` gives the bytes of the file at a path that can be opened.
`CFG_RELEASE` tells whether the macro of that name is defined in the build.
`danglingQueueIndices` gives the two values found, at the time of the
`vkCreateSwapchainKHR` call, in the storage that the array `queueIndices` of
`createSwapChain` occupied: the array is local to a block that has ended by then, so the
program does not determine them. -/
structure Platform where
  CFG_RELEASE : Bool
  danglingQueueIndices : Nat × Nat
  glfwGetRequiredInstanceExtensions : List String
  vkEnumerateInstanceExtensionProperties : List String
  vkEnumeratePhysicalDevices : Handle → List Handle
  vkEnumerateDeviceExtensionProperties : Handle → List String
  vkGetPhysicalDeviceQueueFamilyProperties : Handle → List VkQueueFamilyProperties
  vkGetPhysicalDeviceSurfaceSupportKHR : Handle → Nat → Handle → Bool
  vkGetPhysicalDeviceSurfaceCapabilitiesKHR : Handle → Handle → VkSurfaceCapabilitiesKHR
  vkGetPhysicalDeviceSurfaceFormatsKHR : Handle → Handle → List VkSurfaceFormatKHR
  vkGetPhysicalDeviceSurfacePresentModesKHR : Handle → Handle → List Nat
  glfwGetFramebufferSize : Handle → Int × Int
  vkGetDeviceQueue : Handle → Nat → Nat → Handle
  vkGetSwapchainImagesKHR : Handle → Handle → List Handle
  files : String → Option (List Nat)
  vkCreateInstance : List Call → VkInstanceCreateInfo → VkResult × Handle
  glfwCreateWindowSurface : List Call → Handle → Handle → VkResult × Handle
  vkCreateDevice : List Call → Handle → VkDeviceCreateInfo → VkResult × Handle
  vkCreateSwapchainKHR : List Call → Handle → VkSwapchainCreateInfoKHR → VkResult × Handle
  vkCreateImageView : List Call → Handle → VkImageViewCreateInfo → VkResult × Handle
  vkCreateShaderModule : List Call → Handle → List Nat → VkResult × Handle
  vkCreateRenderPass : List Call → Handle → Nat → VkResult × Handle
  vkCreatePipelineLayout : List Call → Handle → VkResult × Handle
  vkCreateGraphicsPipelines :
    List Call → Handle → VkGraphicsPipelineCreateInfo → VkResult × Handle

/-- The `std::runtime_error`s thrown by the renderer and by `readFile`, by message. -/
inductive RendererError where
  /-- Thrown with "VkInstance does not support required extensions". -/
  | instanceExtensionsUnsupported
  /-- Thrown with "Failed to create Vulkan Instance". -/
  | failedToCreateInstance
  /-- Thrown with "Failed to create GLFW surface". -/
  | failedToCreateSurface
  /-- Thrown with "No Vulkan physical device available". -/
  | noPhysicalDevice
  /-- Thrown with "Could not create Vulkan Logic Device". -/
  | couldNotCreateLogicalDevice
  /-- Thrown with "Failed to create VkImageView". -/
  | failedToCreateImageView
  /-- Thrown with "Failed to open file". -/
  | failedToOpenFile
  /-- Thrown with "Failed to create shader module". -/
  | failedToCreateShaderModule
  /-- Thrown with "Could not create render pass". -/
  | couldNotCreateRenderPass
  /-- Thrown with "Failed to create pipeline layout". -/
  | failedToCreatePipelineLayout
  /-- Thrown with "Could not create Graphics Pipeline". -/
  | couldNotCreateGraphicsPipeline
  deriving DecidableEq, Repr

/-- The message of the exception, as `what()` gives it. -/
def RendererError.what : RendererError → String
  | instanceExtensionsUnsupported => "VkInstance does not support required extensions"
  | failedToCreateInstance => "Failed to create Vulkan Instance"
  | failedToCreateSurface => "Failed to create GLFW surface"
  | noPhysicalDevice => "No Vulkan physical device available"
  | couldNotCreateLogicalDevice => "Could not create Vulkan Logic Device"
  | failedToCreateImageView => "Failed to create VkImageView"
  | failedToOpenFile => "Failed to open file"
  | failedToCreateShaderModule => "Failed to create shader module"
  | couldNotCreateRenderPass => "Could not create render pass"
  | failedToCreatePipelineLayout => "Failed to create pipeline layout"
  | couldNotCreateGraphicsPipeline => "Could not create Graphics Pipeline"

/-- How a call of the renderer ends: it returns a value, it throws, or its behaviour is
undefined (an element of an empty vector is read). -/
inductive Completion (α : Type) where
  | returned (value : α)
  | raised (error : RendererError)
  | undefined
  deriving DecidableEq, Repr

/-! ### readFile -/

/-- The member function `std::istream::read` on a stream over `bytes` positioned at `pos`:
up to `n` bytes are copied to the front of `buf`. -/
def streamRead (bytes : List Nat) (pos n : Nat) (buf : List Nat) : List Nat :=
  ((bytes.drop pos).take n) ++ buf.drop ((bytes.drop pos).take n).length

/-- The function `readFile` of utilities.h on the file system `files`.  The stream is
opened in binary mode at the end of the file, so that `tellg` gives the size of the file. -/
def readFile (files : String → Option (List Nat)) (path : String) : Completion (List Nat) :=
  match files path with
  | none => Completion.raised RendererError.failedToOpenFile
  | some bytes =>
    let fsize := bytes.length
    let contents := List.replicate fsize 0
    Completion.returned (streamRead bytes 0 fsize contents)

/-! ### The renderer object -/

/-- The member `m_device` of `VulkanRenderer`. -/
structure DeviceHandles where
  physical : Handle
  logical : Handle
  deriving DecidableEq, Repr

/-- The member `m_surface` of `VulkanRenderer`. -/
structure SurfaceState where
  surface : Handle
  format : Nat
  extent : VkExtent2D
  deriving DecidableEq, Repr

/-- The data members of class `VulkanRenderer` (vulkan_renderer.h). -/
structure VulkanRenderer where
  m_window : Handle
  m_instance : Handle
  m_device : DeviceHandles
  m_gfxQueue : Handle
  m_presentQueue : Handle
  m_surface : SurfaceState
  m_swapchain : Handle
  m_swapchainImages : List SwapchainImage
  m_pipelineLayout : Handle
  m_renderpass : Handle
  m_gfxpipeline : Handle
  deriving DecidableEq, Repr

/-- The renderer object together with the calls made so far. -/
structure Machine where
  renderer : VulkanRenderer
  calls : List Call
  deriving DecidableEq, Repr

/-- Conversion of an `int` to `uint32_t`. -/
def toUInt32 (i : Int) : Nat := (i % 2 ^ 32).toNat

/-! ### Extension checks -/

/-- The inner loop of the extension checks: whether some reported name equals `ext`
(`strcmp(ext, vkext.extensionName) == 0`). -/
def hasExtension (ext : String) : List String → Bool
  | [] => false
  | vkext :: rest => if ext == vkext then true else hasExtension ext rest

/-- The outer loop of the extension checks: `false` at the first name of `tocheck` that no
reported extension carries, `true` when the loop ends. -/
def checkExtensions (extensions : List String) : List String → Bool
  | [] => true
  | ext :: rest =>
    if !(hasExtension ext extensions) then false else checkExtensions extensions rest

/-- The member function `VulkanRenderer::checkInstanceExtensionSupport`. -/
def VulkanRenderer.checkInstanceExtensionSupport (p : Platform) (tocheck : List String) :
    Bool :=
  checkExtensions p.vkEnumerateInstanceExtensionProperties tocheck

/-- The member function `VulkanRenderer::checkDeviceExtensionSupport`. -/
def VulkanRenderer.checkDeviceExtensionSupport (p : Platform) (dev : Handle) : Bool :=
  let extensionProperties := p.vkEnumerateDeviceExtensionProperties dev
  if extensionProperties.length == 0 then false
  else checkExtensions extensionProperties DEVICE_EXTENSIONS

/-! ### Queue families -/

/-- The loop of `getQueueFamilies` over the rest of `queueFamilyList`, with the value of
`i` and of `indicies` at the start of the iteration. -/
def getQueueFamiliesLoop (p : Platform) (dev surface : Handle) :
    List VkQueueFamilyProperties → Int → QueueFamilyIndices → QueueFamilyIndices
  | [], _, indicies => indicies
  | queueFamily :: rest, i, indicies =>
    let indicies1 :=
      if queueFamily.queueCount > 0 ∧ queueFamily.queueFlags &&& VK_QUEUE_GRAPHICS_BIT ≠ 0 then
        { indicies with graphicsFamily := i }
      else indicies
    let presentationSupport := p.vkGetPhysicalDeviceSurfaceSupportKHR dev (toUInt32 i) surface
    let indicies2 :=
      if queueFamily.queueCount > 0 ∧ presentationSupport = true then
        { indicies1 with presentationFamily := i }
      else indicies1
    if indicies2.isValid then indicies2
    else getQueueFamiliesLoop p dev surface rest (i + 1) indicies2

/-- The member function `VulkanRenderer::getQueueFamilies`. -/
def VulkanRenderer.getQueueFamilies (p : Platform) (r : VulkanRenderer) (dev : Handle) :
    QueueFamilyIndices :=
  getQueueFamiliesLoop p dev r.m_surface.surface
    (p.vkGetPhysicalDeviceQueueFamilyProperties dev) 0 {}

/-! ### Swapchain choices -/

/-- The member function `VulkanRenderer::getSwapchainDetails`. -/
def VulkanRenderer.getSwapchainDetails (p : Platform) (r : VulkanRenderer) (dev : Handle) :
    SwapchainDetails :=
  { surfaceCapabilities := p.vkGetPhysicalDeviceSurfaceCapabilitiesKHR dev r.m_surface.surface,
    formats := p.vkGetPhysicalDeviceSurfaceFormatsKHR dev r.m_surface.surface,
    presentModes := p.vkGetPhysicalDeviceSurfacePresentModesKHR dev r.m_surface.surface }

/-- The loop of `getBestSurfaceFormat`: the first entry with one of the two wanted formats
and the wanted colour space. -/
def firstWantedFormat : List VkSurfaceFormatKHR → Option VkSurfaceFormatKHR
  | [] => none
  | format :: rest =>
    if (format.format = VK_FORMAT_R8G8B8A8_UNORM ∨ format.format = VK_FORMAT_B8G8R8A8_UNORM) ∧
        format.colorSpace = VK_COLOR_SPACE_SRGB_NONLINEAR_KHR then some format
    else firstWantedFormat rest

/-- The member function `VulkanRenderer::getBestSurfaceFormat`; `none` when it reads
`formats[0]` of an empty vector. -/
def VulkanRenderer.getBestSurfaceFormat (formats : List VkSurfaceFormatKHR) :
    Option VkSurfaceFormatKHR :=
  let undefinedOnly :=
    match formats with
    | [format] => decide (format.format = VK_FORMAT_UNDEFINED)
    | _ => false
  if undefinedOnly then some ⟨VK_FORMAT_R8G8B8A8_UNORM, VK_COLOR_SPACE_SRGB_NONLINEAR_KHR⟩
  else
    match firstWantedFormat formats with
    | some format => some format
    | none => formats.head?

/-- The member function `VulkanRenderer::getBestPresentMode`. -/
def VulkanRenderer.getBestPresentMode : List Nat → Nat
  | [] => VK_PRESENT_MODE_FIFO_KHR
  | mode :: rest =>
    if mode = VK_PRESENT_MODE_MAILBOX_KHR then mode
    else VulkanRenderer.getBestPresentMode rest

/-- The function `std::clamp(v, lo, hi)`. -/
def clamp (v lo hi : Nat) : Nat :=
  if v < lo then lo else if hi < v then hi else v

/-- The member function `VulkanRenderer::getBestSwapchainExtent`.  The clamped values are
stored in the `int` variables and converted back to `uint32_t` for the result. -/
def VulkanRenderer.getBestSwapchainExtent (p : Platform) (r : VulkanRenderer)
    (capabilities : VkSurfaceCapabilitiesKHR) : VkExtent2D :=
  if capabilities.currentExtent.width ≠ UINT32_MAX then capabilities.currentExtent
  else
    let size := p.glfwGetFramebufferSize r.m_window
    let width : Int := toInt (clamp (toUInt32 size.1)
      capabilities.maxImageExtent.width capabilities.maxImageExtent.width)
    let height : Int := toInt (clamp (toUInt32 size.2)
      capabilities.maxImageExtent.height capabilities.maxImageExtent.height)
    { width := toUInt32 width, height := toUInt32 height }

/-! ### Set-up steps -/

/-- The member function `VulkanRenderer::createInstance`. -/
def VulkanRenderer.createInstance (p : Platform) (s : Machine) : Machine × Completion Unit :=
  let layers := ["VK_LAYER_KHRONOS_validation"]
  let instanceExtensions := p.glfwGetRequiredInstanceExtensions
  if !(VulkanRenderer.checkInstanceExtensionSupport p instanceExtensions) then
    (s, Completion.raised RendererError.instanceExtensionsUnsupported)
  else
    let createInfo : VkInstanceCreateInfo :=
      { enabledLayerNames := if p.CFG_RELEASE then [] else layers,
        enabledExtensionNames := instanceExtensions }
    let created := p.vkCreateInstance s.calls createInfo
    let s1 : Machine :=
      { renderer := { s.renderer with m_instance := created.2 },
        calls := s.calls ++ [Call.vkCreateInstance createInfo created.1 created.2] }
    if created.1 ≠ VK_SUCCESS then
      (s1, Completion.raised RendererError.failedToCreateInstance)
    else (s1, Completion.returned ())

/-- The member function `VulkanRenderer::createSurface`. -/
def VulkanRenderer.createSurface (p : Platform) (s : Machine) : Machine × Completion Unit :=
  let created := p.glfwCreateWindowSurface s.calls s.renderer.m_instance s.renderer.m_window
  let s1 : Machine :=
    { renderer :=
        { s.renderer with m_surface := { s.renderer.m_surface with surface := created.2 } },
      calls := s.calls ++
        [Call.glfwCreateWindowSurface s.renderer.m_instance s.renderer.m_window created.1
          created.2] }
  if created.1 ≠ VK_SUCCESS then (s1, Completion.raised RendererError.failedToCreateSurface)
  else (s1, Completion.returned ())

/-- The member function `VulkanRenderer::checkPhysicalDevice`. -/
def VulkanRenderer.checkPhysicalDevice (p : Platform) (r : VulkanRenderer) (device : Handle) :
    Bool :=
  let deviceSuitable := true
  let deviceSuitable1 := deviceSuitable && (VulkanRenderer.getQueueFamilies p r device).isValid
  let deviceSuitable2 :=
    deviceSuitable1 && VulkanRenderer.checkDeviceExtensionSupport p device
  let swapchainDetails := VulkanRenderer.getSwapchainDetails p r device
  deviceSuitable2 &&
    (!swapchainDetails.formats.isEmpty && !swapchainDetails.presentModes.isEmpty)

/-- The loop of `getPhysicalDevice`: the first device of the list for which
`checkPhysicalDevice` holds, where the loop breaks. -/
def firstSuitableDevice (p : Platform) (r : VulkanRenderer) : List Handle → Option Handle
  | [] => none
  | device :: rest =>
    if VulkanRenderer.checkPhysicalDevice p r device then some device
    else firstSuitableDevice p r rest

/-- The member function `VulkanRenderer::getPhysicalDevice`.  When the loop ends without
a suitable device, `m_device.physical` is left as it was. -/
def VulkanRenderer.getPhysicalDevice (p : Platform) (s : Machine) :
    Machine × Completion Unit :=
  let deviceList := p.vkEnumeratePhysicalDevices s.renderer.m_instance
  if deviceList.length == 0 then (s, Completion.raised RendererError.noPhysicalDevice)
  else
    match firstSuitableDevice p s.renderer deviceList with
    | some device =>
      ({ s with renderer :=
          { s.renderer with m_device := { s.renderer.m_device with physical := device } } },
        Completion.returned ())
    | none => (s, Completion.returned ())

/-- The elements of `std::set<int>{a, b}` in iteration order. -/
def intSet (a b : Int) : List Int :=
  if a = b then [a] else if a < b then [a, b] else [b, a]

/-- The member function `VulkanRenderer::createLogicalDevice`. -/
def VulkanRenderer.createLogicalDevice (p : Platform) (s : Machine) :
    Machine × Completion Unit :=
  let indices := VulkanRenderer.getQueueFamilies p s.renderer s.renderer.m_device.physical
  let queueFamilyIndices := intSet indices.graphicsFamily indices.presentationFamily
  let queueInfos : List VkDeviceQueueCreateInfo :=
    queueFamilyIndices.map (fun index => { queueFamilyIndex := toUInt32 index, queueCount := 1 })
  let devInfo : VkDeviceCreateInfo :=
    { queueCreateInfos := queueInfos, enabledExtensionNames := DEVICE_EXTENSIONS }
  let created := p.vkCreateDevice s.calls s.renderer.m_device.physical devInfo
  let s1 : Machine :=
    { renderer :=
        { s.renderer with m_device := { s.renderer.m_device with logical := created.2 } },
      calls := s.calls ++
        [Call.vkCreateDevice s.renderer.m_device.physical devInfo created.1 created.2] }
  if created.1 ≠ VK_SUCCESS then
    (s1, Completion.raised RendererError.couldNotCreateLogicalDevice)
  else
    let gfxQueue := p.vkGetDeviceQueue created.2 (toUInt32 indices.graphicsFamily) 0
    let presentQueue := p.vkGetDeviceQueue created.2 (toUInt32 indices.presentationFamily) 0
    ({ renderer := { s1.renderer with m_gfxQueue := gfxQueue, m_presentQueue := presentQueue },
       calls := s1.calls ++
        [Call.vkGetDeviceQueue created.2 (toUInt32 indices.graphicsFamily) 0 gfxQueue,
          Call.vkGetDeviceQueue created.2 (toUInt32 indices.presentationFamily) 0
            presentQueue] },
      Completion.returned ())

/-- The member function `VulkanRenderer::createImageView`. -/
def VulkanRenderer.createImageView (p : Platform) (s : Machine)
    (image format aspectFlags : Nat) : Machine × Completion Handle :=
  let viewInfo : VkImageViewCreateInfo :=
    { image := image, viewType := VK_IMAGE_VIEW_TYPE_2D, format := format,
      aspectMask := aspectFlags }
  let created := p.vkCreateImageView s.calls s.renderer.m_device.logical viewInfo
  let s1 : Machine :=
    { s with calls := s.calls ++
        [Call.vkCreateImageView s.renderer.m_device.logical viewInfo created.1 created.2] }
  if created.1 ≠ VK_SUCCESS then (s1, Completion.raised RendererError.failedToCreateImageView)
  else (s1, Completion.returned created.2)

/-- The last loop of `createSwapChain`: for each image, an image view is created and the
pair is appended to `m_swapchainImages`. -/
def createSwapChainImages (p : Platform) : List Handle → Machine → Machine × Completion Unit
  | [], s => (s, Completion.returned ())
  | img :: rest, s =>
    match VulkanRenderer.createImageView p s img s.renderer.m_surface.format
        VK_IMAGE_ASPECT_COLOR_BIT with
    | (s1, Completion.returned view) =>
      createSwapChainImages p rest
        { s1 with renderer :=
            { s1.renderer with
              m_swapchainImages := s1.renderer.m_swapchainImages ++ [⟨img, view⟩] } }
    | (s1, Completion.raised e) => (s1, Completion.raised e)
    | (s1, Completion.undefined) => (s1, Completion.undefined)

/-- The image count that `createSwapChain` requests: one more than the minimum, in
`uint32_t`, capped at the maximum when there is one. -/
def requestedImageCount (capabilities : VkSurfaceCapabilitiesKHR) : Nat :=
  let imageCount := (capabilities.minImageCount + 1) % 2 ^ 32
  if capabilities.maxImageCount ≠ 0 ∧ imageCount > capabilities.maxImageCount then
    capabilities.maxImageCount
  else imageCount

/-- The member function `VulkanRenderer::createSwapChain`.  The result of
`vkCreateSwapchainKHR` is not examined.  When the two families differ, the create info is
given the count 2 and a pointer to the array `queueIndices`, which is declared inside the
`if` block; `vkCreateSwapchainKHR` is called after the block, when the array no longer
exists, so the two indices that the call reads through the pointer are not the ones
written to the array but whatever its storage holds then, `p.danglingQueueIndices`. -/
def VulkanRenderer.createSwapChain (p : Platform) (s : Machine) : Machine × Completion Unit :=
  let swapchainDetails :=
    VulkanRenderer.getSwapchainDetails p s.renderer s.renderer.m_device.physical
  match VulkanRenderer.getBestSurfaceFormat swapchainDetails.formats with
  | none => (s, Completion.undefined)
  | some format =>
    let r1 : VulkanRenderer :=
      { s.renderer with m_surface := { s.renderer.m_surface with format := format.format } }
    let mode := VulkanRenderer.getBestPresentMode swapchainDetails.presentModes
    let extents := VulkanRenderer.getBestSwapchainExtent p r1 swapchainDetails.surfaceCapabilities
    let r2 : VulkanRenderer := { r1 with m_surface := { r1.m_surface with extent := extents } }
    let imageCount := requestedImageCount swapchainDetails.surfaceCapabilities
    let indices := VulkanRenderer.getQueueFamilies p r2 r2.m_device.physical
    let swapchainInfo : VkSwapchainCreateInfoKHR :=
      { surface := r2.m_surface.surface,
        minImageCount := imageCount,
        imageFormat := format.format,
        imageColorSpace := format.colorSpace,
        imageExtent := extents,
        imageArrayLayers := 1,
        imageUsage := VK_IMAGE_USAGE_COLOR_ATTACHMENT_BIT,
        imageSharingMode :=
          if indices.graphicsFamily ≠ indices.presentationFamily then VK_SHARING_MODE_CONCURRENT
          else VK_SHARING_MODE_EXCLUSIVE,
        queueFamilyIndices :=
          if indices.graphicsFamily ≠ indices.presentationFamily then
            [p.danglingQueueIndices.1, p.danglingQueueIndices.2]
          else [],
        preTransform := swapchainDetails.surfaceCapabilities.currentTransform,
        compositeAlpha := VK_COMPOSITE_ALPHA_OPAQUE_BIT_KHR,
        presentMode := mode,
        clipped := VK_TRUE,
        oldSwapchain := VK_NULL_HANDLE }
    let created := p.vkCreateSwapchainKHR s.calls r2.m_device.logical swapchainInfo
    let s1 : Machine :=
      { renderer := { r2 with m_swapchain := created.2 },
        calls := s.calls ++
          [Call.vkCreateSwapchainKHR r2.m_device.logical swapchainInfo created.1 created.2] }
    let images := p.vkGetSwapchainImagesKHR s1.renderer.m_device.logical s1.renderer.m_swapchain
    createSwapChainImages p images s1

/-- The member function `VulkanRenderer::createShaderModule`. -/
def VulkanRenderer.createShaderModule (p : Platform) (s : Machine) (code : List Nat) :
    Machine × Completion Handle :=
  let created := p.vkCreateShaderModule s.calls s.renderer.m_device.logical code
  let s1 : Machine :=
    { s with calls := s.calls ++
        [Call.vkCreateShaderModule s.renderer.m_device.logical code created.1 created.2] }
  if created.1 ≠ VK_SUCCESS then
    (s1, Completion.raised RendererError.failedToCreateShaderModule)
  else (s1, Completion.returned created.2)

/-- The member function `VulkanRenderer::createRenderPass`. -/
def VulkanRenderer.createRenderPass (p : Platform) (s : Machine) : Machine × Completion Unit :=
  let created :=
    p.vkCreateRenderPass s.calls s.renderer.m_device.logical s.renderer.m_surface.format
  let s1 : Machine :=
    { renderer := { s.renderer with m_renderpass := created.2 },
      calls := s.calls ++
        [Call.vkCreateRenderPass s.renderer.m_device.logical s.renderer.m_surface.format
          created.1 created.2] }
  if created.1 ≠ VK_SUCCESS then (s1, Completion.raised RendererError.couldNotCreateRenderPass)
  else (s1, Completion.returned ())

/-- The part of `createGraphicsPipeline` after the render pass: the pipeline layout, the
pipeline, and the destruction of the two shader modules. -/
def createPipelineObjects (p : Platform) (s : Machine) (vertexModule fragmentModule : Handle) :
    Machine × Completion Unit :=
  let layout := p.vkCreatePipelineLayout s.calls s.renderer.m_device.logical
  let s1 : Machine :=
    { renderer := { s.renderer with m_pipelineLayout := layout.2 },
      calls := s.calls ++
        [Call.vkCreatePipelineLayout s.renderer.m_device.logical layout.1 layout.2] }
  if layout.1 ≠ VK_SUCCESS then
    (s1, Completion.raised RendererError.failedToCreatePipelineLayout)
  else
    let pipelineInfo : VkGraphicsPipelineCreateInfo :=
      { vertexModule := vertexModule, fragmentModule := fragmentModule,
        extent := s1.renderer.m_surface.extent,
        layout := s1.renderer.m_pipelineLayout,
        renderPass := s1.renderer.m_renderpass }
    let created := p.vkCreateGraphicsPipelines s1.calls s1.renderer.m_device.logical pipelineInfo
    let s2 : Machine :=
      { renderer := { s1.renderer with m_gfxpipeline := created.2 },
        calls := s1.calls ++
          [Call.vkCreateGraphicsPipelines s1.renderer.m_device.logical pipelineInfo created.1
            created.2] }
    if created.1 ≠ VK_SUCCESS then
      (s2, Completion.raised RendererError.couldNotCreateGraphicsPipeline)
    else
      ({ s2 with calls := s2.calls ++
          [Call.vkDestroyShaderModule s2.renderer.m_device.logical fragmentModule,
            Call.vkDestroyShaderModule s2.renderer.m_device.logical vertexModule] },
        Completion.returned ())

/-- The member function `VulkanRenderer::createGraphicsPipeline`. -/
def VulkanRenderer.createGraphicsPipeline (p : Platform) (s : Machine) :
    Machine × Completion Unit :=
  match readFile p.files "shader/vertex.spv" with
  | Completion.raised e => (s, Completion.raised e)
  | Completion.undefined => (s, Completion.undefined)
  | Completion.returned vertexShader =>
    match readFile p.files "shader/fragment.spv" with
    | Completion.raised e => (s, Completion.raised e)
    | Completion.undefined => (s, Completion.undefined)
    | Completion.returned fragmentShader =>
      match VulkanRenderer.createShaderModule p s vertexShader with
      | (s1, Completion.raised e) => (s1, Completion.raised e)
      | (s1, Completion.undefined) => (s1, Completion.undefined)
      | (s1, Completion.returned vertexModule) =>
        match VulkanRenderer.createShaderModule p s1 fragmentShader with
        | (s2, Completion.raised e) => (s2, Completion.raised e)
        | (s2, Completion.undefined) => (s2, Completion.undefined)
        | (s2, Completion.returned fragmentModule) =>
          match VulkanRenderer.createRenderPass p s2 with
          | (s3, Completion.raised e) => (s3, Completion.raised e)
          | (s3, Completion.undefined) => (s3, Completion.undefined)
          | (s3, Completion.returned ()) =>
            createPipelineObjects p s3 vertexModule fragmentModule

/-- The member function `VulkanRenderer::init`: the six set-up steps inside the `try`
block, `EXIT_FAILURE` from the handler of `std::runtime_error`, `EXIT_SUCCESS` after the
block.  The value is `none` when the behaviour of a step is undefined. -/
def VulkanRenderer.init (p : Platform) (s : Machine) (wnd : Handle) : Machine × Option Int :=
  let s0 : Machine := { s with renderer := { s.renderer with m_window := wnd } }
  match VulkanRenderer.createInstance p s0 with
  | (s1, Completion.raised _) => (s1, some EXIT_FAILURE)
  | (s1, Completion.undefined) => (s1, none)
  | (s1, Completion.returned ()) =>
    match VulkanRenderer.createSurface p s1 with
    | (s2, Completion.raised _) => (s2, some EXIT_FAILURE)
    | (s2, Completion.undefined) => (s2, none)
    | (s2, Completion.returned ()) =>
      match VulkanRenderer.getPhysicalDevice p s2 with
      | (s3, Completion.raised _) => (s3, some EXIT_FAILURE)
      | (s3, Completion.undefined) => (s3, none)
      | (s3, Completion.returned ()) =>
        match VulkanRenderer.createLogicalDevice p s3 with
        | (s4, Completion.raised _) => (s4, some EXIT_FAILURE)
        | (s4, Completion.undefined) => (s4, none)
        | (s4, Completion.returned ()) =>
          match VulkanRenderer.createSwapChain p s4 with
          | (s5, Completion.raised _) => (s5, some EXIT_FAILURE)
          | (s5, Completion.undefined) => (s5, none)
          | (s5, Completion.returned ()) =>
            match VulkanRenderer.createGraphicsPipeline p s5 with
            | (s6, Completion.raised _) => (s6, some EXIT_FAILURE)
            | (s6, Completion.undefined) => (s6, none)
            | (s6, Completion.returned ()) => (s6, some EXIT_SUCCESS)

/-- The member function `VulkanRenderer::destroy`.  No member is assigned. -/
def VulkanRenderer.destroy (s : Machine) : Machine :=
  { s with calls := s.calls ++
      ([Call.vkDestroyPipeline s.renderer.m_device.logical s.renderer.m_gfxpipeline,
        Call.vkDestroyPipelineLayout s.renderer.m_device.logical s.renderer.m_pipelineLayout,
        Call.vkDestroyRenderPass s.renderer.m_device.logical s.renderer.m_renderpass] ++
      s.renderer.m_swapchainImages.map
        (fun image => Call.vkDestroyImageView s.renderer.m_device.logical image.imageView) ++
      [Call.vkDestroySwapchainKHR s.renderer.m_device.logical s.renderer.m_swapchain,
        Call.vkDestroyDevice s.renderer.m_device.logical,
        Call.vkDestroySurfaceKHR s.renderer.m_instance s.renderer.m_surface.surface,
        Call.vkDestroyInstance s.renderer.m_instance]) }

/-! ### The steps of `init` as a list -/

/-- The six set-up steps in the order in which `init` calls them. -/
def initSteps (p : Platform) : List (Machine → Machine × Completion Unit) :=
  [VulkanRenderer.createInstance p, VulkanRenderer.createSurface p,
    VulkanRenderer.getPhysicalDevice p, VulkanRenderer.createLogicalDevice p,
    VulkanRenderer.createSwapChain p, VulkanRenderer.createGraphicsPipeline p]

/-- A list of steps run in order, each on the machine the one before left, up to the first
step that does not return. -/
def runSteps : List (Machine → Machine × Completion Unit) → Machine → Machine × Completion Unit
  | [], s => (s, Completion.returned ())
  | step :: rest, s =>
    match step s with
    | (s1, Completion.returned ()) => runSteps rest s1
    | (s1, Completion.raised e) => (s1, Completion.raised e)
    | (s1, Completion.undefined) => (s1, Completion.undefined)

/-! ### Properties of queue families and of calls -/

/-- Family `i` of the list has at least one queue and the graphics bit. -/
def GraphicsAt (families : List VkQueueFamilyProperties) (i : Nat) : Prop :=
  ∃ queueFamily, families[i]? = some queueFamily ∧ queueFamily.queueCount > 0 ∧
    queueFamily.queueFlags &&& VK_QUEUE_GRAPHICS_BIT ≠ 0

/-- Family `i` of the list has at least one queue and `vkGetPhysicalDeviceSurfaceSupportKHR`
reports that it can present to `surface`. -/
def PresentsAt (p : Platform) (dev surface : Handle) (families : List VkQueueFamilyProperties)
    (i : Nat) : Prop :=
  ∃ queueFamily, families[i]? = some queueFamily ∧ queueFamily.queueCount > 0 ∧
    p.vkGetPhysicalDeviceSurfaceSupportKHR dev i surface = true

/-- Whether a call of the renderer destroys an object. -/
def Call.isDestroy : Call → Bool
  | Call.vkDestroyShaderModule _ _ => true
  | Call.vkDestroyPipeline _ _ => true
  | Call.vkDestroyPipelineLayout _ _ => true
  | Call.vkDestroyRenderPass _ _ => true
  | Call.vkDestroyImageView _ _ => true
  | Call.vkDestroySwapchainKHR _ _ => true
  | Call.vkDestroyDevice _ => true
  | Call.vkDestroySurfaceKHR _ _ => true
  | Call.vkDestroyInstance _ => true
  | _ => false

/-- Whether a call of the mesh code waits for work of the device to finish. -/
def Event.isWait : Event → Bool
  | Event.vkQueueWaitIdle _ _ => true
  | _ => false

/-- Whether a call of the mesh code submits work to a queue. -/
def Event.isSubmit : Event → Bool
  | Event.vkQueueSubmit _ _ _ _ => true
  | _ => false

/-- The calls `VulkanRenderer::destroy` makes on a renderer object, in order. -/
def destroyCalls (r : VulkanRenderer) : List Call :=
  [Call.vkDestroyPipeline r.m_device.logical r.m_gfxpipeline,
    Call.vkDestroyPipelineLayout r.m_device.logical r.m_pipelineLayout,
    Call.vkDestroyRenderPass r.m_device.logical r.m_renderpass] ++
  r.m_swapchainImages.map (fun image => Call.vkDestroyImageView r.m_device.logical image.imageView) ++
  [Call.vkDestroySwapchainKHR r.m_device.logical r.m_swapchain,
    Call.vkDestroyDevice r.m_device.logical,
    Call.vkDestroySurfaceKHR r.m_instance r.m_surface.surface,
    Call.vkDestroyInstance r.m_instance]

/-- The calls `Mesh::destroyVertexBuffer` makes on a mesh, in order. -/
def meshDestroyCalls (mesh : Mesh) : List Event :=
  [Event.vkDestroyBuffer mesh.m_vertexBuffer, Event.vkFreeMemory mesh.m_vertexBufferMemory,
    Event.vkDestroyBuffer mesh.m_indexBuffer, Event.vkFreeMemory mesh.m_indexBufferMemory]

/-! ### Sample platforms -/

/-- A renderer object before `init`, with every handle null. -/
def newRenderer : VulkanRenderer :=
  { m_window := VK_NULL_HANDLE, m_instance := VK_NULL_HANDLE,
    m_device := ⟨VK_NULL_HANDLE, VK_NULL_HANDLE⟩,
    m_gfxQueue := VK_NULL_HANDLE, m_presentQueue := VK_NULL_HANDLE,
    m_surface := ⟨VK_NULL_HANDLE, VK_FORMAT_UNDEFINED, ⟨0, 0⟩⟩,
    m_swapchain := VK_NULL_HANDLE, m_swapchainImages := [],
    m_pipelineLayout := VK_NULL_HANDLE, m_renderpass := VK_NULL_HANDLE,
    m_gfxpipeline := VK_NULL_HANDLE }

/-- The machine before any call. -/
def startMachine : Machine := { renderer := newRenderer, calls := [] }

/-- A platform on which every call succeeds: one physical device `2` with one queue family
that does graphics and presentation, a surface of 800 by 600 with two to three images, one
B8G8R8A8 format and FIFO presentation, both shader files, and creating calls that hand out
ten times the number of the call as the handle. -/
def okPlatform : Platform :=
  { CFG_RELEASE := false,
    danglingQueueIndices := (0, 0),
    glfwGetRequiredInstanceExtensions := ["VK_KHR_surface"],
    vkEnumerateInstanceExtensionProperties := ["VK_KHR_surface", "VK_KHR_xcb_surface"],
    vkEnumeratePhysicalDevices := fun _ => [2],
    vkEnumerateDeviceExtensionProperties :=
      fun _ => ["VK_KHR_swapchain", "VK_KHR_portability_subset"],
    vkGetPhysicalDeviceQueueFamilyProperties := fun _ => [⟨VK_QUEUE_GRAPHICS_BIT, 1⟩],
    vkGetPhysicalDeviceSurfaceSupportKHR := fun _ _ _ => true,
    vkGetPhysicalDeviceSurfaceCapabilitiesKHR :=
      fun _ _ => ⟨2, 3, ⟨800, 600⟩, ⟨1, 1⟩, ⟨4096, 4096⟩, 1⟩,
    vkGetPhysicalDeviceSurfaceFormatsKHR :=
      fun _ _ => [⟨VK_FORMAT_B8G8R8A8_UNORM, VK_COLOR_SPACE_SRGB_NONLINEAR_KHR⟩],
    vkGetPhysicalDeviceSurfacePresentModesKHR := fun _ _ => [VK_PRESENT_MODE_FIFO_KHR],
    glfwGetFramebufferSize := fun _ => (800, 600),
    vkGetDeviceQueue := fun device queueFamilyIndex _ => device + queueFamilyIndex + 1,
    vkGetSwapchainImagesKHR :=
      fun _ swapchain =>
        if swapchain = VK_NULL_HANDLE then [] else [swapchain + 1, swapchain + 2, swapchain + 3],
    files :=
      fun path =>
        if path = "shader/vertex.spv" then some [3, 2, 35, 7]
        else if path = "shader/fragment.spv" then some [3, 2, 35, 7, 0, 0, 1, 0]
        else none,
    vkCreateInstance := fun calls _ => (VK_SUCCESS, 10 * (calls.length + 1)),
    glfwCreateWindowSurface := fun calls _ _ => (VK_SUCCESS, 10 * (calls.length + 1)),
    vkCreateDevice := fun calls _ _ => (VK_SUCCESS, 10 * (calls.length + 1)),
    vkCreateSwapchainKHR := fun calls _ _ => (VK_SUCCESS, 10 * (calls.length + 1)),
    vkCreateImageView := fun calls _ _ => (VK_SUCCESS, 10 * (calls.length + 1)),
    vkCreateShaderModule := fun calls _ _ => (VK_SUCCESS, 10 * (calls.length + 1)),
    vkCreateRenderPass := fun calls _ _ => (VK_SUCCESS, 10 * (calls.length + 1)),
    vkCreatePipelineLayout := fun calls _ => (VK_SUCCESS, 10 * (calls.length + 1)),
    vkCreateGraphicsPipelines := fun calls _ _ => (VK_SUCCESS, 10 * (calls.length + 1)) }

/-- As `okPlatform`, except that `vkCreateSwapchainKHR` reports
`VK_ERROR_OUT_OF_DEVICE_MEMORY` and hands out no swapchain. -/
def failedSwapchainPlatform : Platform :=
  { okPlatform with
    vkCreateSwapchainKHR := fun _ _ _ => (VK_ERROR_OUT_OF_DEVICE_MEMORY, VK_NULL_HANDLE) }

/-- As `okPlatform`, except that no file can be opened. -/
def missingShaderPlatform : Platform :=
  { okPlatform with files := fun _ => none }

/-- A platform whose device `2` has three queue families: transfer only, graphics without
presentation, and compute with presentation. -/
def splitQueuePlatform : Platform :=
  { okPlatform with
    vkGetPhysicalDeviceQueueFamilyProperties := fun _ => [⟨4, 1⟩, ⟨VK_QUEUE_GRAPHICS_BIT, 2⟩, ⟨2, 1⟩],
    vkGetPhysicalDeviceSurfaceSupportKHR := fun _ queueFamilyIndex _ => queueFamilyIndex == 2 }

/-- The machine that `init` leaves on `okPlatform` for window `7`. -/
def initialisedMachine : Machine := (VulkanRenderer.init okPlatform startMachine 7).1

/-- Whether every `vkQueueSubmit` of a list of calls is directly followed by a
`vkQueueWaitIdle` on the same queue. -/
def submitsAwaited : List Event → Bool
  | [] => true
  | Event.vkQueueSubmit queue _ _ _ :: rest =>
    (match rest with
      | Event.vkQueueWaitIdle waited _ :: _ => queue == waited
      | _ => false) && submitsAwaited rest
  | _ :: rest => submitsAwaited rest

/-! ### Devices, formats and the order of calls -/

/-- The condition of the loop of `getBestSurfaceFormat`: one of the two wanted formats, in
the wanted colour space. -/
def VkSurfaceFormatKHR.isWanted (format : VkSurfaceFormatKHR) : Bool :=
  (format.format == VK_FORMAT_R8G8B8A8_UNORM || format.format == VK_FORMAT_B8G8R8A8_UNORM) &&
    format.colorSpace == VK_COLOR_SPACE_SRGB_NONLINEAR_KHR

/-- In the list `calls`, the call `a` is made and the call `b` is made later. -/
def Precedes (a b : Call) (calls : List Call) : Prop :=
  ∃ l1 l2 l3, calls = l1 ++ a :: (l2 ++ b :: l3)

/-- Whether a call destroys an image view. -/
def Call.isImageViewDestroy : Call → Bool
  | Call.vkDestroyImageView _ _ => true
  | _ => false

/-- The `vkCreateImageView` call that `createSwapChain` makes for an entry of
`m_swapchainImages`, when the call succeeds. -/
def imageViewCall (device : Handle) (format : Nat) (entry : SwapchainImage) : Call :=
  Call.vkCreateImageView device
    { image := entry.image, viewType := VK_IMAGE_VIEW_TYPE_2D, format := format,
      aspectMask := VK_IMAGE_ASPECT_COLOR_BIT }
    VK_SUCCESS entry.imageView

/-- As `okPlatform`, except that the one device `2` reports no device extension, so that
`checkDeviceExtensionSupport` is false for it. -/
def unsuitableDevicePlatform : Platform :=
  { okPlatform with vkEnumerateDeviceExtensionProperties := fun _ => [] }

/-- As `okPlatform`, except that the surface leaves the extent to the application:
`currentExtent` is (2^32-1, 2^32-1), the image extent may range from 1 by 1 to 4096 by
4096, and the framebuffer of the window is 800 by 600. -/
def manualExtentPlatform : Platform :=
  { okPlatform with
    vkGetPhysicalDeviceSurfaceCapabilitiesKHR :=
      fun _ _ => ⟨2, 3, ⟨UINT32_MAX, UINT32_MAX⟩, ⟨1, 1⟩, ⟨4096, 4096⟩, 1⟩,
    glfwGetFramebufferSize := fun _ => (800, 600) }

/-- The machine on `okPlatform` for window `7` after the first four steps of `init`, before
`createSwapChain`. -/
def deviceMachine : Machine :=
  (runSteps ((initSteps okPlatform).take 4)
    { startMachine with renderer := { startMachine.renderer with m_window := 7 } }).1

/-- The machine on `splitQueuePlatform` for window `7` after the first three steps of
`init`, before `createLogicalDevice`. -/
def splitQueueMachine : Machine :=
  (runSteps ((initSteps splitQueuePlatform).take 3)
    { startMachine with renderer := { startMachine.renderer with m_window := 7 } }).1

/-- The machine on `splitQueuePlatform` for window `7` after the first four steps of
`init`, before `createSwapChain`. -/
def splitDeviceMachine : Machine :=
  (runSteps ((initSteps splitQueuePlatform).take 4)
    { startMachine with renderer := { startMachine.renderer with m_window := 7 } }).1

/-! ## The frame scheduler

The body of `VulkanRenderer::draw` is not among the sources.  The definitions of this
section follow section 4.5 of the specification, with the constant `MAX_FRAME_DRAWS` of
utilities.h and the declarations `int m_currentFrame = 0` and `void draw()` of
vulkan_renderer.h. -/

/-- The constant `MAX_FRAME_DRAWS` of utilities.h. -/
def MAX_FRAME_DRAWS : Nat := 2

/-- Modelled from the spec: a GPU submission whose fence is not yet signaled, with the
frame slot whose fence it carries and the swapchain image it renders to. -/
structure Submission where
  slot : Nat
  image : Nat
  deriving DecidableEq, Repr

/-- Modelled from the spec: what the acquisition of the next swapchain image reports, an
image index or an out-of-date or suboptimal surface. -/
inductive Acquired where
  | image (index : Nat)
  | stale
  deriving DecidableEq, Repr

/-- Modelled from the spec: the result `Result<void, SurfaceStale>` of one loop
iteration. -/
inductive FrameResult where
  | ok
  | surfaceStale
  deriving DecidableEq, Repr

/-- Modelled from the spec: the operations of one loop iteration, steps 1 to 7. -/
inductive FrameOp where
  | waitFence (slot : Nat)
  | acquire (slot : Nat)
  | record (slot image : Nat)
  | resetFence (slot : Nat)
  | submit (slot image : Nat)
  | present (slot image : Nat)
  deriving DecidableEq, Repr

/-- Modelled from the spec: the state of the frame scheduler.  `frameIndex` is the member
`m_currentFrame`; `pending` holds the submissions whose fence is unsignaled, oldest first;
`inFlightImage` maps an image index to the slot last submitted for it; `ops` is the list of
operations performed so far. -/
structure FrameScheduler where
  frameIndex : Nat
  pending : List Submission
  inFlightImage : List (Nat × Nat)
  ops : List FrameOp
  deriving DecidableEq, Repr

/-- The scheduler of a renderer that has drawn nothing: `m_currentFrame = 0`. -/
def FrameScheduler.initial : FrameScheduler :=
  { frameIndex := 0, pending := [], inFlightImage := [], ops := [] }

/-- Modelled from the spec: whether the fence of `slot` is signaled, that is, no
submission carrying it is outstanding. -/
def FrameScheduler.fenceSignaled (st : FrameScheduler) (slot : Nat) : Bool :=
  st.pending.all (fun sub => sub.slot != slot)

/-- Modelled from the spec: the GPU completes the work submitted with the fence of `slot`
and signals the fence. -/
def FrameScheduler.gpuCompletes (st : FrameScheduler) (slot : Nat) : FrameScheduler :=
  { st with pending := st.pending.filter (fun sub => sub.slot != slot) }

/-- Modelled from the spec: the blocking wait on the fence of `slot`.  The calling thread
goes on when the GPU has completed the work submitted with that fence. -/
def FrameScheduler.waitFence (st : FrameScheduler) (slot : Nat) : FrameScheduler :=
  { st.gpuCompletes slot with ops := st.ops ++ [FrameOp.waitFence slot] }

/-- Modelled from the spec: step 3, the cross-slot hazard check for the acquired image. -/
def FrameScheduler.hazardCheck (st : FrameScheduler) (slot image : Nat) : FrameScheduler :=
  match st.inFlightImage.lookup image with
  | some other => if other ≠ slot then st.waitFence other else st
  | none => st

/-- Modelled from the spec: one loop iteration, steps 1 to 8.  A stale acquisition ends
the iteration after step 2.  The specification leaves open whether the frame index
advances when presentation reports a stale surface; `advanceOnStalePresent` decides it. -/
def drawFrame (advanceOnStalePresent : Bool) (st : FrameScheduler) (acquired : Acquired)
    (presentStale : Bool) : FrameScheduler × FrameResult :=
  let f := st.frameIndex % MAX_FRAME_DRAWS
  let st1 := st.waitFence f
  let st2 : FrameScheduler := { st1 with ops := st1.ops ++ [FrameOp.acquire f] }
  match acquired with
  | Acquired.stale => (st2, FrameResult.surfaceStale)
  | Acquired.image index =>
    let st3 := st2.hazardCheck f index
    let st4 : FrameScheduler :=
      { st3 with
        pending := st3.pending ++ [⟨f, index⟩],
        inFlightImage := (index, f) :: st3.inFlightImage,
        ops := st3.ops ++
          [FrameOp.record f index, FrameOp.resetFence f, FrameOp.submit f index,
            FrameOp.present f index] }
    if presentStale then
      ({ st4 with frameIndex := if advanceOnStalePresent then st4.frameIndex + 1
                                else st4.frameIndex },
        FrameResult.surfaceStale)
    else ({ st4 with frameIndex := st4.frameIndex + 1 }, FrameResult.ok)

/-- Modelled from the spec: the body, one loop iteration of the frame scheduler.  The
return type is that of the declaration `void draw()` of vulkan_renderer.h: the caller
receives no value. -/
def VulkanRenderer.draw (advanceOnStalePresent : Bool) (st : FrameScheduler)
    (acquired : Acquired) (presentStale : Bool) : FrameScheduler × Unit :=
  ((drawFrame advanceOnStalePresent st acquired presentStale).1, ())

/-- What happens around one `draw` call of the loop of `main`: the slots whose work the
GPU completes before the call, and what acquisition and presentation report. -/
structure FrameInput where
  completed : List Nat
  acquired : Acquired
  presentStale : Bool
  deriving DecidableEq, Repr

/-- The loop of `main`: one `vkrender.draw()` per iteration, whose value is not used. -/
def drawFrames (advanceOnStalePresent : Bool) :
    FrameScheduler → List FrameInput → FrameScheduler
  | st, [] => st
  | st, input :: rest =>
    drawFrames advanceOnStalePresent
      (VulkanRenderer.draw advanceOnStalePresent
        (input.completed.foldl FrameScheduler.gpuCompletes st) input.acquired
        input.presentStale).1
      rest

/-- The invariant of the scheduler: the outstanding submissions carry pairwise distinct
fences, each of a slot below `MAX_FRAME_DRAWS`. -/
def FrameScheduler.SlotsDistinct (st : FrameScheduler) : Prop :=
  (st.pending.map Submission.slot).Nodup ∧ ∀ sub ∈ st.pending, sub.slot < MAX_FRAME_DRAWS

/-! ## Memory type selection -/

theorem and_two_pow_ne_zero_iff (a i : Nat) : a &&& 2 ^ i ≠ 0 ↔ a.testBit i = true := by
  constructor
  · intro h
    obtain ⟨j, hj⟩ := Nat.ne_zero_implies_bit_true h
    rw [Nat.testBit_and, Nat.testBit_two_pow] at hj
    simp only [Bool.and_eq_true, decide_eq_true_eq] at hj
    rw [hj.2]; exact hj.1
  · intro h h0
    have := Nat.testBit_and a (2 ^ i) i
    rw [h0, Nat.testBit_two_pow_self, h] at this
    simp at this

theorem memoryTypeMatches_iff (p : VkPhysicalDeviceMemoryProperties)
    (allowedTypes flags i : Nat) (hi : i < 64) :
    memoryTypeMatches p allowedTypes flags i = true ↔ Compatible p allowedTypes flags i := by
  have hlt : 2 ^ i < 2 ^ 64 := Nat.pow_lt_pow_right (by decide) hi
  unfold memoryTypeMatches Compatible
  rw [Nat.one_shiftLeft, Nat.mod_eq_of_lt hlt]
  simp only [Bool.and_eq_true, bne_iff_ne, beq_iff_eq]
  rw [and_two_pow_ne_zero_iff]

/-- The loop started at `i` with `remaining` iterations returns the first index in
`[i, i + remaining)` at which the condition holds, and `-1` when there is none. -/
theorem findMemoryTypeIndexFrom_spec (p : VkPhysicalDeviceMemoryProperties)
    (allowedTypes flags : Nat) (remaining i : Nat) :
    (findMemoryTypeIndexFrom p allowedTypes flags remaining i = UINT32_MAX ∧
        ∀ j, i ≤ j → j < i + remaining → memoryTypeMatches p allowedTypes flags j = false) ∨
    (i ≤ findMemoryTypeIndexFrom p allowedTypes flags remaining i ∧
      findMemoryTypeIndexFrom p allowedTypes flags remaining i < i + remaining ∧
      memoryTypeMatches p allowedTypes flags
        (findMemoryTypeIndexFrom p allowedTypes flags remaining i) = true ∧
      ∀ j, i ≤ j → j < findMemoryTypeIndexFrom p allowedTypes flags remaining i →
        memoryTypeMatches p allowedTypes flags j = false) := by
  induction remaining generalizing i with
  | zero =>
    left
    refine ⟨rfl, ?_⟩
    intro j h1 h2
    omega
  | succ n ih =>
    unfold findMemoryTypeIndexFrom
    by_cases hc : memoryTypeMatches p allowedTypes flags i = true
    · right
      rw [if_pos hc]
      refine ⟨Nat.le_refl i, by omega, hc, ?_⟩
      intro j h1 h2
      omega
    · rw [if_neg hc]
      have hf : memoryTypeMatches p allowedTypes flags i = false := by
        simpa using hc
      rcases ih (i + 1) with ⟨h1, h2⟩ | ⟨h1, h2, h3, h4⟩
      · left
        refine ⟨h1, ?_⟩
        intro j hj1 hj2
        rcases Nat.eq_or_lt_of_le hj1 with heq | hlt
        · rw [← heq]; exact hf
        · exact h2 j hlt (by omega)
      · right
        refine ⟨by omega, by omega, h3, ?_⟩
        intro j hj1 hj2
        rcases Nat.eq_or_lt_of_le hj1 with heq | hlt
        · rw [← heq]; exact hf
        · exact h4 j hlt hj2

/-- C1. On a device whose `memoryTypeCount` is within the `memoryTypes` array
(`VK_MAX_MEMORY_TYPES`): when some index below `memoryTypeCount` has its bit set in
`allowedTypes` and carries all of `flags`, `findMemoryTypeIndex` returns the least such
index; and every returned index below `memoryTypeCount` has its bit set in `allowedTypes`
and carries all of `flags`. -/
theorem findMemoryTypeIndex_least (p : VkPhysicalDeviceMemoryProperties)
    (allowedTypes flags : Nat) (hcount : p.memoryTypeCount ≤ VK_MAX_MEMORY_TYPES) :
    ((∃ i, i < p.memoryTypeCount ∧ Compatible p allowedTypes flags i) →
      findMemoryTypeIndex p allowedTypes flags < p.memoryTypeCount ∧
      Compatible p allowedTypes flags (findMemoryTypeIndex p allowedTypes flags) ∧
      ∀ j, j < findMemoryTypeIndex p allowedTypes flags → ¬ Compatible p allowedTypes flags j) ∧
    (findMemoryTypeIndex p allowedTypes flags < p.memoryTypeCount →
      Compatible p allowedTypes flags (findMemoryTypeIndex p allowedTypes flags)) := by
  have h32 : p.memoryTypeCount ≤ 32 := hcount
  have hmax : UINT32_MAX = 4294967295 := rfl
  unfold findMemoryTypeIndex
  rcases findMemoryTypeIndexFrom_spec p allowedTypes flags p.memoryTypeCount 0 with
    ⟨h1, h2⟩ | ⟨_, h2, h3, h4⟩
  · constructor
    · rintro ⟨i, hi, hc⟩
      have := h2 i (Nat.zero_le i) (by omega)
      rw [(memoryTypeMatches_iff p allowedTypes flags i (by omega)).mpr hc] at this
      exact absurd this (by decide)
    · intro hlt
      rw [h1] at hlt
      omega
  · have hr : findMemoryTypeIndexFrom p allowedTypes flags p.memoryTypeCount 0
        < p.memoryTypeCount := by omega
    have hcompat := (memoryTypeMatches_iff p allowedTypes flags _ (by omega)).mp h3
    refine ⟨fun _ => ⟨hr, hcompat, ?_⟩, fun _ => hcompat⟩
    intro j hj hc
    have := h4 j (Nat.zero_le j) hj
    rw [(memoryTypeMatches_iff p allowedTypes flags j (by omega)).mpr hc] at this
    exact absurd this (by decide)


/-- The sample device, a buffer allowed in both types, host-visible and host-coherent
memory requested: type 1 is the least compatible index and is returned. -/
theorem findMemoryTypeIndex_least_witness :
    sampleMemoryProperties.memoryTypeCount ≤ VK_MAX_MEMORY_TYPES ∧
    findMemoryTypeIndex sampleMemoryProperties 3 6 = 1 ∧
    (((∃ i, i < sampleMemoryProperties.memoryTypeCount ∧
        Compatible sampleMemoryProperties 3 6 i) →
      findMemoryTypeIndex sampleMemoryProperties 3 6 < sampleMemoryProperties.memoryTypeCount ∧
      Compatible sampleMemoryProperties 3 6 (findMemoryTypeIndex sampleMemoryProperties 3 6) ∧
      ∀ j, j < findMemoryTypeIndex sampleMemoryProperties 3 6 →
        ¬ Compatible sampleMemoryProperties 3 6 j) ∧
    (findMemoryTypeIndex sampleMemoryProperties 3 6 < sampleMemoryProperties.memoryTypeCount →
      Compatible sampleMemoryProperties 3 6 (findMemoryTypeIndex sampleMemoryProperties 3 6))) :=
  ⟨by decide, by decide, findMemoryTypeIndex_least sampleMemoryProperties 3 6 (by decide)⟩

/-! ## The calls made on each path -/

/-- Every `createBuffer` call either throws after the calls of `CreateBufferRaised` or
returns after the calls of `createBufferCalls`. -/
theorem createBuffer_cases (drv : Driver) (tr : List Event) (size usage properties : Nat) :
    (∃ evs e, createBuffer drv tr size usage properties = (tr ++ evs, Outcome.raised e) ∧
      CreateBufferRaised drv.memoryProperties size usage properties evs e) ∨
    (∃ c : CreateRun, createBuffer drv tr size usage properties =
      (tr ++ createBufferCalls drv.memoryProperties size usage properties c,
        Outcome.returned (c.buffer, c.memory))) := by
  unfold createBuffer
  simp only [List.append_assoc, List.singleton_append, List.cons_append, List.nil_append]
  split
  · rename_i h1
    exact Or.inl ⟨_, _, rfl, Or.inl ⟨_, _, h1, rfl, rfl⟩⟩
  · rename_i h1
    have h1 := not_not.mp h1
    simp only [h1]
    split
    · rename_i h2
      exact Or.inl ⟨_, _, rfl, Or.inr ⟨_, _, _, _, h2, rfl, rfl⟩⟩
    · rename_i h2
      have h2 := not_not.mp h2
      simp only [h2]
      exact Or.inr ⟨⟨_, _, _, _⟩, rfl⟩

/-- A `createBuffer` call that throws has made the calls of `CreateBufferRaised`. -/
theorem createBuffer_raised {drv : Driver} {tr tr' : List Event} {size usage properties : Nat}
    {e : RuntimeError}
    (h : createBuffer drv tr size usage properties = (tr', Outcome.raised e)) :
    ∃ evs, tr' = tr ++ evs ∧
      CreateBufferRaised drv.memoryProperties size usage properties evs e := by
  rcases createBuffer_cases drv tr size usage properties with ⟨evs, e', h', hr⟩ | ⟨c, h'⟩
  · rw [h'] at h
    simp only [Prod.mk.injEq, Outcome.raised.injEq] at h
    obtain ⟨rfl, rfl⟩ := h
    exact ⟨evs, rfl, hr⟩
  · rw [h'] at h
    simp at h

/-- A `createBuffer` call that returns has made the calls of `createBufferCalls`. -/
theorem createBuffer_returned {drv : Driver} {tr tr' : List Event}
    {size usage properties : Nat} {b m : Handle}
    (h : createBuffer drv tr size usage properties = (tr', Outcome.returned (b, m))) :
    ∃ c : CreateRun, c.buffer = b ∧ c.memory = m ∧
      tr' = tr ++ createBufferCalls drv.memoryProperties size usage properties c := by
  rcases createBuffer_cases drv tr size usage properties with ⟨evs, e', h', hr⟩ | ⟨c, h'⟩
  · rw [h'] at h
    simp at h
  · rw [h'] at h
    simp only [Prod.mk.injEq, Outcome.returned.injEq] at h
    obtain ⟨rfl, rfl, rfl⟩ := h
    exact ⟨c, rfl, rfl, rfl⟩

/-- Every `copyBuffer` call makes the calls of `copyBufferCalls`. -/
theorem copyBuffer_calls (drv : Driver) (tr : List Event) (queue pool src dst size : Nat) :
    ∃ c : CopyRun, copyBuffer drv tr queue pool src dst size =
      tr ++ copyBufferCalls queue pool src dst size c := by
  unfold copyBuffer
  simp only [List.append_assoc, List.singleton_append, List.cons_append, List.nil_append]
  exact ⟨⟨_, _, _, _, _, _⟩, rfl⟩

/-- The behaviour of `createBuffer` is defined: it returns or throws. -/
theorem createBuffer_defined (drv : Driver) (tr tr' : List Event)
    (size usage properties : Nat) :
    createBuffer drv tr size usage properties ≠ (tr', Outcome.undefined) := by
  intro h
  rcases createBuffer_cases drv tr size usage properties with ⟨evs, e', h', hr⟩ | ⟨c, h'⟩
  · rw [h'] at h
    simp at h
  · rw [h'] at h
    simp at h

/-- Every `Mesh::createVertexBuffer` call either throws after the calls of `UploadRaised`,
or returns after the calls of `uploadCalls`, with the destination buffer and memory stored
in the vertex members, or has undefined behaviour after the calls of `UploadUndefined`. -/
theorem createVertexBuffer_cases (drv : Driver) (tr : List Event) (mesh : Mesh)
    (queue pool : Handle) (vertices : List Vertex) :
    (∃ evs e, Mesh.createVertexBuffer drv tr mesh queue pool vertices =
        (tr ++ evs, Outcome.raised e) ∧
      UploadRaised drv.memoryProperties (vertexBytes vertices) vertexUsage evs e) ∨
    (∃ u : UploadRun, Mesh.createVertexBuffer drv tr mesh queue pool vertices =
      (tr ++ uploadCalls drv.memoryProperties (vertexBytes vertices) vertexUsage queue pool u,
        Outcome.returned { mesh with m_vertexBuffer := u.dst.buffer,
                                     m_vertexBufferMemory := u.dst.memory })) ∨
    (∃ evs, Mesh.createVertexBuffer drv tr mesh queue pool vertices =
        (tr ++ evs, Outcome.undefined) ∧
      UploadUndefined drv.memoryProperties (vertexBytes vertices) evs) := by
  unfold Mesh.createVertexBuffer
  simp only []
  split
  · rename_i tr1 e heq
    obtain ⟨evs, rfl, hr⟩ := createBuffer_raised heq
    exact Or.inl ⟨evs, e, rfl, Or.inl hr⟩
  · rename_i tr1 heq
    exact absurd heq (createBuffer_defined _ _ _ _ _ _)
  · rename_i tr1 sb sm heq
    obtain ⟨c1, rfl, rfl, rfl⟩ := createBuffer_returned heq
    generalize drv.vkMapMemory _ _ _ _ _ = rmap
    split
    · rename_i hmap
      refine Or.inr (Or.inr ⟨_, ?_, c1, rmap, hmap, rfl⟩)
      simp only [vertexBytes, List.append_assoc]
    · split
      · rename_i tr5 e heq2
        obtain ⟨evs, rfl, hr⟩ := createBuffer_raised heq2
        refine Or.inl ⟨_, e, ?_, Or.inr ⟨c1, rmap, evs, rfl, hr⟩⟩
        simp only [fillCalls, vertexBytes, List.append_assoc, List.singleton_append,
          List.cons_append, List.nil_append]
      · rename_i tr5 heq2
        exact absurd heq2 (createBuffer_defined _ _ _ _ _ _)
      · rename_i tr5 vb vm heq2
        obtain ⟨c2, rfl, rfl, rfl⟩ := createBuffer_returned heq2
        obtain ⟨c3, h3⟩ := copyBuffer_calls drv
          (tr ++ createBufferCalls drv.memoryProperties (sizeofVertex * vertices.length % 2 ^ 64)
              VK_BUFFER_USAGE_TRANSFER_SRC_BIT
              (VK_MEMORY_PROPERTY_HOST_VISIBLE_BIT ||| VK_MEMORY_PROPERTY_HOST_COHERENT_BIT) c1 ++
            [Event.vkMapMemory c1.memory 0 (sizeofVertex * vertices.length % 2 ^ 64) 0 rmap] ++
            [Event.memcpy c1.memory (sizeofVertex * vertices.length % 2 ^ 64)] ++
            [Event.vkUnmapMemory c1.memory] ++
            createBufferCalls drv.memoryProperties (sizeofVertex * vertices.length % 2 ^ 64)
              (VK_BUFFER_USAGE_VERTEX_BUFFER_BIT ||| VK_BUFFER_USAGE_TRANSFER_DST_BIT)
              VK_MEMORY_PROPERTY_DEVICE_LOCAL_BIT c2)
          queue pool c1.buffer c2.buffer (sizeofVertex * vertices.length % 2 ^ 64)
        rw [h3]
        refine Or.inr (Or.inl ⟨⟨c1, rmap, c2, c3⟩, ?_⟩)
        simp only [uploadCalls, fillCalls, vertexBytes, vertexUsage, List.append_assoc,
          List.singleton_append, List.cons_append, List.nil_append]

/-- Every `Mesh::createIndexBuffer` call either throws after the calls of `UploadRaised`,
or returns after the calls of `uploadCalls`, with the destination buffer and memory stored
in the index members, or has undefined behaviour after the calls of `UploadUndefined`. -/
theorem createIndexBuffer_cases (drv : Driver) (tr : List Event) (mesh : Mesh)
    (queue pool : Handle) (indices : List Nat) :
    (∃ evs e, Mesh.createIndexBuffer drv tr mesh queue pool indices =
        (tr ++ evs, Outcome.raised e) ∧
      UploadRaised drv.memoryProperties (indexBytes indices) indexUsage evs e) ∨
    (∃ u : UploadRun, Mesh.createIndexBuffer drv tr mesh queue pool indices =
      (tr ++ uploadCalls drv.memoryProperties (indexBytes indices) indexUsage queue pool u,
        Outcome.returned { mesh with m_indexBuffer := u.dst.buffer,
                                     m_indexBufferMemory := u.dst.memory })) ∨
    (∃ evs, Mesh.createIndexBuffer drv tr mesh queue pool indices =
        (tr ++ evs, Outcome.undefined) ∧
      UploadUndefined drv.memoryProperties (indexBytes indices) evs) := by
  unfold Mesh.createIndexBuffer
  simp only []
  split
  · rename_i tr1 e heq
    obtain ⟨evs, rfl, hr⟩ := createBuffer_raised heq
    exact Or.inl ⟨evs, e, rfl, Or.inl hr⟩
  · rename_i tr1 heq
    exact absurd heq (createBuffer_defined _ _ _ _ _ _)
  · rename_i tr1 sb sm heq
    obtain ⟨c1, rfl, rfl, rfl⟩ := createBuffer_returned heq
    generalize drv.vkMapMemory _ _ _ _ _ = rmap
    split
    · rename_i hmap
      refine Or.inr (Or.inr ⟨_, ?_, c1, rmap, hmap, rfl⟩)
      simp only [indexBytes, List.append_assoc]
    · split
      · rename_i tr5 e heq2
        obtain ⟨evs, rfl, hr⟩ := createBuffer_raised heq2
        refine Or.inl ⟨_, e, ?_, Or.inr ⟨c1, rmap, evs, rfl, hr⟩⟩
        simp only [fillCalls, indexBytes, List.append_assoc, List.singleton_append,
          List.cons_append, List.nil_append]
      · rename_i tr5 heq2
        exact absurd heq2 (createBuffer_defined _ _ _ _ _ _)
      · rename_i tr5 vb vm heq2
        obtain ⟨c2, rfl, rfl, rfl⟩ := createBuffer_returned heq2
        obtain ⟨c3, h3⟩ := copyBuffer_calls drv
          (tr ++ createBufferCalls drv.memoryProperties (sizeofUint32 * indices.length % 2 ^ 64)
              VK_BUFFER_USAGE_TRANSFER_SRC_BIT
              (VK_MEMORY_PROPERTY_HOST_VISIBLE_BIT ||| VK_MEMORY_PROPERTY_HOST_COHERENT_BIT) c1 ++
            [Event.vkMapMemory c1.memory 0 (sizeofUint32 * indices.length % 2 ^ 64) 0 rmap] ++
            [Event.memcpy c1.memory (sizeofUint32 * indices.length % 2 ^ 64)] ++
            [Event.vkUnmapMemory c1.memory] ++
            createBufferCalls drv.memoryProperties (sizeofUint32 * indices.length % 2 ^ 64)
              (VK_BUFFER_USAGE_INDEX_BUFFER_BIT ||| VK_BUFFER_USAGE_TRANSFER_DST_BIT)
              VK_MEMORY_PROPERTY_DEVICE_LOCAL_BIT c2)
          queue pool c1.buffer c2.buffer (sizeofUint32 * indices.length % 2 ^ 64)
        rw [h3]
        refine Or.inr (Or.inl ⟨⟨c1, rmap, c2, c3⟩, ?_⟩)
        simp only [uploadCalls, fillCalls, indexBytes, indexUsage, List.append_assoc,
          List.singleton_append, List.cons_append, List.nil_append]

/-- A `Mesh::createVertexBuffer` call that throws has made the calls of `UploadRaised`. -/
theorem createVertexBuffer_raised {drv : Driver} {tr tr' : List Event} {mesh : Mesh}
    {queue pool : Handle} {vertices : List Vertex} {e : RuntimeError}
    (h : Mesh.createVertexBuffer drv tr mesh queue pool vertices = (tr', Outcome.raised e)) :
    ∃ evs, tr' = tr ++ evs ∧
      UploadRaised drv.memoryProperties (vertexBytes vertices) vertexUsage evs e := by
  rcases createVertexBuffer_cases drv tr mesh queue pool vertices with
    ⟨evs, e', h', hr⟩ | ⟨u, h'⟩ | ⟨evs, h', _⟩
  · rw [h'] at h
    simp only [Prod.mk.injEq, Outcome.raised.injEq] at h
    obtain ⟨rfl, rfl⟩ := h
    exact ⟨evs, rfl, hr⟩
  · rw [h'] at h
    simp at h
  · rw [h'] at h
    simp at h

/-- A `Mesh::createVertexBuffer` call that returns has made the calls of `uploadCalls`. -/
theorem createVertexBuffer_returned {drv : Driver} {tr tr' : List Event} {mesh mesh' : Mesh}
    {queue pool : Handle} {vertices : List Vertex}
    (h : Mesh.createVertexBuffer drv tr mesh queue pool vertices =
      (tr', Outcome.returned mesh')) :
    ∃ u : UploadRun,
      tr' = tr ++ uploadCalls drv.memoryProperties (vertexBytes vertices) vertexUsage queue pool u ∧
      mesh' = { mesh with m_vertexBuffer := u.dst.buffer,
                          m_vertexBufferMemory := u.dst.memory } := by
  rcases createVertexBuffer_cases drv tr mesh queue pool vertices with
    ⟨evs, e', h', hr⟩ | ⟨u, h'⟩ | ⟨evs, h', _⟩
  · rw [h'] at h
    simp at h
  · rw [h'] at h
    simp only [Prod.mk.injEq, Outcome.returned.injEq] at h
    obtain ⟨rfl, rfl⟩ := h
    exact ⟨u, rfl, rfl⟩
  · rw [h'] at h
    simp at h

/-- A `Mesh::createVertexBuffer` call whose behaviour is undefined has made the calls of
`UploadUndefined`. -/
theorem createVertexBuffer_undefined {drv : Driver} {tr tr' : List Event} {mesh : Mesh}
    {queue pool : Handle} {vertices : List Vertex}
    (h : Mesh.createVertexBuffer drv tr mesh queue pool vertices = (tr', Outcome.undefined)) :
    ∃ evs, tr' = tr ++ evs ∧
      UploadUndefined drv.memoryProperties (vertexBytes vertices) evs := by
  rcases createVertexBuffer_cases drv tr mesh queue pool vertices with
    ⟨evs, e', h', hr⟩ | ⟨u, h'⟩ | ⟨evs, h', hu⟩
  · rw [h'] at h
    simp at h
  · rw [h'] at h
    simp at h
  · rw [h'] at h
    simp only [Prod.mk.injEq, and_true] at h
    subst h
    exact ⟨evs, rfl, hu⟩

/-- A `Mesh::createIndexBuffer` call that throws has made the calls of `UploadRaised`. -/
theorem createIndexBuffer_raised {drv : Driver} {tr tr' : List Event} {mesh : Mesh}
    {queue pool : Handle} {indices : List Nat} {e : RuntimeError}
    (h : Mesh.createIndexBuffer drv tr mesh queue pool indices = (tr', Outcome.raised e)) :
    ∃ evs, tr' = tr ++ evs ∧
      UploadRaised drv.memoryProperties (indexBytes indices) indexUsage evs e := by
  rcases createIndexBuffer_cases drv tr mesh queue pool indices with
    ⟨evs, e', h', hr⟩ | ⟨u, h'⟩ | ⟨evs, h', _⟩
  · rw [h'] at h
    simp only [Prod.mk.injEq, Outcome.raised.injEq] at h
    obtain ⟨rfl, rfl⟩ := h
    exact ⟨evs, rfl, hr⟩
  · rw [h'] at h
    simp at h
  · rw [h'] at h
    simp at h

/-- A `Mesh::createIndexBuffer` call that returns has made the calls of `uploadCalls`. -/
theorem createIndexBuffer_returned {drv : Driver} {tr tr' : List Event} {mesh mesh' : Mesh}
    {queue pool : Handle} {indices : List Nat}
    (h : Mesh.createIndexBuffer drv tr mesh queue pool indices =
      (tr', Outcome.returned mesh')) :
    ∃ u : UploadRun,
      tr' = tr ++ uploadCalls drv.memoryProperties (indexBytes indices) indexUsage queue pool u ∧
      mesh' = { mesh with m_indexBuffer := u.dst.buffer,
                          m_indexBufferMemory := u.dst.memory } := by
  rcases createIndexBuffer_cases drv tr mesh queue pool indices with
    ⟨evs, e', h', hr⟩ | ⟨u, h'⟩ | ⟨evs, h', _⟩
  · rw [h'] at h
    simp at h
  · rw [h'] at h
    simp only [Prod.mk.injEq, Outcome.returned.injEq] at h
    obtain ⟨rfl, rfl⟩ := h
    exact ⟨u, rfl, rfl⟩
  · rw [h'] at h
    simp at h

/-- Every `Mesh` construction either throws after the calls of `MeshRaised`, or returns
after the calls of the vertex upload followed by those of the index upload, with the
counts and the two destination buffers stored in the object, or has undefined behaviour
after the calls of `MeshUndefined`. -/
theorem meshConstructor_cases (drv : Driver) (tr : List Event) (queue pool : Handle)
    (vertices : List Vertex) (indices : List Nat) :
    (∃ evs e, Mesh.new drv tr queue pool vertices indices = (tr ++ evs, Outcome.raised e) ∧
      MeshRaised drv.memoryProperties queue pool vertices indices evs e) ∨
    (∃ uv ui : UploadRun, Mesh.new drv tr queue pool vertices indices =
      (tr ++ (uploadCalls drv.memoryProperties (vertexBytes vertices) vertexUsage queue pool uv ++
          uploadCalls drv.memoryProperties (indexBytes indices) indexUsage queue pool ui),
        Outcome.returned
          { m_vertexCount := toInt vertices.length,
            m_indexCount := toInt indices.length,
            m_vertexBuffer := uv.dst.buffer,
            m_indexBuffer := ui.dst.buffer,
            m_vertexBufferMemory := uv.dst.memory,
            m_indexBufferMemory := ui.dst.memory })) ∨
    (∃ evs, Mesh.new drv tr queue pool vertices indices = (tr ++ evs, Outcome.undefined) ∧
      MeshUndefined drv.memoryProperties queue pool vertices indices evs) := by
  unfold Mesh.new
  simp only []
  split
  · rename_i tr1 e heq
    obtain ⟨evs, rfl, hr⟩ := createVertexBuffer_raised heq
    exact Or.inl ⟨evs, e, rfl, Or.inl hr⟩
  · rename_i tr1 heq
    obtain ⟨evs, rfl, hu⟩ := createVertexBuffer_undefined heq
    exact Or.inr (Or.inr ⟨evs, rfl, Or.inl hu⟩)
  · rename_i tr1 mesh1 heq
    obtain ⟨uv, rfl, rfl⟩ := createVertexBuffer_returned heq
    rcases createIndexBuffer_cases drv
        (tr ++ uploadCalls drv.memoryProperties (vertexBytes vertices) vertexUsage queue pool uv)
        { m_vertexCount := toInt vertices.length,
          m_indexCount := toInt indices.length,
          m_vertexBuffer := uv.dst.buffer,
          m_indexBuffer := VK_NULL_HANDLE,
          m_vertexBufferMemory := uv.dst.memory,
          m_indexBufferMemory := VK_NULL_HANDLE }
        queue pool indices with ⟨evs, e, h', hr⟩ | ⟨ui, h'⟩ | ⟨evs, h', hu⟩
    · rw [h']
      refine Or.inl ⟨_, e, ?_, Or.inr ⟨uv, evs, rfl, hr⟩⟩
      simp only [List.append_assoc]
    · rw [h']
      refine Or.inr (Or.inl ⟨uv, ui, ?_⟩)
      simp only [List.append_assoc]
    · rw [h']
      refine Or.inr (Or.inr ⟨_, ?_, Or.inr ⟨uv, evs, rfl, hu⟩⟩)
      simp only [List.append_assoc]

/-! ## Buffer allocation -/

/-- C2. A request for host-visible, host-coherent memory on a device that reports only the
device-local type 0 as allowed for the buffer: no index below `memoryTypeCount` is
compatible, `findMemoryTypeIndex` yields `-1`, and `createBuffer` passes it to
`vkAllocateMemory` as `memoryTypeIndex` and returns, the driver reporting success. -/
theorem createBuffer_no_compatible_type_returns :
    (∀ i, i < deviceLocalOnlyDriver.memoryProperties.memoryTypeCount →
      ¬ Compatible deviceLocalOnlyDriver.memoryProperties 1
        (VK_MEMORY_PROPERTY_HOST_VISIBLE_BIT ||| VK_MEMORY_PROPERTY_HOST_COHERENT_BIT) i) ∧
    createBuffer deviceLocalOnlyDriver [] 72 VK_BUFFER_USAGE_TRANSFER_SRC_BIT
        (VK_MEMORY_PROPERTY_HOST_VISIBLE_BIT ||| VK_MEMORY_PROPERTY_HOST_COHERENT_BIT) =
      ([Event.vkCreateBuffer ⟨72, 1, 0⟩ 0 1,
        Event.vkGetBufferMemoryRequirements 1 ⟨72, 1, 1⟩,
        Event.vkAllocateMemory ⟨72, 4294967295⟩ 0 3,
        Event.vkBindBufferMemory 1 3 0 0],
       Outcome.returned (1, 3)) := by
  constructor
  · intro i hi
    have h2 : i < 2 := hi
    interval_cases i <;> decide
  · decide

/-! ## Sizes of an upload -/

theorem createBufferCalls_sizesAre (p : VkPhysicalDeviceMemoryProperties)
    (size usage properties : Nat) (c : CreateRun) :
    ∀ x ∈ createBufferCalls p size usage properties c, x.sizesAre size = true := by
  simp [createBufferCalls, Event.sizesAre]

theorem createBufferRaised_sizesAre {p : VkPhysicalDeviceMemoryProperties}
    {size usage properties : Nat} {evs : List Event} {e : RuntimeError}
    (h : CreateBufferRaised p size usage properties evs e) :
    ∀ x ∈ evs, x.sizesAre size = true := by
  rcases h with ⟨r, b, _, _, rfl⟩ | ⟨b, reqs, r, m, _, _, rfl⟩ <;> simp [Event.sizesAre]

theorem fillCalls_sizesAre (size : Nat) (memory : Handle) (r : VkResult) :
    ∀ x ∈ fillCalls size memory r, x.sizesAre size = true := by
  simp [fillCalls, Event.sizesAre]

theorem uploadRaised_sizesAre {p : VkPhysicalDeviceMemoryProperties}
    {size usage : Nat} {evs : List Event} {e : RuntimeError}
    (h : UploadRaised p size usage evs e) :
    ∀ x ∈ evs, x.sizesAre size = true := by
  rcases h with h | ⟨c, r, evs2, rfl, h2⟩
  · exact createBufferRaised_sizesAre h
  · intro x hx
    simp only [List.mem_append] at hx
    rcases hx with (hx | hx) | hx
    · exact createBufferCalls_sizesAre _ _ _ _ _ x hx
    · exact fillCalls_sizesAre _ _ _ x hx
    · exact createBufferRaised_sizesAre h2 x hx

theorem uploadUndefined_sizesAre {p : VkPhysicalDeviceMemoryProperties}
    {size : Nat} {evs : List Event} (h : UploadUndefined p size evs) :
    ∀ x ∈ evs, x.sizesAre size = true := by
  obtain ⟨c, r, _, rfl⟩ := h
  simp [createBufferCalls, Event.sizesAre]

theorem uploadCalls_sizesAre (p : VkPhysicalDeviceMemoryProperties)
    (size usage queue pool : Nat) (u : UploadRun) :
    ∀ x ∈ uploadCalls p size usage queue pool u, x.sizesAre size = true := by
  simp [uploadCalls, createBufferCalls, fillCalls, copyBufferCalls, Event.sizesAre]

theorem uploadCalls_filter_carriesSize (p : VkPhysicalDeviceMemoryProperties)
    (size usage queue pool : Nat) (u : UploadRun) :
    (uploadCalls p size usage queue pool u).filter Event.carriesSize =
      sizedCalls size usage u.staging.buffer u.staging.memory u.mapResult u.dst.buffer
        u.copy.commandBuffer := by
  simp [uploadCalls, createBufferCalls, fillCalls, copyBufferCalls, Event.carriesSize,
    sizedCalls]

/-- C3. For `n` vertices and `m` indices (arrays that fit the address space, so that the
`size_t` products do not wrap): every buffer created, range mapped, host copy and copy
region of the vertex upload has size `24 * n`, and of the index upload `4 * m`; and when
the upload returns, its size-carrying calls are exactly those of `sizedCalls`: the staging
buffer creation, the mapping of the staging memory from offset 0, the host copy, the
creation of the buffer stored in the mesh, and one copy region from offset 0 to offset 0,
all of that size. -/
theorem upload_sizes (drv : Driver) (tr : List Event) (mesh : Mesh) (queue pool : Handle)
    (vertices : List Vertex) (indices : List Nat)
    (hv : 24 * vertices.length < 2 ^ 64) (hi : 4 * indices.length < 2 ^ 64) :
    (∃ evs, (Mesh.createVertexBuffer drv tr mesh queue pool vertices).1 = tr ++ evs ∧
      (∀ x ∈ evs, x.sizesAre (24 * vertices.length) = true) ∧
      ∀ mesh', (Mesh.createVertexBuffer drv tr mesh queue pool vertices).2 =
          Outcome.returned mesh' →
        ∃ stagingBuffer stagingMemory mapResult cmd,
          evs.filter Event.carriesSize =
            sizedCalls (24 * vertices.length)
              (VK_BUFFER_USAGE_VERTEX_BUFFER_BIT ||| VK_BUFFER_USAGE_TRANSFER_DST_BIT)
              stagingBuffer stagingMemory mapResult mesh'.getVertexBuffer cmd) ∧
    (∃ evs, (Mesh.createIndexBuffer drv tr mesh queue pool indices).1 = tr ++ evs ∧
      (∀ x ∈ evs, x.sizesAre (4 * indices.length) = true) ∧
      ∀ mesh', (Mesh.createIndexBuffer drv tr mesh queue pool indices).2 =
          Outcome.returned mesh' →
        ∃ stagingBuffer stagingMemory mapResult cmd,
          evs.filter Event.carriesSize =
            sizedCalls (4 * indices.length)
              (VK_BUFFER_USAGE_INDEX_BUFFER_BIT ||| VK_BUFFER_USAGE_TRANSFER_DST_BIT)
              stagingBuffer stagingMemory mapResult mesh'.getIndexBuffer cmd) := by
  have hvb : vertexBytes vertices = 24 * vertices.length := by
    unfold vertexBytes sizeofVertex
    exact Nat.mod_eq_of_lt hv
  have hib : indexBytes indices = 4 * indices.length := by
    unfold indexBytes sizeofUint32
    exact Nat.mod_eq_of_lt hi
  constructor
  · rcases createVertexBuffer_cases drv tr mesh queue pool vertices with
      ⟨evs, e, h, hr⟩ | ⟨u, h⟩ | ⟨evs, h, hu⟩
    · rw [h]
      refine ⟨evs, rfl, ?_, ?_⟩
      · rw [← hvb]; exact uploadRaised_sizesAre hr
      · intro mesh' hm
        simp at hm
    rotate_left
    · rw [h]
      refine ⟨evs, rfl, ?_, ?_⟩
      · rw [← hvb]; exact uploadUndefined_sizesAre hu
      · intro mesh' hm
        simp at hm
    · rw [h]
      refine ⟨_, rfl, ?_, ?_⟩
      · rw [← hvb]; exact uploadCalls_sizesAre _ _ _ _ _ _
      · intro mesh' hm
        simp only [Outcome.returned.injEq] at hm
        subst hm
        refine ⟨u.staging.buffer, u.staging.memory, u.mapResult, u.copy.commandBuffer, ?_⟩
        rw [uploadCalls_filter_carriesSize, hvb]
        rfl
  · rcases createIndexBuffer_cases drv tr mesh queue pool indices with
      ⟨evs, e, h, hr⟩ | ⟨u, h⟩ | ⟨evs, h, hu⟩
    · rw [h]
      refine ⟨evs, rfl, ?_, ?_⟩
      · rw [← hib]; exact uploadRaised_sizesAre hr
      · intro mesh' hm
        simp at hm
    rotate_left
    · rw [h]
      refine ⟨evs, rfl, ?_, ?_⟩
      · rw [← hib]; exact uploadUndefined_sizesAre hu
      · intro mesh' hm
        simp at hm
    · rw [h]
      refine ⟨_, rfl, ?_, ?_⟩
      · rw [← hib]; exact uploadCalls_sizesAre _ _ _ _ _ _
      · intro mesh' hm
        simp only [Outcome.returned.injEq] at hm
        subst hm
        refine ⟨u.staging.buffer, u.staging.memory, u.mapResult, u.copy.commandBuffer, ?_⟩
        rw [uploadCalls_filter_carriesSize, hib]
        rfl

/-- The triangle of the specification on `okDriver`: both uploads return, with sizes 72
and 12. -/
theorem upload_sizes_witness :
    (24 * triangleVertices.length < 2 ^ 64 ∧ 4 * triangleIndices.length < 2 ^ 64) ∧
    (Mesh.createVertexBuffer okDriver [] ⟨3, 3, 0, 0, 0, 0⟩ 7 8 triangleVertices).2 =
      Outcome.returned ⟨3, 3, 8, 0, 10, 0⟩ ∧
    (Mesh.createIndexBuffer okDriver [] ⟨3, 3, 0, 0, 0, 0⟩ 7 8 triangleIndices).2 =
      Outcome.returned ⟨3, 3, 0, 8, 0, 10⟩ ∧
    ((∃ evs, (Mesh.createVertexBuffer okDriver [] ⟨3, 3, 0, 0, 0, 0⟩ 7 8 triangleVertices).1 = [] ++
        evs ∧
      (∀ x ∈ evs, x.sizesAre (24 * triangleVertices.length) = true) ∧
      ∀ mesh', (Mesh.createVertexBuffer okDriver [] ⟨3, 3, 0, 0, 0, 0⟩ 7 8 triangleVertices).2 =
          Outcome.returned mesh' →
        ∃ stagingBuffer stagingMemory mapResult cmd,
          evs.filter Event.carriesSize =
            sizedCalls (24 * triangleVertices.length)
              (VK_BUFFER_USAGE_VERTEX_BUFFER_BIT ||| VK_BUFFER_USAGE_TRANSFER_DST_BIT)
              stagingBuffer stagingMemory mapResult mesh'.getVertexBuffer cmd) ∧
    (∃ evs, (Mesh.createIndexBuffer okDriver [] ⟨3, 3, 0, 0, 0, 0⟩ 7 8 triangleIndices).1 = [] ++
        evs ∧
      (∀ x ∈ evs, x.sizesAre (4 * triangleIndices.length) = true) ∧
      ∀ mesh', (Mesh.createIndexBuffer okDriver [] ⟨3, 3, 0, 0, 0, 0⟩ 7 8 triangleIndices).2 =
          Outcome.returned mesh' →
        ∃ stagingBuffer stagingMemory mapResult cmd,
          evs.filter Event.carriesSize =
            sizedCalls (4 * triangleIndices.length)
              (VK_BUFFER_USAGE_INDEX_BUFFER_BIT ||| VK_BUFFER_USAGE_TRANSFER_DST_BIT)
              stagingBuffer stagingMemory mapResult mesh'.getIndexBuffer cmd)) :=
  ⟨⟨by decide, by decide⟩, by decide, by decide,
    upload_sizes okDriver [] ⟨3, 3, 0, 0, 0, 0⟩ 7 8 triangleVertices triangleIndices
      (by decide) (by decide)⟩

/-! ## Release of the staging buffer -/

theorem uploadCalls_filter_isRelease (p : VkPhysicalDeviceMemoryProperties)
    (size usage queue pool : Nat) (u : UploadRun) :
    (uploadCalls p size usage queue pool u).filter Event.isRelease =
      [Event.vkDestroyBuffer u.staging.buffer, Event.vkFreeMemory u.staging.memory] := by
  simp [uploadCalls, createBufferCalls, fillCalls, copyBufferCalls, Event.isRelease]

theorem uploadCalls_begin (p : VkPhysicalDeviceMemoryProperties)
    (size usage queue pool : Nat) (u : UploadRun) :
    createBufferCalls p size VK_BUFFER_USAGE_TRANSFER_SRC_BIT
        (VK_MEMORY_PROPERTY_HOST_VISIBLE_BIT ||| VK_MEMORY_PROPERTY_HOST_COHERENT_BIT) u.staging
      <+: uploadCalls p size usage queue pool u := by
  unfold uploadCalls
  simp only [List.append_assoc]
  exact List.prefix_append _ _

theorem uploadCalls_end (p : VkPhysicalDeviceMemoryProperties)
    (size usage queue pool : Nat) (u : UploadRun) :
    [Event.vkDestroyBuffer u.staging.buffer, Event.vkFreeMemory u.staging.memory]
      <:+ uploadCalls p size usage queue pool u := by
  unfold uploadCalls
  exact List.suffix_append _ _

/-- C4. Whenever `Mesh::createVertexBuffer` or `Mesh::createIndexBuffer` returns, the
calls it made begin with the creation of the staging buffer and of its memory
(`createBuffer` with `TRANSFER_SRC`, host-visible and host-coherent), end with
`vkDestroyBuffer` on that buffer and `vkFreeMemory` on that memory, and contain no other
`vkDestroyBuffer` or `vkFreeMemory` call: each of the two is released exactly once and
nothing else is released. -/
theorem staging_released (drv : Driver) (tr : List Event) (mesh : Mesh) (queue pool : Handle)
    (vertices : List Vertex) (indices : List Nat) :
    (∀ tr' mesh', Mesh.createVertexBuffer drv tr mesh queue pool vertices =
        (tr', Outcome.returned mesh') →
      ∃ evs staging, tr' = tr ++ evs ∧
        createBufferCalls drv.memoryProperties (vertexBytes vertices)
            VK_BUFFER_USAGE_TRANSFER_SRC_BIT
            (VK_MEMORY_PROPERTY_HOST_VISIBLE_BIT ||| VK_MEMORY_PROPERTY_HOST_COHERENT_BIT)
            staging <+: evs ∧
        [Event.vkDestroyBuffer staging.buffer, Event.vkFreeMemory staging.memory] <:+ evs ∧
        evs.filter Event.isRelease =
          [Event.vkDestroyBuffer staging.buffer, Event.vkFreeMemory staging.memory]) ∧
    (∀ tr' mesh', Mesh.createIndexBuffer drv tr mesh queue pool indices =
        (tr', Outcome.returned mesh') →
      ∃ evs staging, tr' = tr ++ evs ∧
        createBufferCalls drv.memoryProperties (indexBytes indices)
            VK_BUFFER_USAGE_TRANSFER_SRC_BIT
            (VK_MEMORY_PROPERTY_HOST_VISIBLE_BIT ||| VK_MEMORY_PROPERTY_HOST_COHERENT_BIT)
            staging <+: evs ∧
        [Event.vkDestroyBuffer staging.buffer, Event.vkFreeMemory staging.memory] <:+ evs ∧
        evs.filter Event.isRelease =
          [Event.vkDestroyBuffer staging.buffer, Event.vkFreeMemory staging.memory]) := by
  constructor
  · intro tr' mesh' h
    obtain ⟨u, rfl, _⟩ := createVertexBuffer_returned h
    exact ⟨_, u.staging, rfl, uploadCalls_begin _ _ _ _ _ _, uploadCalls_end _ _ _ _ _ _,
      uploadCalls_filter_isRelease _ _ _ _ _ _⟩
  · intro tr' mesh' h
    obtain ⟨u, rfl, _⟩ := createIndexBuffer_returned h
    exact ⟨_, u.staging, rfl, uploadCalls_begin _ _ _ _ _ _, uploadCalls_end _ _ _ _ _ _,
      uploadCalls_filter_isRelease _ _ _ _ _ _⟩

/-- The triangle of the specification on `okDriver`: both uploads return. -/
theorem staging_released_witness :
    (Mesh.createVertexBuffer okDriver [] ⟨3, 3, 0, 0, 0, 0⟩ 7 8 triangleVertices).2 =
      Outcome.returned ⟨3, 3, 8, 0, 10, 0⟩ ∧
    (Mesh.createIndexBuffer okDriver [] ⟨3, 3, 0, 0, 0, 0⟩ 7 8 triangleIndices).2 =
      Outcome.returned ⟨3, 3, 0, 8, 0, 10⟩ ∧
    ((∀ tr' mesh', Mesh.createVertexBuffer okDriver [] ⟨3, 3, 0, 0, 0, 0⟩ 7 8 triangleVertices =
        (tr', Outcome.returned mesh') →
      ∃ evs staging, tr' = [] ++ evs ∧
        createBufferCalls okDriver.memoryProperties (vertexBytes triangleVertices)
            VK_BUFFER_USAGE_TRANSFER_SRC_BIT
            (VK_MEMORY_PROPERTY_HOST_VISIBLE_BIT ||| VK_MEMORY_PROPERTY_HOST_COHERENT_BIT)
            staging <+: evs ∧
        [Event.vkDestroyBuffer staging.buffer, Event.vkFreeMemory staging.memory] <:+ evs ∧
        evs.filter Event.isRelease =
          [Event.vkDestroyBuffer staging.buffer, Event.vkFreeMemory staging.memory]) ∧
    (∀ tr' mesh', Mesh.createIndexBuffer okDriver [] ⟨3, 3, 0, 0, 0, 0⟩ 7 8 triangleIndices =
        (tr', Outcome.returned mesh') →
      ∃ evs staging, tr' = [] ++ evs ∧
        createBufferCalls okDriver.memoryProperties (indexBytes triangleIndices)
            VK_BUFFER_USAGE_TRANSFER_SRC_BIT
            (VK_MEMORY_PROPERTY_HOST_VISIBLE_BIT ||| VK_MEMORY_PROPERTY_HOST_COHERENT_BIT)
            staging <+: evs ∧
        [Event.vkDestroyBuffer staging.buffer, Event.vkFreeMemory staging.memory] <:+ evs ∧
        evs.filter Event.isRelease =
          [Event.vkDestroyBuffer staging.buffer, Event.vkFreeMemory staging.memory])) :=
  ⟨by decide, by decide,
    staging_released okDriver [] ⟨3, 3, 0, 0, 0, 0⟩ 7 8 triangleVertices triangleIndices⟩

/-! ## The transfer of one upload -/

/-- C5. `copyBuffer` makes exactly the calls of `copyBufferCalls`: it allocates one
primary command buffer, begins it with the one-time-submit flag, records one copy with the
single region (source offset 0, destination offset 0, the given size) from the source to
the destination, ends it, submits it once to the transfer queue with no fence, waits for
that queue to be idle and then frees the command buffer.  In an upload that returns, these
calls, with the staging buffer as source, the buffer stored in the mesh as destination and
the byte size of the data, follow the creation and filling of the staging buffer and the
creation of the destination, which contain no queue call, and are followed by the
destruction of the staging buffer and the release of its memory. -/
theorem copy_sequence (drv : Driver) (tr : List Event) (mesh : Mesh) (queue pool : Handle)
    (vertices : List Vertex) (indices : List Nat) (src dst size : Nat) :
    (∃ c : CopyRun, copyBuffer drv tr queue pool src dst size =
      tr ++ copyBufferCalls queue pool src dst size c) ∧
    (∀ tr' mesh', Mesh.createVertexBuffer drv tr mesh queue pool vertices =
        (tr', Outcome.returned mesh') →
      ∃ (staging : CreateRun) (mapResult : VkResult) (dstRun : CreateRun) (c : CopyRun),
        dstRun.buffer = mesh'.getVertexBuffer ∧
        tr' = tr ++
          (createBufferCalls drv.memoryProperties (vertexBytes vertices)
              VK_BUFFER_USAGE_TRANSFER_SRC_BIT
              (VK_MEMORY_PROPERTY_HOST_VISIBLE_BIT ||| VK_MEMORY_PROPERTY_HOST_COHERENT_BIT)
              staging ++
            fillCalls (vertexBytes vertices) staging.memory mapResult ++
            createBufferCalls drv.memoryProperties (vertexBytes vertices)
              (VK_BUFFER_USAGE_VERTEX_BUFFER_BIT ||| VK_BUFFER_USAGE_TRANSFER_DST_BIT)
              VK_MEMORY_PROPERTY_DEVICE_LOCAL_BIT dstRun ++
            copyBufferCalls queue pool staging.buffer dstRun.buffer (vertexBytes vertices) c ++
            [Event.vkDestroyBuffer staging.buffer, Event.vkFreeMemory staging.memory])) ∧
    (∀ tr' mesh', Mesh.createIndexBuffer drv tr mesh queue pool indices =
        (tr', Outcome.returned mesh') →
      ∃ (staging : CreateRun) (mapResult : VkResult) (dstRun : CreateRun) (c : CopyRun),
        dstRun.buffer = mesh'.getIndexBuffer ∧
        tr' = tr ++
          (createBufferCalls drv.memoryProperties (indexBytes indices)
              VK_BUFFER_USAGE_TRANSFER_SRC_BIT
              (VK_MEMORY_PROPERTY_HOST_VISIBLE_BIT ||| VK_MEMORY_PROPERTY_HOST_COHERENT_BIT)
              staging ++
            fillCalls (indexBytes indices) staging.memory mapResult ++
            createBufferCalls drv.memoryProperties (indexBytes indices)
              (VK_BUFFER_USAGE_INDEX_BUFFER_BIT ||| VK_BUFFER_USAGE_TRANSFER_DST_BIT)
              VK_MEMORY_PROPERTY_DEVICE_LOCAL_BIT dstRun ++
            copyBufferCalls queue pool staging.buffer dstRun.buffer (indexBytes indices) c ++
            [Event.vkDestroyBuffer staging.buffer, Event.vkFreeMemory staging.memory])) := by
  refine ⟨copyBuffer_calls drv tr queue pool src dst size, ?_, ?_⟩
  · intro tr' mesh' h
    obtain ⟨u, rfl, rfl⟩ := createVertexBuffer_returned h
    exact ⟨u.staging, u.mapResult, u.dst, u.copy, rfl, rfl⟩
  · intro tr' mesh' h
    obtain ⟨u, rfl, rfl⟩ := createIndexBuffer_returned h
    exact ⟨u.staging, u.mapResult, u.dst, u.copy, rfl, rfl⟩

/-- The triangle of the specification on `okDriver`: both uploads return. -/
theorem copy_sequence_witness :
    (Mesh.createVertexBuffer okDriver [] ⟨3, 3, 0, 0, 0, 0⟩ 7 8 triangleVertices).2 =
      Outcome.returned ⟨3, 3, 8, 0, 10, 0⟩ ∧
    (Mesh.createIndexBuffer okDriver [] ⟨3, 3, 0, 0, 0, 0⟩ 7 8 triangleIndices).2 =
      Outcome.returned ⟨3, 3, 0, 8, 0, 10⟩ ∧
    ((∃ c : CopyRun, copyBuffer okDriver [] 7 8 1 2 72 =
      [] ++ copyBufferCalls 7 8 1 2 72 c) ∧
    (∀ tr' mesh', Mesh.createVertexBuffer okDriver [] ⟨3, 3, 0, 0, 0, 0⟩ 7 8 triangleVertices =
        (tr', Outcome.returned mesh') →
      ∃ (staging : CreateRun) (mapResult : VkResult) (dstRun : CreateRun) (c : CopyRun),
        dstRun.buffer = mesh'.getVertexBuffer ∧
        tr' = [] ++
          (createBufferCalls okDriver.memoryProperties (vertexBytes triangleVertices)
              VK_BUFFER_USAGE_TRANSFER_SRC_BIT
              (VK_MEMORY_PROPERTY_HOST_VISIBLE_BIT ||| VK_MEMORY_PROPERTY_HOST_COHERENT_BIT)
              staging ++
            fillCalls (vertexBytes triangleVertices) staging.memory mapResult ++
            createBufferCalls okDriver.memoryProperties (vertexBytes triangleVertices)
              (VK_BUFFER_USAGE_VERTEX_BUFFER_BIT ||| VK_BUFFER_USAGE_TRANSFER_DST_BIT)
              VK_MEMORY_PROPERTY_DEVICE_LOCAL_BIT dstRun ++
            copyBufferCalls 7 8 staging.buffer dstRun.buffer (vertexBytes triangleVertices) c ++
            [Event.vkDestroyBuffer staging.buffer, Event.vkFreeMemory staging.memory])) ∧
    (∀ tr' mesh', Mesh.createIndexBuffer okDriver [] ⟨3, 3, 0, 0, 0, 0⟩ 7 8 triangleIndices =
        (tr', Outcome.returned mesh') →
      ∃ (staging : CreateRun) (mapResult : VkResult) (dstRun : CreateRun) (c : CopyRun),
        dstRun.buffer = mesh'.getIndexBuffer ∧
        tr' = [] ++
          (createBufferCalls okDriver.memoryProperties (indexBytes triangleIndices)
              VK_BUFFER_USAGE_TRANSFER_SRC_BIT
              (VK_MEMORY_PROPERTY_HOST_VISIBLE_BIT ||| VK_MEMORY_PROPERTY_HOST_COHERENT_BIT)
              staging ++
            fillCalls (indexBytes triangleIndices) staging.memory mapResult ++
            createBufferCalls okDriver.memoryProperties (indexBytes triangleIndices)
              (VK_BUFFER_USAGE_INDEX_BUFFER_BIT ||| VK_BUFFER_USAGE_TRANSFER_DST_BIT)
              VK_MEMORY_PROPERTY_DEVICE_LOCAL_BIT dstRun ++
            copyBufferCalls 7 8 staging.buffer dstRun.buffer (indexBytes triangleIndices) c ++
            [Event.vkDestroyBuffer staging.buffer, Event.vkFreeMemory staging.memory]))) :=
  ⟨by decide, by decide,
    copy_sequence okDriver [] ⟨3, 3, 0, 0, 0, 0⟩ 7 8 triangleVertices triangleIndices 1 2 72⟩

/-! ## Failures of an upload -/

theorem createBufferRaised_checked {p : VkPhysicalDeviceMemoryProperties}
    {size usage properties : Nat} {evs : List Event} {e : RuntimeError}
    (h : CreateBufferRaised p size usage properties evs e) :
    ∃ x ∈ evs, x.isCheckedFailure = true := by
  rcases h with ⟨r, b, hr, _, rfl⟩ | ⟨b, reqs, r, m, hr, _, rfl⟩
  · exact ⟨_, List.mem_singleton.mpr rfl, by simpa [Event.isCheckedFailure] using hr⟩
  · refine ⟨Event.vkAllocateMemory
        ⟨reqs.size, findMemoryTypeIndex p reqs.memoryTypeBits properties⟩ r m, by simp, ?_⟩
    simpa [Event.isCheckedFailure] using hr

theorem uploadRaised_checked {p : VkPhysicalDeviceMemoryProperties}
    {size usage : Nat} {evs : List Event} {e : RuntimeError}
    (h : UploadRaised p size usage evs e) :
    ∃ x ∈ evs, x.isCheckedFailure = true := by
  rcases h with h | ⟨c, r, evs2, rfl, h2⟩
  · exact createBufferRaised_checked h
  · obtain ⟨x, hx, hc⟩ := createBufferRaised_checked h2
    exact ⟨x, List.mem_append_right _ hx, hc⟩

theorem uploadUndefined_not_checked {p : VkPhysicalDeviceMemoryProperties}
    {size : Nat} {evs : List Event} (h : UploadUndefined p size evs) :
    ∀ x ∈ evs, x.isCheckedFailure = false := by
  obtain ⟨c, r, _, rfl⟩ := h
  simp [createBufferCalls, Event.isCheckedFailure]

theorem uploadCalls_not_checked (p : VkPhysicalDeviceMemoryProperties)
    (size usage queue pool : Nat) (u : UploadRun) :
    ∀ x ∈ uploadCalls p size usage queue pool u, x.isCheckedFailure = false := by
  simp [uploadCalls, createBufferCalls, fillCalls, copyBufferCalls, Event.isCheckedFailure]

/-- On `lostDriver` both queue submissions and both queue-idle waits report
`VK_ERROR_DEVICE_LOST`, and the constructor returns a mesh: `copyBuffer` examines no
result. -/
theorem unchecked_failures_return :
    (Mesh.new lostDriver [] 7 8 triangleVertices triangleIndices).1.filter Event.failed =
      [Event.vkQueueSubmit 7 [⟨[12]⟩] VK_NULL_HANDLE VK_ERROR_DEVICE_LOST,
        Event.vkQueueWaitIdle 7 VK_ERROR_DEVICE_LOST,
        Event.vkQueueSubmit 7 [⟨[32]⟩] VK_NULL_HANDLE VK_ERROR_DEVICE_LOST,
        Event.vkQueueWaitIdle 7 VK_ERROR_DEVICE_LOST] ∧
    (Mesh.new lostDriver [] 7 8 triangleVertices triangleIndices).2 =
      Outcome.returned ⟨3, 3, 8, 28, 10, 30⟩ := by
  decide

/-- The constructor raises exactly when one of its `vkCreateBuffer` or `vkAllocateMemory`
calls reports a result other than `VK_SUCCESS`; the result of no other call makes it
raise. -/
theorem mesh_raises_iff (drv : Driver) (tr : List Event) (queue pool : Handle)
    (vertices : List Vertex) (indices : List Nat) :
    ∃ evs, (Mesh.new drv tr queue pool vertices indices).1 = tr ++ evs ∧
      ((∃ x ∈ evs, x.isCheckedFailure = true) ↔
        ∃ e, (Mesh.new drv tr queue pool vertices indices).2 = Outcome.raised e) := by
  rcases meshConstructor_cases drv tr queue pool vertices indices with
    ⟨evs, e, h, hr⟩ | ⟨uv, ui, h⟩ | ⟨evs, h, hu⟩
  · rw [h]
    refine ⟨evs, rfl, fun _ => ⟨e, rfl⟩, fun _ => ?_⟩
    rcases hr with hr | ⟨uv, evs2, rfl, hr⟩
    · exact uploadRaised_checked hr
    · obtain ⟨x, hx, hc⟩ := uploadRaised_checked hr
      exact ⟨x, List.mem_append_right _ hx, hc⟩
  rotate_left
  · rw [h]
    refine ⟨evs, rfl, ?_, ?_⟩
    · rintro ⟨x, hx, hc⟩
      rcases hu with hu | ⟨uv, evs2, rfl, hu⟩
      · rw [uploadUndefined_not_checked hu x hx] at hc
        exact absurd hc (by decide)
      · rcases List.mem_append.mp hx with hx | hx
        · rw [uploadCalls_not_checked _ _ _ _ _ _ x hx] at hc
          exact absurd hc (by decide)
        · rw [uploadUndefined_not_checked hu x hx] at hc
          exact absurd hc (by decide)
    · rintro ⟨e, he⟩
      simp at he
  · rw [h]
    refine ⟨_, rfl, ?_, ?_⟩
    · rintro ⟨x, hx, hc⟩
      rcases List.mem_append.mp hx with hx | hx
      · rw [uploadCalls_not_checked _ _ _ _ _ _ x hx] at hc
        exact absurd hc (by decide)
      · rw [uploadCalls_not_checked _ _ _ _ _ _ x hx] at hc
        exact absurd hc (by decide)
    · rintro ⟨e, he⟩
      simp at he

/-! ## Usage and memory properties of the buffers of a mesh -/

theorem uploadCalls_filter_isCreation (p : VkPhysicalDeviceMemoryProperties)
    (size usage queue pool : Nat) (u : UploadRun) :
    (uploadCalls p size usage queue pool u).filter Event.isCreation =
      createBufferCalls p size VK_BUFFER_USAGE_TRANSFER_SRC_BIT
          (VK_MEMORY_PROPERTY_HOST_VISIBLE_BIT ||| VK_MEMORY_PROPERTY_HOST_COHERENT_BIT)
          u.staging ++
        createBufferCalls p size usage VK_MEMORY_PROPERTY_DEVICE_LOCAL_BIT u.dst := by
  simp [uploadCalls, createBufferCalls, fillCalls, copyBufferCalls, Event.isCreation]

/-- A `Mesh` construction that returns has made the calls of the vertex upload followed by
those of the index upload. -/
theorem meshConstructor_returned {drv : Driver} {tr tr' : List Event} {queue pool : Handle}
    {vertices : List Vertex} {indices : List Nat} {mesh : Mesh}
    (h : Mesh.new drv tr queue pool vertices indices = (tr', Outcome.returned mesh)) :
    ∃ uv ui : UploadRun,
      tr' = tr ++
        (uploadCalls drv.memoryProperties (vertexBytes vertices) vertexUsage queue pool uv ++
          uploadCalls drv.memoryProperties (indexBytes indices) indexUsage queue pool ui) ∧
      mesh = { m_vertexCount := toInt vertices.length,
               m_indexCount := toInt indices.length,
               m_vertexBuffer := uv.dst.buffer,
               m_indexBuffer := ui.dst.buffer,
               m_vertexBufferMemory := uv.dst.memory,
               m_indexBufferMemory := ui.dst.memory } := by
  rcases meshConstructor_cases drv tr queue pool vertices indices with
    ⟨evs, e, h', _⟩ | ⟨uv, ui, h'⟩ | ⟨evs, h', _⟩
  · rw [h'] at h
    simp at h
  rotate_left
  · rw [h'] at h
    simp at h
  · rw [h'] at h
    simp only [Prod.mk.injEq, Outcome.returned.injEq] at h
    obtain ⟨rfl, rfl⟩ := h
    exact ⟨uv, ui, rfl, rfl⟩

/-- C7. When the constructor returns, the calls it made to create buffers and memory are
exactly those of four `createBuffer` calls: a staging buffer with usage `TRANSFER_SRC` and
properties `HOST_VISIBLE | HOST_COHERENT`, the vertex buffer with usage
`VERTEX_BUFFER | TRANSFER_DST` and properties `DEVICE_LOCAL`, a second staging buffer like
the first, and the index buffer with usage `INDEX_BUFFER | TRANSFER_DST` and properties
`DEVICE_LOCAL`; `getVertexBuffer` and `getIndexBuffer` give the buffers of the second and
of the fourth. -/
theorem mesh_buffer_kinds (drv : Driver) (tr tr' : List Event) (queue pool : Handle)
    (vertices : List Vertex) (indices : List Nat) (mesh : Mesh)
    (h : Mesh.new drv tr queue pool vertices indices = (tr', Outcome.returned mesh)) :
    ∃ (evs : List Event) (stagingV vertex stagingI index : CreateRun),
      tr' = tr ++ evs ∧
      vertex.buffer = mesh.getVertexBuffer ∧
      index.buffer = mesh.getIndexBuffer ∧
      evs.filter Event.isCreation =
        createBufferCalls drv.memoryProperties (vertexBytes vertices)
            VK_BUFFER_USAGE_TRANSFER_SRC_BIT
            (VK_MEMORY_PROPERTY_HOST_VISIBLE_BIT ||| VK_MEMORY_PROPERTY_HOST_COHERENT_BIT)
            stagingV ++
          createBufferCalls drv.memoryProperties (vertexBytes vertices)
            (VK_BUFFER_USAGE_VERTEX_BUFFER_BIT ||| VK_BUFFER_USAGE_TRANSFER_DST_BIT)
            VK_MEMORY_PROPERTY_DEVICE_LOCAL_BIT vertex ++
          createBufferCalls drv.memoryProperties (indexBytes indices)
            VK_BUFFER_USAGE_TRANSFER_SRC_BIT
            (VK_MEMORY_PROPERTY_HOST_VISIBLE_BIT ||| VK_MEMORY_PROPERTY_HOST_COHERENT_BIT)
            stagingI ++
          createBufferCalls drv.memoryProperties (indexBytes indices)
            (VK_BUFFER_USAGE_INDEX_BUFFER_BIT ||| VK_BUFFER_USAGE_TRANSFER_DST_BIT)
            VK_MEMORY_PROPERTY_DEVICE_LOCAL_BIT index := by
  obtain ⟨uv, ui, rfl, rfl⟩ := meshConstructor_returned h
  refine ⟨_, uv.staging, uv.dst, ui.staging, ui.dst, rfl, rfl, rfl, ?_⟩
  rw [List.filter_append, uploadCalls_filter_isCreation, uploadCalls_filter_isCreation]
  simp only [vertexUsage, indexUsage, List.append_assoc]

/-- The triangle of the specification on `okDriver`: the constructor returns the mesh with
vertex buffer 8 and index buffer 28. -/
theorem mesh_buffer_kinds_witness :
    Mesh.new okDriver [] 7 8 triangleVertices triangleIndices =
      ((Mesh.new okDriver [] 7 8 triangleVertices triangleIndices).1,
        Outcome.returned ⟨3, 3, 8, 28, 10, 30⟩) ∧
    ∃ (evs : List Event) (stagingV vertex stagingI index : CreateRun),
      (Mesh.new okDriver [] 7 8 triangleVertices triangleIndices).1 = [] ++ evs ∧
      vertex.buffer = Mesh.getVertexBuffer ⟨3, 3, 8, 28, 10, 30⟩ ∧
      index.buffer = Mesh.getIndexBuffer ⟨3, 3, 8, 28, 10, 30⟩ ∧
      evs.filter Event.isCreation =
        createBufferCalls okDriver.memoryProperties (vertexBytes triangleVertices)
            VK_BUFFER_USAGE_TRANSFER_SRC_BIT
            (VK_MEMORY_PROPERTY_HOST_VISIBLE_BIT ||| VK_MEMORY_PROPERTY_HOST_COHERENT_BIT)
            stagingV ++
          createBufferCalls okDriver.memoryProperties (vertexBytes triangleVertices)
            (VK_BUFFER_USAGE_VERTEX_BUFFER_BIT ||| VK_BUFFER_USAGE_TRANSFER_DST_BIT)
            VK_MEMORY_PROPERTY_DEVICE_LOCAL_BIT vertex ++
          createBufferCalls okDriver.memoryProperties (indexBytes triangleIndices)
            VK_BUFFER_USAGE_TRANSFER_SRC_BIT
            (VK_MEMORY_PROPERTY_HOST_VISIBLE_BIT ||| VK_MEMORY_PROPERTY_HOST_COHERENT_BIT)
            stagingI ++
          createBufferCalls okDriver.memoryProperties (indexBytes triangleIndices)
            (VK_BUFFER_USAGE_INDEX_BUFFER_BIT ||| VK_BUFFER_USAGE_TRANSFER_DST_BIT)
            VK_MEMORY_PROPERTY_DEVICE_LOCAL_BIT index :=
  ⟨by decide,
    mesh_buffer_kinds okDriver [] _ 7 8 triangleVertices triangleIndices _ (by decide)⟩

/-! ## Host access to memory -/

theorem append_eq_append_cons {α : Type} {X Y pre post : List α} {e : α}
    (h : X ++ Y = pre ++ e :: post) :
    (∃ q, X = pre ++ e :: q ∧ post = q ++ Y) ∨ (∃ q, pre = X ++ q ∧ Y = q ++ e :: post) := by
  induction X generalizing pre with
  | nil => exact Or.inr ⟨pre, rfl, h⟩
  | cons x xs ih =>
    cases pre with
    | nil =>
      simp only [List.cons_append, List.nil_append, List.cons.injEq] at h
      obtain ⟨rfl, rfl⟩ := h
      exact Or.inl ⟨xs, rfl, rfl⟩
    | cons a pre' =>
      simp only [List.cons_append, List.cons.injEq] at h
      obtain ⟨rfl, h⟩ := h
      rcases ih h with ⟨q, rfl, rfl⟩ | ⟨q, rfl, rfl⟩
      · exact Or.inl ⟨q, rfl, rfl⟩
      · exact Or.inr ⟨q, rfl, rfl⟩

theorem mapsStaging_of_noHost {p : VkPhysicalDeviceMemoryProperties} {evs : List Event}
    (h : ∀ x ∈ evs, x.isHostAccess = false) : MapsStaging p evs := by
  intro pre post m offset size flags r he
  have := h (Event.vkMapMemory m offset size flags r) (by rw [he]; simp)
  simp [Event.isHostAccess] at this

theorem writesMapped_of_noHost {evs : List Event}
    (h : ∀ x ∈ evs, x.isHostAccess = false) : WritesMapped evs := by
  intro pre post m count he
  have := h (Event.memcpy m count) (by rw [he]; simp)
  simp [Event.isHostAccess] at this

theorem mapsStaging_append {p : VkPhysicalDeviceMemoryProperties} {X Y : List Event}
    (hX : MapsStaging p X) (hY : MapsStaging p Y) : MapsStaging p (X ++ Y) := by
  intro pre post m offset size flags r he
  rcases append_eq_append_cons he with ⟨q, hq, _⟩ | ⟨q, rfl, hq⟩
  · exact hX pre q m offset size flags r hq
  · obtain ⟨pre', c, rfl, hc⟩ := hY q post m offset size flags r hq
    exact ⟨X ++ pre', c, by simp only [List.append_assoc], hc⟩

theorem writesMapped_append {X Y : List Event}
    (hX : WritesMapped X) (hY : WritesMapped Y) : WritesMapped (X ++ Y) := by
  intro pre post m count he
  rcases append_eq_append_cons he with ⟨q, hq, _⟩ | ⟨q, rfl, hq⟩
  · exact hX pre q m count hq
  · obtain ⟨pre', r, rfl⟩ := hY q post m count hq
    exact ⟨X ++ pre', r, by simp only [List.append_assoc]⟩

theorem mapsStaging_block (p : VkPhysicalDeviceMemoryProperties) (size : Nat) (c : CreateRun)
    (r : VkResult) :
    MapsStaging p (createBufferCalls p size VK_BUFFER_USAGE_TRANSFER_SRC_BIT
        (VK_MEMORY_PROPERTY_HOST_VISIBLE_BIT ||| VK_MEMORY_PROPERTY_HOST_COHERENT_BIT) c ++
      fillCalls size c.memory r) := by
  intro pre post m offset size' flags r' he
  rcases append_eq_append_cons he with ⟨q, hq, _⟩ | ⟨q, rfl, hq⟩
  · have : Event.vkMapMemory m offset size' flags r' ∈
        createBufferCalls p size VK_BUFFER_USAGE_TRANSFER_SRC_BIT
          (VK_MEMORY_PROPERTY_HOST_VISIBLE_BIT ||| VK_MEMORY_PROPERTY_HOST_COHERENT_BIT) c := by
      rw [hq]; simp
    simp [createBufferCalls] at this
  · cases q with
    | nil =>
      simp only [fillCalls, List.nil_append, List.cons.injEq, Event.vkMapMemory.injEq] at hq
      obtain ⟨⟨rfl, rfl, rfl, rfl, rfl⟩, _⟩ := hq
      exact ⟨[], c, by simp, rfl, rfl⟩
    | cons a q' =>
      simp only [fillCalls, List.cons_append, List.cons.injEq] at hq
      obtain ⟨_, hq⟩ := hq
      have : Event.vkMapMemory m offset size' flags r' ∈
          [Event.memcpy c.memory size, Event.vkUnmapMemory c.memory] := by
        rw [hq]; simp
      simp at this

theorem writesMapped_fill (size : Nat) (memory : Handle) (r : VkResult) :
    WritesMapped (fillCalls size memory r) := by
  intro pre post m count he
  cases pre with
  | nil => simp [fillCalls] at he
  | cons a pre' =>
    simp only [fillCalls, List.cons_append, List.cons.injEq] at he
    obtain ⟨rfl, he⟩ := he
    cases pre' with
    | nil =>
      simp only [List.nil_append, List.cons.injEq, Event.memcpy.injEq] at he
      obtain ⟨⟨rfl, rfl⟩, _⟩ := he
      exact ⟨[], r, rfl⟩
    | cons b pre'' =>
      simp only [List.cons_append, List.cons.injEq] at he
      obtain ⟨_, he⟩ := he
      have : Event.memcpy m count ∈ [Event.vkUnmapMemory memory] := by
        rw [he]; simp
      simp at this

theorem createBufferCalls_noHost (p : VkPhysicalDeviceMemoryProperties)
    (size usage properties : Nat) (c : CreateRun) :
    ∀ x ∈ createBufferCalls p size usage properties c, x.isHostAccess = false := by
  simp [createBufferCalls, Event.isHostAccess]

theorem createBufferRaised_noHost {p : VkPhysicalDeviceMemoryProperties}
    {size usage properties : Nat} {evs : List Event} {e : RuntimeError}
    (h : CreateBufferRaised p size usage properties evs e) :
    ∀ x ∈ evs, x.isHostAccess = false := by
  rcases h with ⟨r, b, _, _, rfl⟩ | ⟨b, reqs, r, m, _, _, rfl⟩ <;> simp [Event.isHostAccess]

theorem uploadCalls_hostOK (p : VkPhysicalDeviceMemoryProperties)
    (size usage queue pool : Nat) (u : UploadRun) :
    MapsStaging p (uploadCalls p size usage queue pool u) ∧
      WritesMapped (uploadCalls p size usage queue pool u) := by
  have hrest : ∀ x ∈ createBufferCalls p size usage VK_MEMORY_PROPERTY_DEVICE_LOCAL_BIT u.dst ++
      (copyBufferCalls queue pool u.staging.buffer u.dst.buffer size u.copy ++
        [Event.vkDestroyBuffer u.staging.buffer, Event.vkFreeMemory u.staging.memory]),
      x.isHostAccess = false := by
    simp [createBufferCalls, copyBufferCalls, Event.isHostAccess]
  have heq : uploadCalls p size usage queue pool u =
      (createBufferCalls p size VK_BUFFER_USAGE_TRANSFER_SRC_BIT
          (VK_MEMORY_PROPERTY_HOST_VISIBLE_BIT ||| VK_MEMORY_PROPERTY_HOST_COHERENT_BIT)
          u.staging ++ fillCalls size u.staging.memory u.mapResult) ++
        (createBufferCalls p size usage VK_MEMORY_PROPERTY_DEVICE_LOCAL_BIT u.dst ++
          (copyBufferCalls queue pool u.staging.buffer u.dst.buffer size u.copy ++
            [Event.vkDestroyBuffer u.staging.buffer, Event.vkFreeMemory u.staging.memory])) := by
    simp only [uploadCalls, List.append_assoc]
  rw [heq]
  exact ⟨mapsStaging_append (mapsStaging_block p size u.staging u.mapResult)
      (mapsStaging_of_noHost hrest),
    writesMapped_append
      (writesMapped_append (writesMapped_of_noHost (createBufferCalls_noHost _ _ _ _ _))
        (writesMapped_fill _ _ _))
      (writesMapped_of_noHost hrest)⟩

theorem uploadRaised_hostOK {p : VkPhysicalDeviceMemoryProperties}
    {size usage : Nat} {evs : List Event} {e : RuntimeError}
    (h : UploadRaised p size usage evs e) : MapsStaging p evs ∧ WritesMapped evs := by
  rcases h with h | ⟨c, r, evs2, rfl, h2⟩
  · exact ⟨mapsStaging_of_noHost (createBufferRaised_noHost h),
      writesMapped_of_noHost (createBufferRaised_noHost h)⟩
  · exact ⟨mapsStaging_append (mapsStaging_block p size c r)
        (mapsStaging_of_noHost (createBufferRaised_noHost h2)),
      writesMapped_append
        (writesMapped_append (writesMapped_of_noHost (createBufferCalls_noHost _ _ _ _ _))
          (writesMapped_fill _ _ _))
        (writesMapped_of_noHost (createBufferRaised_noHost h2))⟩

theorem uploadUndefined_hostOK {p : VkPhysicalDeviceMemoryProperties}
    {size : Nat} {evs : List Event} (h : UploadUndefined p size evs) :
    MapsStaging p evs ∧ WritesMapped evs := by
  obtain ⟨c, r, _, rfl⟩ := h
  constructor
  · intro pre post m offset size' flags r' he
    rcases append_eq_append_cons he with ⟨q, hq, _⟩ | ⟨q, rfl, hq⟩
    · have : Event.vkMapMemory m offset size' flags r' ∈
          createBufferCalls p size VK_BUFFER_USAGE_TRANSFER_SRC_BIT
            (VK_MEMORY_PROPERTY_HOST_VISIBLE_BIT ||| VK_MEMORY_PROPERTY_HOST_COHERENT_BIT) c := by
        rw [hq]; simp
      simp [createBufferCalls] at this
    · cases q with
      | nil =>
        simp only [List.nil_append, List.cons.injEq, Event.vkMapMemory.injEq] at hq
        obtain ⟨⟨rfl, rfl, rfl, rfl, rfl⟩, _⟩ := hq
        exact ⟨[], c, by simp, rfl, rfl⟩
      | cons a q' =>
        simp only [List.cons_append, List.cons.injEq] at hq
        obtain ⟨_, hq⟩ := hq
        have hlen := congrArg List.length hq
        simp only [List.length_nil, List.length_append, List.length_cons] at hlen
        omega
  · intro pre post m count he
    have : Event.memcpy m count ∈
        createBufferCalls p size VK_BUFFER_USAGE_TRANSFER_SRC_BIT
            (VK_MEMORY_PROPERTY_HOST_VISIBLE_BIT ||| VK_MEMORY_PROPERTY_HOST_COHERENT_BIT) c ++
          [Event.vkMapMemory c.memory 0 size 0 r] := by
      rw [he]; simp
    simp [createBufferCalls] at this

theorem uploadCalls_filter_isHostAccess (p : VkPhysicalDeviceMemoryProperties)
    (size usage queue pool : Nat) (u : UploadRun) :
    (uploadCalls p size usage queue pool u).filter Event.isHostAccess =
      [Event.vkMapMemory u.staging.memory 0 size 0 u.mapResult,
        Event.memcpy u.staging.memory size] := by
  simp [uploadCalls, createBufferCalls, fillCalls, copyBufferCalls, Event.isHostAccess]

theorem uploadCalls_filter_isCopy (p : VkPhysicalDeviceMemoryProperties)
    (size usage queue pool : Nat) (u : UploadRun) :
    (uploadCalls p size usage queue pool u).filter Event.isCopy =
      [Event.vkCmdCopyBuffer u.copy.commandBuffer u.staging.buffer u.dst.buffer
        [⟨0, 0, size⟩]] := by
  simp [uploadCalls, createBufferCalls, fillCalls, copyBufferCalls, Event.isCopy]

/-- C8. In every `Mesh` construction, however it ends: each `vkMapMemory` call
comes right after the calls of a `createBuffer` with usage `TRANSFER_SRC` and properties
`HOST_VISIBLE | HOST_COHERENT` made by this construction and maps the memory allocated
there (`MapsStaging`), and each host copy writes the memory mapped by the call right before
it (`WritesMapped`).  When the construction returns, the memory of the vertex buffer and of
the index buffer is the one allocated by the `createBuffer` calls with properties
`DEVICE_LOCAL`; the only mappings and host copies are those of the two staging memories;
and the only recorded copies are one into the vertex buffer and one into the index buffer,
each from the staging buffer of its upload. -/
theorem host_access_staging_only (drv : Driver) (tr : List Event) (queue pool : Handle)
    (vertices : List Vertex) (indices : List Nat) :
    ∃ evs, (Mesh.new drv tr queue pool vertices indices).1 = tr ++ evs ∧
      MapsStaging drv.memoryProperties evs ∧
      WritesMapped evs ∧
      ∀ mesh, (Mesh.new drv tr queue pool vertices indices).2 = Outcome.returned mesh →
        ∃ (stagingV vertex stagingI index : CreateRun) (rv ri : VkResult) (cv ci : Handle),
          vertex.buffer = mesh.getVertexBuffer ∧ vertex.memory = mesh.m_vertexBufferMemory ∧
          index.buffer = mesh.getIndexBuffer ∧ index.memory = mesh.m_indexBufferMemory ∧
          evs.filter Event.isCreation =
            createBufferCalls drv.memoryProperties (vertexBytes vertices)
                VK_BUFFER_USAGE_TRANSFER_SRC_BIT
                (VK_MEMORY_PROPERTY_HOST_VISIBLE_BIT ||| VK_MEMORY_PROPERTY_HOST_COHERENT_BIT)
                stagingV ++
              createBufferCalls drv.memoryProperties (vertexBytes vertices)
                (VK_BUFFER_USAGE_VERTEX_BUFFER_BIT ||| VK_BUFFER_USAGE_TRANSFER_DST_BIT)
                VK_MEMORY_PROPERTY_DEVICE_LOCAL_BIT vertex ++
              createBufferCalls drv.memoryProperties (indexBytes indices)
                VK_BUFFER_USAGE_TRANSFER_SRC_BIT
                (VK_MEMORY_PROPERTY_HOST_VISIBLE_BIT ||| VK_MEMORY_PROPERTY_HOST_COHERENT_BIT)
                stagingI ++
              createBufferCalls drv.memoryProperties (indexBytes indices)
                (VK_BUFFER_USAGE_INDEX_BUFFER_BIT ||| VK_BUFFER_USAGE_TRANSFER_DST_BIT)
                VK_MEMORY_PROPERTY_DEVICE_LOCAL_BIT index ∧
          evs.filter Event.isHostAccess =
            [Event.vkMapMemory stagingV.memory 0 (vertexBytes vertices) 0 rv,
              Event.memcpy stagingV.memory (vertexBytes vertices),
              Event.vkMapMemory stagingI.memory 0 (indexBytes indices) 0 ri,
              Event.memcpy stagingI.memory (indexBytes indices)] ∧
          evs.filter Event.isCopy =
            [Event.vkCmdCopyBuffer cv stagingV.buffer vertex.buffer
                [⟨0, 0, vertexBytes vertices⟩],
              Event.vkCmdCopyBuffer ci stagingI.buffer index.buffer
                [⟨0, 0, indexBytes indices⟩]] := by
  rcases meshConstructor_cases drv tr queue pool vertices indices with
    ⟨evs, e, h, hr⟩ | ⟨uv, ui, h⟩ | ⟨evs, h, hu⟩
  · rw [h]
    refine ⟨evs, rfl, ?_, ?_, ?_⟩
    · rcases hr with hr | ⟨uv, evs2, rfl, hr⟩
      · exact (uploadRaised_hostOK hr).1
      · exact mapsStaging_append (uploadCalls_hostOK _ _ _ _ _ _).1 (uploadRaised_hostOK hr).1
    · rcases hr with hr | ⟨uv, evs2, rfl, hr⟩
      · exact (uploadRaised_hostOK hr).2
      · exact writesMapped_append (uploadCalls_hostOK _ _ _ _ _ _).2 (uploadRaised_hostOK hr).2
    · intro mesh hm
      simp at hm
  rotate_left
  · rw [h]
    refine ⟨evs, rfl, ?_, ?_, ?_⟩
    · rcases hu with hu | ⟨uv, evs2, rfl, hu⟩
      · exact (uploadUndefined_hostOK hu).1
      · exact mapsStaging_append (uploadCalls_hostOK _ _ _ _ _ _).1 (uploadUndefined_hostOK hu).1
    · rcases hu with hu | ⟨uv, evs2, rfl, hu⟩
      · exact (uploadUndefined_hostOK hu).2
      · exact writesMapped_append (uploadCalls_hostOK _ _ _ _ _ _).2 (uploadUndefined_hostOK hu).2
    · intro mesh hm
      simp at hm
  · rw [h]
    refine ⟨_, rfl,
      mapsStaging_append (uploadCalls_hostOK _ _ _ _ _ _).1 (uploadCalls_hostOK _ _ _ _ _ _).1,
      writesMapped_append (uploadCalls_hostOK _ _ _ _ _ _).2 (uploadCalls_hostOK _ _ _ _ _ _).2,
      ?_⟩
    intro mesh hm
    simp only [Outcome.returned.injEq] at hm
    subst hm
    refine ⟨uv.staging, uv.dst, ui.staging, ui.dst, uv.mapResult, ui.mapResult,
      uv.copy.commandBuffer, ui.copy.commandBuffer, rfl, rfl, rfl, rfl, ?_, ?_, ?_⟩
    · rw [List.filter_append, uploadCalls_filter_isCreation, uploadCalls_filter_isCreation]
      simp only [vertexUsage, indexUsage, List.append_assoc]
    · rw [List.filter_append, uploadCalls_filter_isHostAccess,
        uploadCalls_filter_isHostAccess]
      rfl
    · rw [List.filter_append, uploadCalls_filter_isCopy, uploadCalls_filter_isCopy]
      rfl

/-- The triangle of the specification on `okDriver`: the constructor returns. -/
theorem host_access_staging_only_witness :
    (Mesh.new okDriver [] 7 8 triangleVertices triangleIndices).2 =
      Outcome.returned ⟨3, 3, 8, 28, 10, 30⟩ ∧
    (∃ evs, (Mesh.new okDriver [] 7 8 triangleVertices triangleIndices).1 = [] ++ evs ∧
      MapsStaging okDriver.memoryProperties evs ∧
      WritesMapped evs ∧
      ∀ mesh, (Mesh.new okDriver [] 7 8 triangleVertices triangleIndices).2 =
          Outcome.returned mesh →
        ∃ (stagingV vertex stagingI index : CreateRun) (rv ri : VkResult) (cv ci : Handle),
          vertex.buffer = mesh.getVertexBuffer ∧ vertex.memory = mesh.m_vertexBufferMemory ∧
          index.buffer = mesh.getIndexBuffer ∧ index.memory = mesh.m_indexBufferMemory ∧
          evs.filter Event.isCreation =
            createBufferCalls okDriver.memoryProperties (vertexBytes triangleVertices)
                VK_BUFFER_USAGE_TRANSFER_SRC_BIT
                (VK_MEMORY_PROPERTY_HOST_VISIBLE_BIT ||| VK_MEMORY_PROPERTY_HOST_COHERENT_BIT)
                stagingV ++
              createBufferCalls okDriver.memoryProperties (vertexBytes triangleVertices)
                (VK_BUFFER_USAGE_VERTEX_BUFFER_BIT ||| VK_BUFFER_USAGE_TRANSFER_DST_BIT)
                VK_MEMORY_PROPERTY_DEVICE_LOCAL_BIT vertex ++
              createBufferCalls okDriver.memoryProperties (indexBytes triangleIndices)
                VK_BUFFER_USAGE_TRANSFER_SRC_BIT
                (VK_MEMORY_PROPERTY_HOST_VISIBLE_BIT ||| VK_MEMORY_PROPERTY_HOST_COHERENT_BIT)
                stagingI ++
              createBufferCalls okDriver.memoryProperties (indexBytes triangleIndices)
                (VK_BUFFER_USAGE_INDEX_BUFFER_BIT ||| VK_BUFFER_USAGE_TRANSFER_DST_BIT)
                VK_MEMORY_PROPERTY_DEVICE_LOCAL_BIT index ∧
          evs.filter Event.isHostAccess =
            [Event.vkMapMemory stagingV.memory 0 (vertexBytes triangleVertices) 0 rv,
              Event.memcpy stagingV.memory (vertexBytes triangleVertices),
              Event.vkMapMemory stagingI.memory 0 (indexBytes triangleIndices) 0 ri,
              Event.memcpy stagingI.memory (indexBytes triangleIndices)] ∧
          evs.filter Event.isCopy =
            [Event.vkCmdCopyBuffer cv stagingV.buffer vertex.buffer
                [⟨0, 0, vertexBytes triangleVertices⟩],
              Event.vkCmdCopyBuffer ci stagingI.buffer index.buffer
                [⟨0, 0, indexBytes triangleIndices⟩]]) :=
  ⟨by decide,
    host_access_staging_only okDriver [] 7 8 triangleVertices triangleIndices⟩

/-! ## Counts and order of the uploads -/

theorem createBuffer_returns_of_success (drv : Driver)
    (hc : ∀ t i, (drv.vkCreateBuffer t i).1 = VK_SUCCESS)
    (ha : ∀ t i, (drv.vkAllocateMemory t i).1 = VK_SUCCESS)
    (tr : List Event) (size usage properties : Nat) :
    ∃ tr' b m, createBuffer drv tr size usage properties = (tr', Outcome.returned (b, m)) := by
  unfold createBuffer
  simp only [hc, ha, ne_eq, not_true_eq_false, if_false]
  exact ⟨_, _, _, rfl⟩

theorem createBuffer_not_raised_of_success {drv : Driver}
    (hc : ∀ t i, (drv.vkCreateBuffer t i).1 = VK_SUCCESS)
    (ha : ∀ t i, (drv.vkAllocateMemory t i).1 = VK_SUCCESS)
    {tr tr' : List Event} {size usage properties : Nat} {e : RuntimeError} :
    createBuffer drv tr size usage properties ≠ (tr', Outcome.raised e) := by
  intro h
  obtain ⟨t'', b, m, h'⟩ := createBuffer_returns_of_success drv hc ha tr size usage properties
  rw [h'] at h
  simp at h

theorem createVertexBuffer_returns_of_success (drv : Driver)
    (hc : ∀ t i, (drv.vkCreateBuffer t i).1 = VK_SUCCESS)
    (ha : ∀ t i, (drv.vkAllocateMemory t i).1 = VK_SUCCESS)
    (hm : ∀ t m o n g, drv.vkMapMemory t m o n g = VK_SUCCESS)
    (tr : List Event) (mesh : Mesh) (queue pool : Handle) (vertices : List Vertex) :
    ∃ tr' mesh', Mesh.createVertexBuffer drv tr mesh queue pool vertices =
      (tr', Outcome.returned mesh') := by
  rcases createVertexBuffer_cases drv tr mesh queue pool vertices with
    ⟨evs, e, h, _⟩ | ⟨u, h⟩ | ⟨evs, h, _⟩
  · exfalso
    revert h
    unfold Mesh.createVertexBuffer
    simp only [hm, ne_eq, not_true_eq_false, if_false]
    split
    · rename_i heq
      exact absurd heq (createBuffer_not_raised_of_success hc ha)
    · rename_i heq
      exact absurd heq (createBuffer_defined _ _ _ _ _ _)
    · split
      · rename_i heq
        exact absurd heq (createBuffer_not_raised_of_success hc ha)
      · rename_i heq
        exact absurd heq (createBuffer_defined _ _ _ _ _ _)
      · simp
  · exact ⟨_, _, h⟩
  · exfalso
    revert h
    unfold Mesh.createVertexBuffer
    simp only [hm, ne_eq, not_true_eq_false, if_false]
    split
    · simp
    · rename_i heq
      exact absurd heq (createBuffer_defined _ _ _ _ _ _)
    · split
      · simp
      · rename_i heq
        exact absurd heq (createBuffer_defined _ _ _ _ _ _)
      · simp

theorem createIndexBuffer_returns_of_success (drv : Driver)
    (hc : ∀ t i, (drv.vkCreateBuffer t i).1 = VK_SUCCESS)
    (ha : ∀ t i, (drv.vkAllocateMemory t i).1 = VK_SUCCESS)
    (hm : ∀ t m o n g, drv.vkMapMemory t m o n g = VK_SUCCESS)
    (tr : List Event) (mesh : Mesh) (queue pool : Handle) (indices : List Nat) :
    ∃ tr' mesh', Mesh.createIndexBuffer drv tr mesh queue pool indices =
      (tr', Outcome.returned mesh') := by
  rcases createIndexBuffer_cases drv tr mesh queue pool indices with
    ⟨evs, e, h, _⟩ | ⟨u, h⟩ | ⟨evs, h, _⟩
  · exfalso
    revert h
    unfold Mesh.createIndexBuffer
    simp only [hm, ne_eq, not_true_eq_false, if_false]
    split
    · rename_i heq
      exact absurd heq (createBuffer_not_raised_of_success hc ha)
    · rename_i heq
      exact absurd heq (createBuffer_defined _ _ _ _ _ _)
    · split
      · rename_i heq
        exact absurd heq (createBuffer_not_raised_of_success hc ha)
      · rename_i heq
        exact absurd heq (createBuffer_defined _ _ _ _ _ _)
      · simp
  · exact ⟨_, _, h⟩
  · exfalso
    revert h
    unfold Mesh.createIndexBuffer
    simp only [hm, ne_eq, not_true_eq_false, if_false]
    split
    · simp
    · rename_i heq
      exact absurd heq (createBuffer_defined _ _ _ _ _ _)
    · split
      · simp
      · rename_i heq
        exact absurd heq (createBuffer_defined _ _ _ _ _ _)
      · simp

/-- On a driver whose buffer creations, memory allocations and mappings always succeed, the
constructor returns. -/
theorem meshConstructor_returns_of_success (drv : Driver)
    (hc : ∀ t i, (drv.vkCreateBuffer t i).1 = VK_SUCCESS)
    (ha : ∀ t i, (drv.vkAllocateMemory t i).1 = VK_SUCCESS)
    (hm : ∀ t m o n g, drv.vkMapMemory t m o n g = VK_SUCCESS)
    (tr : List Event) (queue pool : Handle) (vertices : List Vertex) (indices : List Nat) :
    ∃ tr' mesh, Mesh.new drv tr queue pool vertices indices = (tr', Outcome.returned mesh) := by
  unfold Mesh.new
  simp only []
  split
  · rename_i heq
    obtain ⟨t, m, h⟩ := createVertexBuffer_returns_of_success drv hc ha hm tr _ queue pool vertices
    rw [h] at heq
    simp at heq
  · rename_i heq
    obtain ⟨t, m, h⟩ := createVertexBuffer_returns_of_success drv hc ha hm tr _ queue pool vertices
    rw [h] at heq
    simp at heq
  · exact createIndexBuffer_returns_of_success drv hc ha hm _ _ queue pool indices

theorem toInt_of_lt {n : Nat} (h : n < 2 ^ 31) : toInt n = (n : Int) := by
  unfold toInt
  have h1 : n % 2 ^ 32 = n := Nat.mod_eq_of_lt (by omega)
  rw [h1, if_pos h]

/-- On `okDriver`, the constructor returns for an index array of 2^31 entries, with
`getIndexCount()` equal to -2147483648. -/
theorem index_count_of_length (indices : List Nat) (hlen : indices.length = 2147483648) :
    ∃ tr' mesh,
      Mesh.new okDriver [] 7 8 triangleVertices indices = (tr', Outcome.returned mesh) ∧
      mesh.getIndexCount = -2147483648 ∧
      mesh.getIndexCount ≠ (indices.length : Int) := by
  obtain ⟨tr', mesh, h⟩ := meshConstructor_returns_of_success okDriver (fun _ _ => rfl) (fun _ _ => rfl)
    (fun _ _ _ _ _ => rfl)
    [] 7 8 triangleVertices indices
  obtain ⟨uv, ui, _, hm⟩ := meshConstructor_returned h
  have hc : mesh.getIndexCount = -2147483648 := by
    rw [hm]
    simp only [Mesh.getIndexCount, hlen]
    decide
  refine ⟨tr', mesh, h, hc, ?_⟩
  rw [hc, hlen]
  decide

/-- C9, as stated, fails.  An index array of 2^31 entries on `okDriver`: the constructor
returns a mesh whose `getIndexCount()` is -2147483648, not the number of indices. -/
theorem index_count_wraps :
    ∃ tr' mesh,
      Mesh.new okDriver [] 7 8 triangleVertices (List.replicate 2147483648 0) =
        (tr', Outcome.returned mesh) ∧
      mesh.getIndexCount = -2147483648 ∧
      mesh.getIndexCount ≠ ((List.replicate 2147483648 0).length : Int) :=
  index_count_of_length (List.replicate 2147483648 0) (List.length_replicate _ _)

/-- C9, amended.  For a vertex array and an index array of fewer than 2^31 elements each,
when the constructor returns, `getVertexCount()` is the number of vertices and
`getIndexCount()` the number of indices, and the calls made are those of the vertex upload
followed by those of the index upload. -/
theorem mesh_counts (drv : Driver) (tr tr' : List Event) (queue pool : Handle)
    (vertices : List Vertex) (indices : List Nat) (mesh : Mesh)
    (hv : vertices.length < 2 ^ 31) (hi : indices.length < 2 ^ 31)
    (h : Mesh.new drv tr queue pool vertices indices = (tr', Outcome.returned mesh)) :
    mesh.getVertexCount = (vertices.length : Int) ∧
    mesh.getIndexCount = (indices.length : Int) ∧
    ∃ uv ui : UploadRun,
      tr' = tr ++
        (uploadCalls drv.memoryProperties (vertexBytes vertices)
            (VK_BUFFER_USAGE_VERTEX_BUFFER_BIT ||| VK_BUFFER_USAGE_TRANSFER_DST_BIT)
            queue pool uv ++
          uploadCalls drv.memoryProperties (indexBytes indices)
            (VK_BUFFER_USAGE_INDEX_BUFFER_BIT ||| VK_BUFFER_USAGE_TRANSFER_DST_BIT)
            queue pool ui) := by
  obtain ⟨uv, ui, rfl, rfl⟩ := meshConstructor_returned h
  exact ⟨toInt_of_lt hv, toInt_of_lt hi, uv, ui, rfl⟩

/-- The triangle of the specification on `okDriver`: three vertices, three indices, and
the counts of the mesh are 3 and 3. -/
theorem mesh_counts_witness :
    (triangleVertices.length < 2 ^ 31 ∧ triangleIndices.length < 2 ^ 31) ∧
    Mesh.new okDriver [] 7 8 triangleVertices triangleIndices =
      ((Mesh.new okDriver [] 7 8 triangleVertices triangleIndices).1,
        Outcome.returned ⟨3, 3, 8, 28, 10, 30⟩) ∧
    Mesh.getVertexCount ⟨3, 3, 8, 28, 10, 30⟩ = (triangleVertices.length : Int) ∧
    Mesh.getIndexCount ⟨3, 3, 8, 28, 10, 30⟩ = (triangleIndices.length : Int) ∧
    ∃ uv ui : UploadRun,
      (Mesh.new okDriver [] 7 8 triangleVertices triangleIndices).1 = [] ++
        (uploadCalls okDriver.memoryProperties (vertexBytes triangleVertices)
            (VK_BUFFER_USAGE_VERTEX_BUFFER_BIT ||| VK_BUFFER_USAGE_TRANSFER_DST_BIT)
            7 8 uv ++
          uploadCalls okDriver.memoryProperties (indexBytes triangleIndices)
            (VK_BUFFER_USAGE_INDEX_BUFFER_BIT ||| VK_BUFFER_USAGE_TRANSFER_DST_BIT)
            7 8 ui) :=
  ⟨⟨by decide, by decide⟩, by decide,
    mesh_counts okDriver [] _ 7 8 triangleVertices triangleIndices _ (by decide) (by decide)
      (by decide)⟩

/-! ## Destruction of a mesh -/

/-- C10. `Mesh::destroyVertexBuffer` makes exactly four calls, in this order:
`vkDestroyBuffer` on the vertex buffer, `vkFreeMemory` on the vertex buffer memory,
`vkDestroyBuffer` on the index buffer and `vkFreeMemory` on the index buffer memory of the
mesh.  It assigns no member, so the counts are unchanged.  When the two buffers of the mesh
are distinct and the two memories are distinct, no call is repeated: each of the four is
released exactly once. -/
theorem destroyVertexBuffer_calls (mesh : Mesh) (tr : List Event) :
    (Mesh.destroyVertexBuffer mesh tr).1 =
      tr ++ [Event.vkDestroyBuffer mesh.getVertexBuffer,
        Event.vkFreeMemory mesh.m_vertexBufferMemory,
        Event.vkDestroyBuffer mesh.getIndexBuffer,
        Event.vkFreeMemory mesh.m_indexBufferMemory] ∧
    (Mesh.destroyVertexBuffer mesh tr).2 = mesh ∧
    (Mesh.destroyVertexBuffer mesh tr).2.getVertexCount = mesh.getVertexCount ∧
    (Mesh.destroyVertexBuffer mesh tr).2.getIndexCount = mesh.getIndexCount ∧
    (mesh.getVertexBuffer ≠ mesh.getIndexBuffer →
      mesh.m_vertexBufferMemory ≠ mesh.m_indexBufferMemory →
      ∀ x ∈ ((Mesh.destroyVertexBuffer mesh tr).1.drop tr.length),
        ((Mesh.destroyVertexBuffer mesh tr).1.drop tr.length).count x = 1) := by
  refine ⟨rfl, rfl, rfl, rfl, ?_⟩
  intro hb hm x hx
  simp only [Mesh.destroyVertexBuffer, List.drop_left', Mesh.getVertexBuffer,
    Mesh.getIndexBuffer] at hx hb ⊢
  simp only [List.mem_cons, List.mem_singleton, List.not_mem_nil, or_false] at hx
  rcases hx with rfl | rfl | rfl | rfl <;>
    simp [List.count_cons, hb, hm, Ne.symm hb, Ne.symm hm]

/-- The mesh built from the triangle of the specification on `okDriver`: its two buffers
and its two memories are distinct, and each of the four calls is made once. -/
theorem destroyVertexBuffer_calls_witness :
    (Mesh.new okDriver [] 7 8 triangleVertices triangleIndices).2 =
      Outcome.returned ⟨3, 3, 8, 28, 10, 30⟩ ∧
    (Mesh.destroyVertexBuffer ⟨3, 3, 8, 28, 10, 30⟩ []).1 =
      [Event.vkDestroyBuffer 8, Event.vkFreeMemory 10, Event.vkDestroyBuffer 28,
        Event.vkFreeMemory 30] ∧
    ∀ x ∈ ((Mesh.destroyVertexBuffer ⟨3, 3, 8, 28, 10, 30⟩ []).1.drop 0),
      ((Mesh.destroyVertexBuffer ⟨3, 3, 8, 28, 10, 30⟩ []).1.drop 0).count x = 1 :=
  ⟨by decide, (destroyVertexBuffer_calls ⟨3, 3, 8, 28, 10, 30⟩ []).1,
    (destroyVertexBuffer_calls ⟨3, 3, 8, 28, 10, 30⟩ []).2.2.2.2 (by decide) (by decide)⟩

/-! ## One buffer, one allocation -/

/-- C12. A `createBuffer` call that returns has made exactly four calls: one
`vkCreateBuffer` with the requested size and usage and exclusive sharing, the query of the
memory requirements of the buffer it created, one `vkAllocateMemory` whose size is the size
the driver reported for that buffer, and one `vkBindBufferMemory` binding that allocation
to that buffer at offset 0.  The handles returned are those of this buffer and of this
allocation, so the allocation made by a call is bound to the buffer of that call only. -/
theorem createBuffer_one_to_one (drv : Driver) (tr tr' : List Event)
    (size usage properties : Nat) (b m : Handle)
    (h : createBuffer drv tr size usage properties = (tr', Outcome.returned (b, m))) :
    ∃ reqs bindResult,
      reqs = drv.vkGetBufferMemoryRequirements
        (tr ++ [Event.vkCreateBuffer ⟨size, usage, VK_SHARING_MODE_EXCLUSIVE⟩ VK_SUCCESS b]) b ∧
      tr' = tr ++
        [Event.vkCreateBuffer ⟨size, usage, VK_SHARING_MODE_EXCLUSIVE⟩ VK_SUCCESS b,
          Event.vkGetBufferMemoryRequirements b reqs,
          Event.vkAllocateMemory
            ⟨reqs.size, findMemoryTypeIndex drv.memoryProperties reqs.memoryTypeBits properties⟩
            VK_SUCCESS m,
          Event.vkBindBufferMemory b m 0 bindResult] := by
  unfold createBuffer at h
  simp only [List.append_assoc, List.singleton_append, List.cons_append, List.nil_append] at h
  split at h
  · simp at h
  · rename_i h1
    have h1 := not_not.mp h1
    simp only [h1] at h
    split at h
    · simp at h
    · rename_i h2
      have h2 := not_not.mp h2
      simp only [h2, Prod.mk.injEq, Outcome.returned.injEq] at h
      obtain ⟨rfl, rfl, rfl⟩ := h
      exact ⟨_, _, rfl, rfl⟩

/-- The first buffer created on `okDriver`: buffer 1 with allocation 3. -/
theorem createBuffer_one_to_one_witness :
    createBuffer okDriver [] 72 VK_BUFFER_USAGE_TRANSFER_SRC_BIT
        (VK_MEMORY_PROPERTY_HOST_VISIBLE_BIT ||| VK_MEMORY_PROPERTY_HOST_COHERENT_BIT) =
      ((createBuffer okDriver [] 72 VK_BUFFER_USAGE_TRANSFER_SRC_BIT
        (VK_MEMORY_PROPERTY_HOST_VISIBLE_BIT ||| VK_MEMORY_PROPERTY_HOST_COHERENT_BIT)).1,
        Outcome.returned (1, 3)) ∧
    ∃ reqs bindResult,
      reqs = okDriver.vkGetBufferMemoryRequirements
        ([] ++ [Event.vkCreateBuffer ⟨72, VK_BUFFER_USAGE_TRANSFER_SRC_BIT,
          VK_SHARING_MODE_EXCLUSIVE⟩ VK_SUCCESS 1]) 1 ∧
      (createBuffer okDriver [] 72 VK_BUFFER_USAGE_TRANSFER_SRC_BIT
        (VK_MEMORY_PROPERTY_HOST_VISIBLE_BIT ||| VK_MEMORY_PROPERTY_HOST_COHERENT_BIT)).1 =
        [] ++
        [Event.vkCreateBuffer ⟨72, VK_BUFFER_USAGE_TRANSFER_SRC_BIT, VK_SHARING_MODE_EXCLUSIVE⟩
            VK_SUCCESS 1,
          Event.vkGetBufferMemoryRequirements 1 reqs,
          Event.vkAllocateMemory
            ⟨reqs.size, findMemoryTypeIndex okDriver.memoryProperties reqs.memoryTypeBits
              (VK_MEMORY_PROPERTY_HOST_VISIBLE_BIT ||| VK_MEMORY_PROPERTY_HOST_COHERENT_BIT)⟩
            VK_SUCCESS 3,
          Event.vkBindBufferMemory 1 3 0 bindResult] :=
  ⟨by decide,
    createBuffer_one_to_one okDriver [] _ 72 VK_BUFFER_USAGE_TRANSFER_SRC_BIT
      (VK_MEMORY_PROPERTY_HOST_VISIBLE_BIT ||| VK_MEMORY_PROPERTY_HOST_COHERENT_BIT) 1 3
      (by decide)⟩

/-! ## What a failing call leaves behind -/

theorem createBufferRaised_no_release {p : VkPhysicalDeviceMemoryProperties}
    {size usage properties : Nat} {evs : List Event} {e : RuntimeError}
    (h : CreateBufferRaised p size usage properties evs e) :
    evs.filter Event.isRelease = [] := by
  rcases h with ⟨r, b, _, _, rfl⟩ | ⟨b, reqs, r, m, _, _, rfl⟩ <;> simp [Event.isRelease]

theorem uploadRaised_no_release {p : VkPhysicalDeviceMemoryProperties}
    {size usage : Nat} {evs : List Event} {e : RuntimeError}
    (h : UploadRaised p size usage evs e) :
    evs.filter Event.isRelease = [] := by
  rcases h with h | ⟨c, r, evs2, rfl, h2⟩
  · exact createBufferRaised_no_release h
  · rw [List.filter_append, createBufferRaised_no_release h2]
    simp [createBufferCalls, fillCalls, Event.isRelease]

/-- C13, as stated, fails.  On `outOfMemoryDriver`, `createBuffer` creates buffer 1, the
allocation fails, and it throws without destroying the buffer.  On `stagingOnlyDriver`,
`Mesh::createVertexBuffer` creates and fills the staging buffer 1 with memory 3, the
creation of the vertex buffer fails, and it throws without releasing either. -/
theorem failure_leaves_objects :
    createBuffer outOfMemoryDriver [] 72 VK_BUFFER_USAGE_TRANSFER_SRC_BIT
        (VK_MEMORY_PROPERTY_HOST_VISIBLE_BIT ||| VK_MEMORY_PROPERTY_HOST_COHERENT_BIT) =
      ([Event.vkCreateBuffer ⟨72, 1, 0⟩ VK_SUCCESS 1,
        Event.vkGetBufferMemoryRequirements 1 ⟨72, 1, 3⟩,
        Event.vkAllocateMemory ⟨72, 1⟩ VK_ERROR_OUT_OF_DEVICE_MEMORY 0],
       Outcome.raised RuntimeError.failedToAllocateVertexBufferMemory) ∧
    Mesh.createVertexBuffer stagingOnlyDriver [] ⟨3, 3, 0, 0, 0, 0⟩ 7 8 triangleVertices =
      ([Event.vkCreateBuffer ⟨72, 1, 0⟩ VK_SUCCESS 1,
        Event.vkGetBufferMemoryRequirements 1 ⟨72, 1, 3⟩,
        Event.vkAllocateMemory ⟨72, 1⟩ VK_SUCCESS 3,
        Event.vkBindBufferMemory 1 3 0 VK_SUCCESS,
        Event.vkMapMemory 3 0 72 0 VK_SUCCESS,
        Event.memcpy 3 72,
        Event.vkUnmapMemory 3,
        Event.vkCreateBuffer ⟨72, 130, 0⟩ VK_ERROR_OUT_OF_DEVICE_MEMORY 0],
       Outcome.raised RuntimeError.failedToCreateVkBuffer) := by
  decide

/-- C13, amended.  When `createBuffer`, `Mesh::createVertexBuffer` or
`Mesh::createIndexBuffer` throws, it has made no `vkDestroyBuffer` and no `vkFreeMemory`
call: the calls made are those of `CreateBufferRaised`, resp. `UploadRaised`, so the buffer
created before a failed allocation, and the staging buffer and memory created before a
failed creation of the destination, are not released. -/
theorem failure_releases_nothing (drv : Driver) (tr : List Event) (mesh : Mesh)
    (queue pool : Handle) (vertices : List Vertex) (indices : List Nat)
    (size usage properties : Nat) :
    (∀ tr' e, createBuffer drv tr size usage properties = (tr', Outcome.raised e) →
      ∃ evs, tr' = tr ++ evs ∧ evs.filter Event.isRelease = [] ∧
        CreateBufferRaised drv.memoryProperties size usage properties evs e) ∧
    (∀ tr' e, Mesh.createVertexBuffer drv tr mesh queue pool vertices =
        (tr', Outcome.raised e) →
      ∃ evs, tr' = tr ++ evs ∧ evs.filter Event.isRelease = [] ∧
        UploadRaised drv.memoryProperties (vertexBytes vertices)
          (VK_BUFFER_USAGE_VERTEX_BUFFER_BIT ||| VK_BUFFER_USAGE_TRANSFER_DST_BIT) evs e) ∧
    (∀ tr' e, Mesh.createIndexBuffer drv tr mesh queue pool indices =
        (tr', Outcome.raised e) →
      ∃ evs, tr' = tr ++ evs ∧ evs.filter Event.isRelease = [] ∧
        UploadRaised drv.memoryProperties (indexBytes indices)
          (VK_BUFFER_USAGE_INDEX_BUFFER_BIT ||| VK_BUFFER_USAGE_TRANSFER_DST_BIT) evs e) := by
  refine ⟨?_, ?_, ?_⟩
  · intro tr' e h
    obtain ⟨evs, rfl, hr⟩ := createBuffer_raised h
    exact ⟨evs, rfl, createBufferRaised_no_release hr, hr⟩
  · intro tr' e h
    obtain ⟨evs, rfl, hr⟩ := createVertexBuffer_raised h
    exact ⟨evs, rfl, uploadRaised_no_release hr, hr⟩
  · intro tr' e h
    obtain ⟨evs, rfl, hr⟩ := createIndexBuffer_raised h
    exact ⟨evs, rfl, uploadRaised_no_release hr, hr⟩

/-! ## Reading a file -/

/-- A read of `n` bytes from position 0 of a file of `n` bytes into a buffer of `n` bytes
leaves exactly the bytes of the file in the buffer. -/
theorem streamRead_all (bytes buf : List Nat) (h : buf.length = bytes.length) :
    streamRead bytes 0 bytes.length buf = bytes := by
  unfold streamRead
  simp [List.drop_eq_nil_of_le, h]

/-- C19. For every path that can be opened, `readFile` returns exactly the bytes of the
file, in order: the result has the length of the file and no byte is added, dropped or
changed.  For every path that cannot be opened it raises the error whose message is
"Failed to open file". -/
theorem readFile_contents (files : String → Option (List Nat)) (path : String) :
    (∀ bytes, files path = some bytes →
      readFile files path = Completion.returned bytes ∧
      ∀ contents, readFile files path = Completion.returned contents →
        contents.length = bytes.length ∧ ∀ i : Nat, contents[i]? = bytes[i]?) ∧
    (files path = none →
      readFile files path = Completion.raised RendererError.failedToOpenFile) ∧
    RendererError.failedToOpenFile.what = "Failed to open file" := by
  refine ⟨?_, ?_, rfl⟩
  · intro bytes hfile
    have hread : readFile files path = Completion.returned bytes := by
      unfold readFile
      rw [hfile]
      simp only []
      rw [streamRead_all bytes _ (List.length_replicate _ _)]
    refine ⟨hread, ?_⟩
    intro contents hcontents
    rw [hread] at hcontents
    cases hcontents
    exact ⟨rfl, fun _ => rfl⟩
  · intro hfile
    unfold readFile
    rw [hfile]

/-- The vertex shader of `okPlatform` is read as its four bytes, and a path that is not
there raises. -/
theorem readFile_contents_witness :
    okPlatform.files "shader/vertex.spv" = some [3, 2, 35, 7] ∧
    readFile okPlatform.files "shader/vertex.spv" = Completion.returned [3, 2, 35, 7] ∧
    okPlatform.files "shader/none.spv" = none ∧
    readFile okPlatform.files "shader/none.spv" =
      Completion.raised RendererError.failedToOpenFile :=
  ⟨by decide,
    ((readFile_contents okPlatform.files "shader/vertex.spv").1 [3, 2, 35, 7] (by decide)).1,
    by decide,
    (readFile_contents okPlatform.files "shader/none.spv").2.1 (by decide)⟩

/-! ## Queue families -/

/-- An `int` that holds a number below 2^32 converts to that number. -/
theorem toUInt32_natCast (k : Nat) (h : k < 2 ^ 32) : toUInt32 (k : Int) = k := by
  unfold toUInt32
  have h1 : ((k : Int) % 2 ^ 32) = (k : Int) := by
    apply Int.emod_eq_of_lt
    · exact Int.natCast_nonneg k
    · exact_mod_cast h
  rw [h1]
  exact Int.toNat_natCast k

/-- What the loop of `getQueueFamilies` leaves in `indicies`, when it starts at family `k`
with the families `rest` still to visit: each index is the one it started with or the
index of a family with the property; an index that starts set stays set; and an index is
set when some family still to visit has the property. -/
theorem getQueueFamiliesLoop_spec (p : Platform) (dev surface : Handle)
    (rest : List VkQueueFamilyProperties) :
    ∀ (k : Nat) (indicies : QueueFamilyIndices), k + rest.length < 2 ^ 32 →
      let result := getQueueFamiliesLoop p dev surface rest (k : Int) indicies
      (result.graphicsFamily = indicies.graphicsFamily ∨
        ∃ n, result.graphicsFamily = ((k + n : Nat) : Int) ∧ GraphicsAt rest n) ∧
      (result.presentationFamily = indicies.presentationFamily ∨
        ∃ n queueFamily, result.presentationFamily = ((k + n : Nat) : Int) ∧
          rest[n]? = some queueFamily ∧ queueFamily.queueCount > 0 ∧
          p.vkGetPhysicalDeviceSurfaceSupportKHR dev (k + n) surface = true) ∧
      (indicies.graphicsFamily ≥ 0 → result.graphicsFamily ≥ 0) ∧
      (indicies.presentationFamily ≥ 0 → result.presentationFamily ≥ 0) ∧
      ((∃ n, GraphicsAt rest n) → result.graphicsFamily ≥ 0) ∧
      ((∃ n queueFamily, rest[n]? = some queueFamily ∧ queueFamily.queueCount > 0 ∧
          p.vkGetPhysicalDeviceSurfaceSupportKHR dev (k + n) surface = true) →
        result.presentationFamily ≥ 0) := by
  induction rest with
  | nil =>
    intro k indicies _
    simp only [getQueueFamiliesLoop]
    refine ⟨Or.inl trivial, Or.inl trivial, id, id, ?_, ?_⟩
    · rintro ⟨n, q, hq, _⟩
      simp at hq
    · rintro ⟨n, q, hq, _⟩
      simp at hq
  | cons queueFamily rest ih =>
    intro k indicies hk
    have hk32 : k < 2 ^ 32 := by omega
    have hk1 : (k + 1) + rest.length < 2 ^ 32 := by
      simp only [List.length_cons] at hk
      omega
    simp only [getQueueFamiliesLoop]
    rw [toUInt32_natCast k hk32]
    -- the two assignments of this iteration
    generalize hg : (if queueFamily.queueCount > 0 ∧
        queueFamily.queueFlags &&& VK_QUEUE_GRAPHICS_BIT ≠ 0 then
          ({ indicies with graphicsFamily := (k : Int) } : QueueFamilyIndices)
        else indicies) = indicies1
    generalize hp : (if queueFamily.queueCount > 0 ∧
        p.vkGetPhysicalDeviceSurfaceSupportKHR dev k surface = true then
          ({ indicies1 with presentationFamily := (k : Int) } : QueueFamilyIndices)
        else indicies1) = indicies2
    have g1 : indicies1.presentationFamily = indicies.presentationFamily := by
      rw [← hg]; split <;> rfl
    have g2 : (indicies1.graphicsFamily = indicies.graphicsFamily ∧
          ¬ (queueFamily.queueCount > 0 ∧
            queueFamily.queueFlags &&& VK_QUEUE_GRAPHICS_BIT ≠ 0)) ∨
        (indicies1.graphicsFamily = (k : Int) ∧ queueFamily.queueCount > 0 ∧
            queueFamily.queueFlags &&& VK_QUEUE_GRAPHICS_BIT ≠ 0) := by
      rw [← hg]
      split
      · rename_i h; exact Or.inr ⟨rfl, h⟩
      · rename_i h; exact Or.inl ⟨rfl, h⟩
    have p1 : indicies2.graphicsFamily = indicies1.graphicsFamily := by
      rw [← hp]; split <;> rfl
    have p2 : (indicies2.presentationFamily = indicies1.presentationFamily ∧
          ¬ (queueFamily.queueCount > 0 ∧
            p.vkGetPhysicalDeviceSurfaceSupportKHR dev k surface = true)) ∨
        (indicies2.presentationFamily = (k : Int) ∧ queueFamily.queueCount > 0 ∧
            p.vkGetPhysicalDeviceSurfaceSupportKHR dev k surface = true) := by
      rw [← hp]
      split
      · rename_i h; exact Or.inr ⟨rfl, h⟩
      · rename_i h; exact Or.inl ⟨rfl, h⟩
    have hkk : ((k : Int) + 1) = ((k + 1 : Nat) : Int) := by push_cast; rfl
    rw [hkk]
    have ih1 := ih (k + 1) indicies2 hk1
    simp only [] at ih1
    generalize getQueueFamiliesLoop p dev surface rest ((k + 1 : Nat) : Int) indicies2 = deeper
      at ih1 ⊢
    obtain ⟨ihg, ihp, ihg0, ihp0, ihge, ihpe⟩ := ih1
    have hknn : (0 : Int) ≤ (k : Int) := Int.natCast_nonneg k
    -- facts about the state after this iteration
    have hgset : (indicies2.graphicsFamily = indicies.graphicsFamily) ∨
        (indicies2.graphicsFamily = ((k + 0 : Nat) : Int) ∧
          GraphicsAt (queueFamily :: rest) 0) := by
      rcases g2 with ⟨h, _⟩ | ⟨h, hq⟩
      · exact Or.inl (p1.trans h)
      · exact Or.inr ⟨by rw [p1, h]; rfl, queueFamily, List.getElem?_cons_zero, hq⟩
    have hpset : (indicies2.presentationFamily = indicies.presentationFamily) ∨
        (indicies2.presentationFamily = ((k + 0 : Nat) : Int) ∧ queueFamily.queueCount > 0 ∧
          p.vkGetPhysicalDeviceSurfaceSupportKHR dev (k + 0) surface = true) := by
      rcases p2 with ⟨h, _⟩ | ⟨h, hq⟩
      · exact Or.inl (h.trans g1)
      · exact Or.inr ⟨by rw [h]; rfl, hq⟩
    have hg0 : indicies.graphicsFamily ≥ 0 → indicies2.graphicsFamily ≥ 0 := by
      intro h
      rcases hgset with h1 | ⟨h1, _⟩
      · rw [h1]; exact h
      · rw [h1]; exact Int.natCast_nonneg _
    have hp0 : indicies.presentationFamily ≥ 0 → indicies2.presentationFamily ≥ 0 := by
      intro h
      rcases hpset with h1 | ⟨h1, _⟩
      · rw [h1]; exact h
      · rw [h1]; exact Int.natCast_nonneg _
    have hshift : ∀ n, ((k + 1 + n : Nat) : Int) = ((k + (n + 1) : Nat) : Int) := by
      intro n; congr 1; omega
    have hshiftN : ∀ n, k + 1 + n = k + (n + 1) := by intro n; omega
    split
    · -- the loop breaks here
      rename_i hvalid
      have hv : indicies2.graphicsFamily ≥ 0 ∧ indicies2.presentationFamily ≥ 0 := by
        simpa [QueueFamilyIndices.isValid] using hvalid
      refine ⟨?_, ?_, fun _ => hv.1, fun _ => hv.2, fun _ => hv.1, fun _ => hv.2⟩
      · rcases hgset with h | ⟨h, hq⟩
        · exact Or.inl h
        · exact Or.inr ⟨0, h, hq⟩
      · rcases hpset with h | ⟨h, hq⟩
        · exact Or.inl h
        · exact Or.inr ⟨0, queueFamily, h, List.getElem?_cons_zero, hq⟩
    · -- the loop goes on
      refine ⟨?_, ?_, fun h => ihg0 (hg0 h), fun h => ihp0 (hp0 h), ?_, ?_⟩
      · rcases ihg with h | ⟨n, h, q, hq, hprop⟩
        · rcases hgset with h1 | ⟨h1, hq1⟩
          · exact Or.inl (h.trans h1)
          · exact Or.inr ⟨0, h.trans h1, hq1⟩
        · exact Or.inr ⟨n + 1, by rw [h, hshift], q, by simpa using hq, hprop⟩
      · rcases ihp with h | ⟨n, q, h, hq, hcount, hsupport⟩
        · rcases hpset with h1 | ⟨h1, hq1⟩
          · exact Or.inl (h.trans h1)
          · exact Or.inr ⟨0, queueFamily, h.trans h1, List.getElem?_cons_zero, hq1⟩
        · exact Or.inr ⟨n + 1, q, by rw [h, hshift], by simpa using hq, hcount,
            by rw [← hshiftN]; exact hsupport⟩
      · rintro ⟨n, q, hq, hprop⟩
        cases n with
        | zero =>
          simp only [List.getElem?_cons_zero, Option.some.injEq] at hq
          subst hq
          rcases g2 with ⟨_, hnot⟩ | ⟨h, _⟩
          · exact absurd hprop hnot
          · exact ihg0 (by rw [p1, h]; exact hknn)
        | succ n =>
          exact ihge ⟨n, q, by simpa using hq, hprop⟩
      · rintro ⟨n, q, hq, hcount, hsupport⟩
        cases n with
        | zero =>
          simp only [List.getElem?_cons_zero, Option.some.injEq] at hq
          subst hq
          rcases p2 with ⟨_, hnot⟩ | ⟨h, _⟩
          · exact absurd ⟨hcount, hsupport⟩ hnot
          · exact ihp0 (by rw [h]; exact hknn)
        | succ n =>
          exact ihpe ⟨n, q, by simpa using hq, hcount, by rw [hshiftN]; exact hsupport⟩

/-- C20. `getQueueFamilies` on a device whose family count fits the `int` counter: the
result is valid if and only if some family of the device has at least one queue and the
graphics bit, and some family has at least one queue and can present to the surface of the
renderer.  When the result is valid, `graphicsFamily` and `presentationFamily` are indices
into the family list, of a family with the first and with the second property.  A
default-constructed `QueueFamilyIndices` is not valid. -/
theorem getQueueFamilies_valid_iff (p : Platform) (r : VulkanRenderer) (dev : Handle)
    (hcount : (p.vkGetPhysicalDeviceQueueFamilyProperties dev).length < 2 ^ 31) :
    ((VulkanRenderer.getQueueFamilies p r dev).isValid = true ↔
      (∃ i, GraphicsAt (p.vkGetPhysicalDeviceQueueFamilyProperties dev) i) ∧
      (∃ j, PresentsAt p dev r.m_surface.surface
        (p.vkGetPhysicalDeviceQueueFamilyProperties dev) j)) ∧
    ((VulkanRenderer.getQueueFamilies p r dev).isValid = true →
      ∃ i j : Nat,
        (VulkanRenderer.getQueueFamilies p r dev).graphicsFamily = (i : Int) ∧
        (VulkanRenderer.getQueueFamilies p r dev).presentationFamily = (j : Int) ∧
        i < (p.vkGetPhysicalDeviceQueueFamilyProperties dev).length ∧
        j < (p.vkGetPhysicalDeviceQueueFamilyProperties dev).length ∧
        GraphicsAt (p.vkGetPhysicalDeviceQueueFamilyProperties dev) i ∧
        PresentsAt p dev r.m_surface.surface
          (p.vkGetPhysicalDeviceQueueFamilyProperties dev) j) ∧
    ({} : QueueFamilyIndices).isValid = false := by
  have hspec := getQueueFamiliesLoop_spec p dev r.m_surface.surface
    (p.vkGetPhysicalDeviceQueueFamilyProperties dev) 0 {} (by omega)
  simp only [Nat.cast_zero, Nat.zero_add] at hspec
  unfold VulkanRenderer.getQueueFamilies
  generalize getQueueFamiliesLoop p dev r.m_surface.surface
    (p.vkGetPhysicalDeviceQueueFamilyProperties dev) 0 {} = result at hspec ⊢
  obtain ⟨hg, hp, _, _, hge, hpe⟩ := hspec
  have hvalid : result.isValid = true ↔
      result.graphicsFamily ≥ 0 ∧ result.presentationFamily ≥ 0 := by
    simp [QueueFamilyIndices.isValid]
  have hfound : result.isValid = true →
      ∃ i j : Nat, result.graphicsFamily = (i : Int) ∧ result.presentationFamily = (j : Int) ∧
        i < (p.vkGetPhysicalDeviceQueueFamilyProperties dev).length ∧
        j < (p.vkGetPhysicalDeviceQueueFamilyProperties dev).length ∧
        GraphicsAt (p.vkGetPhysicalDeviceQueueFamilyProperties dev) i ∧
        PresentsAt p dev r.m_surface.surface
          (p.vkGetPhysicalDeviceQueueFamilyProperties dev) j := by
    intro hv
    obtain ⟨hv1, hv2⟩ := hvalid.1 hv
    rcases hg with h | ⟨i, hi, hgi⟩
    · rw [h] at hv1; exact absurd hv1 (by decide)
    rcases hp with h | ⟨j, q, hj, hq, hc, hs⟩
    · rw [h] at hv2; exact absurd hv2 (by decide)
    refine ⟨i, j, hi, hj, ?_, ?_, hgi, ⟨q, hq, hc, hs⟩⟩
    · obtain ⟨q1, hq1, _⟩ := hgi
      exact (List.getElem?_eq_some_iff.1 hq1).1
    · exact (List.getElem?_eq_some_iff.1 hq).1
  refine ⟨⟨?_, ?_⟩, hfound, by decide⟩
  · intro hv
    obtain ⟨i, j, _, _, _, _, hi, hj⟩ := hfound hv
    exact ⟨⟨i, hi⟩, ⟨j, hj⟩⟩
  · rintro ⟨⟨i, hi⟩, ⟨j, q, hq, hc, hs⟩⟩
    exact hvalid.2 ⟨hge ⟨i, hi⟩, hpe ⟨j, q, hq, hc, hs⟩⟩

/-- On `splitQueuePlatform` the graphics family is family 1 and the presentation family is
family 2, and the result is valid. -/
theorem getQueueFamilies_valid_iff_witness :
    (splitQueuePlatform.vkGetPhysicalDeviceQueueFamilyProperties 2).length < 2 ^ 31 ∧
    VulkanRenderer.getQueueFamilies splitQueuePlatform newRenderer 2 = ⟨1, 2⟩ ∧
    ((VulkanRenderer.getQueueFamilies splitQueuePlatform newRenderer 2).isValid = true ↔
      (∃ i, GraphicsAt (splitQueuePlatform.vkGetPhysicalDeviceQueueFamilyProperties 2) i) ∧
      (∃ j, PresentsAt splitQueuePlatform 2 newRenderer.m_surface.surface
        (splitQueuePlatform.vkGetPhysicalDeviceQueueFamilyProperties 2) j)) :=
  ⟨by decide, by decide,
    (getQueueFamilies_valid_iff splitQueuePlatform newRenderer 2 (by decide)).1⟩

/-! ## Destruction -/

/-- The calls of `VulkanRenderer::destroy`, and the object it leaves. -/
theorem destroy_eq (s : Machine) :
    VulkanRenderer.destroy s = { s with calls := s.calls ++ destroyCalls s.renderer } := by
  simp [VulkanRenderer.destroy, destroyCalls]

/-- Failure of the claim C11, on the renderer that `init` leaves on `okPlatform` and on
the mesh of the triangle: the second `destroy` destroys the pipeline `140`, the device `30`
and the instance `10` again, and the second `destroyVertexBuffer` destroys the buffers `8`
and `28` and frees the memories `10` and `30` again. -/
theorem second_destroy_repeats_calls :
    (VulkanRenderer.destroy initialisedMachine).calls.count (Call.vkDestroyPipeline 30 140) = 1 ∧
    (VulkanRenderer.destroy (VulkanRenderer.destroy initialisedMachine)).calls.count
      (Call.vkDestroyPipeline 30 140) = 2 ∧
    (VulkanRenderer.destroy (VulkanRenderer.destroy initialisedMachine)).calls.count
      (Call.vkDestroyDevice 30) = 2 ∧
    (VulkanRenderer.destroy (VulkanRenderer.destroy initialisedMachine)).calls.count
      (Call.vkDestroyInstance 10) = 2 ∧
    (Mesh.destroyVertexBuffer (Mesh.destroyVertexBuffer ⟨3, 3, 8, 28, 10, 30⟩ []).2
      (Mesh.destroyVertexBuffer ⟨3, 3, 8, 28, 10, 30⟩ []).1).1 =
      [Event.vkDestroyBuffer 8, Event.vkFreeMemory 10, Event.vkDestroyBuffer 28,
        Event.vkFreeMemory 30,
        Event.vkDestroyBuffer 8, Event.vkFreeMemory 10, Event.vkDestroyBuffer 28,
        Event.vkFreeMemory 30] := by
  decide

/-- C11, as the code has it.  `VulkanRenderer::destroy` and `Mesh::destroyVertexBuffer`
assign no member and consult no flag: the object after the call is the object before it,
and a second call makes exactly the calls of the first again, on the same handles.  Each
handle is therefore released once per call, and the functions are to be called once. -/
theorem destroy_twice_repeats (s : Machine) (mesh : Mesh) (tr : List Event) :
    (VulkanRenderer.destroy s).renderer = s.renderer ∧
    (VulkanRenderer.destroy s).calls = s.calls ++ destroyCalls s.renderer ∧
    (VulkanRenderer.destroy (VulkanRenderer.destroy s)).calls =
      s.calls ++ destroyCalls s.renderer ++ destroyCalls s.renderer ∧
    (Mesh.destroyVertexBuffer mesh tr).2 = mesh ∧
    (Mesh.destroyVertexBuffer mesh tr).1 = tr ++ meshDestroyCalls mesh ∧
    (Mesh.destroyVertexBuffer (Mesh.destroyVertexBuffer mesh tr).2
      (Mesh.destroyVertexBuffer mesh tr).1).1 =
      tr ++ meshDestroyCalls mesh ++ meshDestroyCalls mesh := by
  refine ⟨?_, ?_, ?_, rfl, rfl, rfl⟩
  · rw [destroy_eq]
  · rw [destroy_eq]
  · rw [destroy_eq, destroy_eq]

/-- Every call of `VulkanRenderer::destroy` destroys an object. -/
theorem destroyCalls_isDestroy (r : VulkanRenderer) :
    ∀ call ∈ destroyCalls r, call.isDestroy = true := by
  intro call hcall
  simp only [destroyCalls, List.mem_append, List.mem_cons, List.mem_singleton, List.mem_map,
    List.not_mem_nil, or_false] at hcall
  rcases hcall with ((rfl | rfl | rfl) | ⟨image, _, rfl⟩) | (rfl | rfl | rfl | rfl) <;> rfl

/-- Every `vkQueueSubmit` of an upload that returns is directly followed by a
`vkQueueWaitIdle` on the same queue. -/
theorem uploadCalls_submitsAwaited (p : VkPhysicalDeviceMemoryProperties)
    (size dstUsage queue pool : Nat) (u : UploadRun) (rest : List Event) :
    submitsAwaited (uploadCalls p size dstUsage queue pool u ++ rest) = submitsAwaited rest := by
  simp [uploadCalls, createBufferCalls, fillCalls, copyBufferCalls, submitsAwaited]

/-- Failure of the claim C18, on the renderer that `init` leaves on `okPlatform` and on
the mesh of the triangle right after its construction: the first call of `destroy` is
`vkDestroyPipeline`, the first call of `destroyVertexBuffer` is `vkDestroyBuffer`, and
neither makes a call that waits. -/
theorem destroy_starts_without_wait :
    ((VulkanRenderer.destroy initialisedMachine).calls.drop
      initialisedMachine.calls.length).head? = some (Call.vkDestroyPipeline 30 140) ∧
    ((VulkanRenderer.destroy initialisedMachine).calls.drop
      initialisedMachine.calls.length).all Call.isDestroy = true ∧
    (Mesh.new okDriver [] 7 8 triangleVertices triangleIndices).2 =
      Outcome.returned ⟨3, 3, 8, 28, 10, 30⟩ ∧
    ((Mesh.destroyVertexBuffer ⟨3, 3, 8, 28, 10, 30⟩
        (Mesh.new okDriver [] 7 8 triangleVertices triangleIndices).1).1.drop
      (Mesh.new okDriver [] 7 8 triangleVertices triangleIndices).1.length) =
      [Event.vkDestroyBuffer 8, Event.vkFreeMemory 10, Event.vkDestroyBuffer 28,
        Event.vkFreeMemory 30] ∧
    ((Mesh.destroyVertexBuffer ⟨3, 3, 8, 28, 10, 30⟩
        (Mesh.new okDriver [] 7 8 triangleVertices triangleIndices).1).1.drop
      (Mesh.new okDriver [] 7 8 triangleVertices triangleIndices).1.length).filter
        Event.isWait = [] := by
  decide

/-- C18, as the code has it.  `VulkanRenderer::destroy` and `Mesh::destroyVertexBuffer`
make no call that waits for the device: every call of `destroy` destroys an object, the
first being `vkDestroyPipeline`, and every call of `destroyVertexBuffer` is a
`vkDestroyBuffer` or a `vkFreeMemory` and not a wait, the first being `vkDestroyBuffer` on
the vertex buffer. -/
theorem destroy_makes_no_wait (s : Machine) (mesh : Mesh) (tr : List Event) :
    (VulkanRenderer.destroy s).calls = s.calls ++ destroyCalls s.renderer ∧
    (destroyCalls s.renderer).head? =
      some (Call.vkDestroyPipeline s.renderer.m_device.logical s.renderer.m_gfxpipeline) ∧
    (∀ call ∈ destroyCalls s.renderer, call.isDestroy = true) ∧
    (Mesh.destroyVertexBuffer mesh tr).1 = tr ++ meshDestroyCalls mesh ∧
    (meshDestroyCalls mesh).head? = some (Event.vkDestroyBuffer mesh.getVertexBuffer) ∧
    (∀ call ∈ meshDestroyCalls mesh, call.isRelease = true ∧ call.isWait = false) := by
  refine ⟨by rw [destroy_eq], rfl, destroyCalls_isDestroy s.renderer, rfl, rfl, ?_⟩
  intro call hcall
  simp only [meshDestroyCalls, List.mem_cons, List.mem_singleton, List.not_mem_nil,
    or_false] at hcall
  rcases hcall with rfl | rfl | rfl | rfl <;> exact ⟨rfl, rfl⟩

/-- On the renderer that `init` leaves on `okPlatform`, the call that destroys the device
`30` is one of the calls of `destroy`, and it destroys an object; on the mesh of the
triangle, the call that frees the memory `30` is one of the calls of `destroyVertexBuffer`,
and it is a release and not a wait. -/
theorem destroy_makes_no_wait_witness :
    Call.vkDestroyDevice 30 ∈ destroyCalls initialisedMachine.renderer ∧
    (Call.vkDestroyDevice 30).isDestroy = true ∧
    Event.vkFreeMemory 30 ∈ meshDestroyCalls ⟨3, 3, 8, 28, 10, 30⟩ ∧
    ((Event.vkFreeMemory 30).isRelease = true ∧ (Event.vkFreeMemory 30).isWait = false) :=
  ⟨by decide,
    (destroy_makes_no_wait initialisedMachine ⟨3, 3, 8, 28, 10, 30⟩ []).2.2.1
      (Call.vkDestroyDevice 30) (by decide),
    by decide,
    (destroy_makes_no_wait initialisedMachine ⟨3, 3, 8, 28, 10, 30⟩ []).2.2.2.2.2
      (Event.vkFreeMemory 30) (by decide)⟩

/-! ## The exit code of `init` -/

/-- The value of `init` is determined by how the run of its six steps ends. -/
theorem init_eq_runSteps (p : Platform) (s : Machine) (wnd : Handle) :
    VulkanRenderer.init p s wnd =
      match runSteps (initSteps p) { s with renderer := { s.renderer with m_window := wnd } } with
      | (s', Completion.returned ()) => (s', some EXIT_SUCCESS)
      | (s', Completion.raised _) => (s', some EXIT_FAILURE)
      | (s', Completion.undefined) => (s', none) := by
  unfold VulkanRenderer.init initSteps
  simp only [runSteps]
  rcases VulkanRenderer.createInstance p _ with ⟨s1, _ | _ | _⟩ <;> simp only []
  rcases VulkanRenderer.createSurface p s1 with ⟨s2, _ | _ | _⟩ <;> simp only []
  rcases VulkanRenderer.getPhysicalDevice p s2 with ⟨s3, _ | _ | _⟩ <;> simp only []
  rcases VulkanRenderer.createLogicalDevice p s3 with ⟨s4, _ | _ | _⟩ <;> simp only []
  rcases VulkanRenderer.createSwapChain p s4 with ⟨s5, _ | _ | _⟩ <;> simp only []
  rcases VulkanRenderer.createGraphicsPipeline p s5 with ⟨s6, _ | _ | _⟩ <;> simp only []

/-- A run of steps ends with an error exactly when some step raises it on the machine that
the steps before it, all returning, have left. -/
theorem runSteps_raised_iff (steps : List (Machine → Machine × Completion Unit)) :
    ∀ (s s' : Machine) (e : RendererError),
      runSteps steps s = (s', Completion.raised e) ↔
      ∃ pre step post sk, steps = pre ++ step :: post ∧
        runSteps pre s = (sk, Completion.returned ()) ∧ step sk = (s', Completion.raised e) := by
  induction steps with
  | nil =>
    intro s s' e
    simp [runSteps]
  | cons first rest ih =>
    intro s s' e
    constructor
    · intro h
      simp only [runSteps] at h
      rcases hfirst : first s with ⟨s1, _ | e1 | _⟩
      · rw [hfirst] at h
        simp only [] at h
        obtain ⟨pre, step, post, sk, hsteps, hpre, hstep⟩ := (ih s1 s' e).1 h
        refine ⟨first :: pre, step, post, sk, by rw [hsteps]; rfl, ?_, hstep⟩
        simp only [runSteps, hfirst]
        exact hpre
      · rw [hfirst] at h
        simp only [Prod.mk.injEq, Completion.raised.injEq] at h
        obtain ⟨rfl, rfl⟩ := h
        exact ⟨[], first, rest, s, rfl, rfl, hfirst⟩
      · rw [hfirst] at h
        simp at h
    · rintro ⟨pre, step, post, sk, hsteps, hpre, hstep⟩
      cases pre with
      | nil =>
        simp only [List.nil_append, List.cons.injEq] at hsteps
        obtain ⟨rfl, rfl⟩ := hsteps
        simp only [runSteps, Prod.mk.injEq] at hpre
        obtain ⟨rfl, _⟩ := hpre
        simp only [runSteps, hstep]
      | cons first1 pre1 =>
        simp only [List.cons_append, List.cons.injEq] at hsteps
        obtain ⟨rfl, rfl⟩ := hsteps
        simp only [runSteps] at hpre ⊢
        rcases hfirst : first s with ⟨s1, _ | e1 | _⟩
        · rw [hfirst] at hpre
          simp only [] at hpre ⊢
          exact (ih s1 s' e).2 ⟨pre1, step, post, sk, rfl, hpre, hstep⟩
        · rw [hfirst] at hpre
          simp at hpre
        · rw [hfirst] at hpre
          simp at hpre

/-- The run of the six steps of `init` returns exactly when each step returns on the
machine that the step before it has left. -/
theorem runSteps_initSteps_returned_iff (p : Platform) (s0 s' : Machine) :
    runSteps (initSteps p) s0 = (s', Completion.returned ()) ↔
      ∃ s1 s2 s3 s4 s5,
        VulkanRenderer.createInstance p s0 = (s1, Completion.returned ()) ∧
        VulkanRenderer.createSurface p s1 = (s2, Completion.returned ()) ∧
        VulkanRenderer.getPhysicalDevice p s2 = (s3, Completion.returned ()) ∧
        VulkanRenderer.createLogicalDevice p s3 = (s4, Completion.returned ()) ∧
        VulkanRenderer.createSwapChain p s4 = (s5, Completion.returned ()) ∧
        VulkanRenderer.createGraphicsPipeline p s5 = (s', Completion.returned ()) := by
  unfold initSteps
  simp only [runSteps]
  rcases VulkanRenderer.createInstance p s0 with ⟨s1, _ | _ | _⟩ <;> simp
  rcases VulkanRenderer.createSurface p s1 with ⟨s2, _ | _ | _⟩ <;> simp
  rcases VulkanRenderer.getPhysicalDevice p s2 with ⟨s3, _ | _ | _⟩ <;> simp
  rcases VulkanRenderer.createLogicalDevice p s3 with ⟨s4, _ | _ | _⟩ <;> simp
  rcases VulkanRenderer.createSwapChain p s4 with ⟨s5, _ | _ | _⟩ <;> simp
  rcases VulkanRenderer.createGraphicsPipeline p s5 with ⟨s6, _ | _ | _⟩ <;> simp

/-- C14. `init` returns `EXIT_FAILURE` exactly when one of its six steps (instance,
surface, physical device, logical device, swapchain, graphics pipeline, in this order)
raises an error after all steps before it have returned; the machine it leaves is then the
one the raising step left, so no later step has run.  It returns `EXIT_SUCCESS` exactly
when all six steps return, each run on the machine the one before left, in that order. -/
theorem init_exit_code (p : Platform) (s s' : Machine) (wnd : Handle) :
    (VulkanRenderer.init p s wnd = (s', some EXIT_FAILURE) ↔
      ∃ pre step post sk e, initSteps p = pre ++ step :: post ∧
        runSteps pre { s with renderer := { s.renderer with m_window := wnd } } =
          (sk, Completion.returned ()) ∧
        step sk = (s', Completion.raised e)) ∧
    (VulkanRenderer.init p s wnd = (s', some EXIT_SUCCESS) ↔
      ∃ s1 s2 s3 s4 s5,
        VulkanRenderer.createInstance p
          { s with renderer := { s.renderer with m_window := wnd } } =
            (s1, Completion.returned ()) ∧
        VulkanRenderer.createSurface p s1 = (s2, Completion.returned ()) ∧
        VulkanRenderer.getPhysicalDevice p s2 = (s3, Completion.returned ()) ∧
        VulkanRenderer.createLogicalDevice p s3 = (s4, Completion.returned ()) ∧
        VulkanRenderer.createSwapChain p s4 = (s5, Completion.returned ()) ∧
        VulkanRenderer.createGraphicsPipeline p s5 = (s', Completion.returned ())) := by
  rw [init_eq_runSteps, ← runSteps_initSteps_returned_iff]
  constructor
  · constructor
    · intro h
      rcases hrun : runSteps (initSteps p)
          { s with renderer := { s.renderer with m_window := wnd } } with ⟨s1, _ | e | _⟩
      · rw [hrun] at h
        simp [EXIT_SUCCESS, EXIT_FAILURE] at h
      · rw [hrun] at h
        simp only [Prod.mk.injEq, and_true] at h
        subst h
        obtain ⟨pre, step, post, sk, h1, h2, h3⟩ := (runSteps_raised_iff _ _ _ _).1 hrun
        exact ⟨pre, step, post, sk, e, h1, h2, h3⟩
      · rw [hrun] at h
        simp at h
    · rintro ⟨pre, step, post, sk, e, h1, h2, h3⟩
      rw [(runSteps_raised_iff _ _ _ _).2 ⟨pre, step, post, sk, h1, h2, h3⟩]
  · constructor
    · intro h
      rcases hrun : runSteps (initSteps p)
          { s with renderer := { s.renderer with m_window := wnd } } with ⟨s1, _ | e | _⟩
      · rw [hrun] at h
        simp only [Prod.mk.injEq, and_true] at h
        subst h
        rfl
      · rw [hrun] at h
        simp [EXIT_SUCCESS, EXIT_FAILURE] at h
      · rw [hrun] at h
        simp at h
    · intro h
      rw [h]

/-- On `okPlatform` all six steps return and `init` returns `EXIT_SUCCESS`; on
`missingShaderPlatform` the sixth step raises and `init` returns `EXIT_FAILURE`, with the
machine the first five steps left. -/
theorem init_exit_code_witness :
    (VulkanRenderer.init okPlatform startMachine 7).2 = some EXIT_SUCCESS ∧
    (∃ s1 s2 s3 s4 s5,
        VulkanRenderer.createInstance okPlatform
          { startMachine with renderer := { startMachine.renderer with m_window := 7 } } =
            (s1, Completion.returned ()) ∧
        VulkanRenderer.createSurface okPlatform s1 = (s2, Completion.returned ()) ∧
        VulkanRenderer.getPhysicalDevice okPlatform s2 = (s3, Completion.returned ()) ∧
        VulkanRenderer.createLogicalDevice okPlatform s3 = (s4, Completion.returned ()) ∧
        VulkanRenderer.createSwapChain okPlatform s4 = (s5, Completion.returned ()) ∧
        VulkanRenderer.createGraphicsPipeline okPlatform s5 =
          (initialisedMachine, Completion.returned ())) ∧
    (VulkanRenderer.init missingShaderPlatform startMachine 7).2 = some EXIT_FAILURE ∧
    (∃ pre step post sk e, initSteps missingShaderPlatform = pre ++ step :: post ∧
        runSteps pre { startMachine with renderer := { startMachine.renderer with m_window := 7 } } =
          (sk, Completion.returned ()) ∧
        step sk = ((VulkanRenderer.init missingShaderPlatform startMachine 7).1,
          Completion.raised e)) :=
  ⟨by decide,
    (init_exit_code okPlatform startMachine initialisedMachine 7).2.1 (by decide),
    by decide,
    (init_exit_code missingShaderPlatform startMachine
      (VulkanRenderer.init missingShaderPlatform startMachine 7).1 7).1.1 (by decide)⟩

/-! ## A failed swapchain creation -/

/-- C15 fails on the code.  On `failedSwapchainPlatform`, where `vkCreateSwapchainKHR`
reports `VK_ERROR_OUT_OF_DEVICE_MEMORY` and every other call succeeds, `createSwapChain`
returns, `init` goes on to the graphics pipeline and returns `EXIT_SUCCESS`, and the
renderer holds the null swapchain. -/
theorem failed_swapchain_init_succeeds :
    (failedSwapchainPlatform.vkCreateSwapchainKHR [] 30
      ⟨20, 3, 44, 0, ⟨800, 600⟩, 1, 16, 0, [], 1, 1, 2, 1, 0⟩).1 ≠ VK_SUCCESS ∧
    Call.vkCreateSwapchainKHR 30 ⟨20, 3, 44, 0, ⟨800, 600⟩, 1, 16, 0, [], 1, 1, 2, 1, 0⟩
      VK_ERROR_OUT_OF_DEVICE_MEMORY VK_NULL_HANDLE ∈
        (VulkanRenderer.init failedSwapchainPlatform startMachine 7).1.calls ∧
    (VulkanRenderer.init failedSwapchainPlatform startMachine 7).2 = some EXIT_SUCCESS ∧
    (VulkanRenderer.init failedSwapchainPlatform startMachine 7).1.renderer.m_swapchain =
      VK_NULL_HANDLE ∧
    (VulkanRenderer.init failedSwapchainPlatform startMachine 7).1.renderer.m_gfxpipeline ≠
      VK_NULL_HANDLE := by
  decide

/-! ## Frames in flight -/

/-- Distinct slots below `MAX_FRAME_DRAWS` are at most `MAX_FRAME_DRAWS` submissions. -/
theorem slotsDistinct_length_le (st : FrameScheduler) (h : st.SlotsDistinct) :
    st.pending.length ≤ MAX_FRAME_DRAWS := by
  obtain ⟨hnodup, hlt⟩ := h
  have hsub : (st.pending.map Submission.slot).toFinset ⊆ Finset.range MAX_FRAME_DRAWS := by
    intro slot hslot
    simp only [List.mem_toFinset, List.mem_map] at hslot
    obtain ⟨sub, hsub, rfl⟩ := hslot
    exact Finset.mem_range.2 (hlt sub hsub)
  have hcard := Finset.card_le_card hsub
  rw [List.toFinset_card_of_nodup hnodup, Finset.card_range, List.length_map] at hcard
  exact hcard

/-- The completion of the work of a slot keeps the outstanding submissions distinct. -/
theorem gpuCompletes_slotsDistinct (st : FrameScheduler) (slot : Nat) (h : st.SlotsDistinct) :
    (st.gpuCompletes slot).SlotsDistinct := by
  obtain ⟨hnodup, hlt⟩ := h
  refine ⟨?_, ?_⟩
  · exact List.Nodup.sublist (List.Sublist.map _ (List.filter_sublist _)) hnodup
  · intro sub hsub
    exact hlt sub (List.mem_filter.1 hsub).1

/-- After the completion of the work of a slot no outstanding submission carries its
fence. -/
theorem gpuCompletes_fenceSignaled (st : FrameScheduler) (slot : Nat) :
    ∀ sub ∈ (st.gpuCompletes slot).pending, sub.slot ≠ slot := by
  intro sub hsub
  have h := (List.mem_filter.1 hsub).2
  simpa using h

/-- The outstanding submissions after a completion are among those before it. -/
theorem gpuCompletes_pending_subset (st : FrameScheduler) (slot : Nat) :
    ∀ sub ∈ (st.gpuCompletes slot).pending, sub ∈ st.pending := by
  intro sub hsub
  exact (List.mem_filter.1 hsub).1

/-- The hazard check keeps the outstanding submissions distinct and adds none. -/
theorem hazardCheck_pending (st : FrameScheduler) (slot image : Nat) :
    (st.SlotsDistinct → (st.hazardCheck slot image).SlotsDistinct) ∧
    (∀ sub ∈ (st.hazardCheck slot image).pending, sub ∈ st.pending) ∧
    (st.hazardCheck slot image).frameIndex = st.frameIndex := by
  unfold FrameScheduler.hazardCheck
  split
  · split
    · exact ⟨fun h => gpuCompletes_slotsDistinct st _ h,
        fun sub hsub => gpuCompletes_pending_subset st _ sub hsub, rfl⟩
    · exact ⟨id, fun _ h => h, rfl⟩
  · exact ⟨id, fun _ h => h, rfl⟩

/-- The hazard check adds operations at the end and removes none. -/
theorem hazardCheck_ops (st : FrameScheduler) (slot image : Nat) :
    ∃ extra, (st.hazardCheck slot image).ops = st.ops ++ extra := by
  unfold FrameScheduler.hazardCheck
  split
  · split
    · exact ⟨[FrameOp.waitFence _], rfl⟩
    · exact ⟨[], (List.append_nil _).symm⟩
  · exact ⟨[], (List.append_nil _).symm⟩

/-- One loop iteration keeps the outstanding submissions distinct. -/
theorem drawFrame_slotsDistinct (advanceOnStalePresent : Bool) (st : FrameScheduler)
    (acquired : Acquired) (presentStale : Bool) (h : st.SlotsDistinct) :
    (drawFrame advanceOnStalePresent st acquired presentStale).1.SlotsDistinct := by
  have hmod : st.frameIndex % MAX_FRAME_DRAWS < MAX_FRAME_DRAWS :=
    Nat.mod_lt _ (by decide)
  have h1 : (st.gpuCompletes (st.frameIndex % MAX_FRAME_DRAWS)).SlotsDistinct :=
    gpuCompletes_slotsDistinct st _ h
  have hfree := gpuCompletes_fenceSignaled st (st.frameIndex % MAX_FRAME_DRAWS)
  cases acquired with
  | stale => exact h1
  | image index =>
    have hz := hazardCheck_pending
      ({ st.waitFence (st.frameIndex % MAX_FRAME_DRAWS) with
          ops := (st.waitFence (st.frameIndex % MAX_FRAME_DRAWS)).ops ++
            [FrameOp.acquire (st.frameIndex % MAX_FRAME_DRAWS)] } : FrameScheduler)
      (st.frameIndex % MAX_FRAME_DRAWS) index
    obtain ⟨hz1, hz2, _⟩ := hz
    have hd := hz1 h1
    have key : (⟨(({ st.waitFence (st.frameIndex % MAX_FRAME_DRAWS) with
          ops := (st.waitFence (st.frameIndex % MAX_FRAME_DRAWS)).ops ++
            [FrameOp.acquire (st.frameIndex % MAX_FRAME_DRAWS)] } : FrameScheduler).hazardCheck
              (st.frameIndex % MAX_FRAME_DRAWS) index).frameIndex,
        (({ st.waitFence (st.frameIndex % MAX_FRAME_DRAWS) with
          ops := (st.waitFence (st.frameIndex % MAX_FRAME_DRAWS)).ops ++
            [FrameOp.acquire (st.frameIndex % MAX_FRAME_DRAWS)] } : FrameScheduler).hazardCheck
              (st.frameIndex % MAX_FRAME_DRAWS) index).pending ++
          [⟨st.frameIndex % MAX_FRAME_DRAWS, index⟩], [], []⟩ : FrameScheduler).SlotsDistinct := by
      obtain ⟨hn, hl⟩ := hd
      refine ⟨?_, ?_⟩
      · simp only [List.map_append, List.map_cons, List.map_nil]
        refine List.Nodup.append hn (List.nodup_singleton _) ?_
        intro slot hslot hslot2
        simp only [List.mem_singleton] at hslot2
        subst hslot2
        obtain ⟨sub, hsub, hsubslot⟩ := List.mem_map.1 hslot
        exact hfree sub (hz2 sub hsub) hsubslot
      · intro sub hsub
        rcases List.mem_append.1 hsub with hsub | hsub
        · exact hl sub hsub
        · simp only [List.mem_singleton] at hsub
          subst hsub
          exact hmod
    unfold drawFrame
    simp only []
    split <;> exact key

/-- The loop of `main` keeps the outstanding submissions distinct. -/
theorem drawFrames_slotsDistinct (advanceOnStalePresent : Bool) (inputs : List FrameInput) :
    ∀ st : FrameScheduler, st.SlotsDistinct →
      (drawFrames advanceOnStalePresent st inputs).SlotsDistinct := by
  induction inputs with
  | nil => intro st h; exact h
  | cons input rest ih =>
    intro st h
    simp only [drawFrames]
    apply ih
    simp only [VulkanRenderer.draw]
    apply drawFrame_slotsDistinct
    generalize input.completed = completed
    induction completed generalizing st with
    | nil => exact h
    | cons slot more ihc => exact ihc _ (gpuCompletes_slotsDistinct st slot h)

/-- C16. In the loop of `main`, whatever the GPU completes and whatever acquisition and
presentation report, after any number of `draw` calls the number of submissions whose
fence is unsignaled is at most `MAX_FRAME_DRAWS = 2`, and they carry distinct fences.  The
frame index starts at 0.  In each call the slot is the frame index modulo 2, which is
below 2; the first operation is the wait on the fence of that slot, every operation on the
slot comes after it, and when the call submits, the submission it adds is the only
outstanding one that carries the fence of the slot. -/
theorem frames_in_flight_bounded (advanceOnStalePresent : Bool) (inputs : List FrameInput)
    (st : FrameScheduler) (acquired : Acquired) (presentStale : Bool) :
    FrameScheduler.initial.frameIndex = 0 ∧
    MAX_FRAME_DRAWS = 2 ∧
    (drawFrames advanceOnStalePresent FrameScheduler.initial inputs).pending.length ≤
      MAX_FRAME_DRAWS ∧
    ((drawFrames advanceOnStalePresent FrameScheduler.initial inputs).pending.map
      Submission.slot).Nodup ∧
    st.frameIndex % MAX_FRAME_DRAWS < MAX_FRAME_DRAWS ∧
    (∃ later, (drawFrame advanceOnStalePresent st acquired presentStale).1.ops =
      st.ops ++ FrameOp.waitFence (st.frameIndex % MAX_FRAME_DRAWS) ::
        FrameOp.acquire (st.frameIndex % MAX_FRAME_DRAWS) :: later) ∧
    (∀ index, acquired = Acquired.image index →
      ((drawFrame advanceOnStalePresent st acquired presentStale).1.pending.filter
        (fun sub => sub.slot == st.frameIndex % MAX_FRAME_DRAWS)) =
          [⟨st.frameIndex % MAX_FRAME_DRAWS, index⟩]) := by
  have hinit : FrameScheduler.initial.SlotsDistinct := by
    refine ⟨List.nodup_nil, ?_⟩
    intro sub hsub
    simp [FrameScheduler.initial] at hsub
  have hrun := drawFrames_slotsDistinct advanceOnStalePresent inputs _ hinit
  refine ⟨rfl, rfl, slotsDistinct_length_le _ hrun, hrun.1, Nat.mod_lt _ (by decide), ?_, ?_⟩
  · cases acquired with
    | stale => exact ⟨[], by simp [drawFrame, FrameScheduler.waitFence]⟩
    | image index =>
      obtain ⟨extra, hextra⟩ := hazardCheck_ops
        ({ st.waitFence (st.frameIndex % MAX_FRAME_DRAWS) with
            ops := (st.waitFence (st.frameIndex % MAX_FRAME_DRAWS)).ops ++
              [FrameOp.acquire (st.frameIndex % MAX_FRAME_DRAWS)] } : FrameScheduler)
        (st.frameIndex % MAX_FRAME_DRAWS) index
      refine ⟨extra ++ [FrameOp.record (st.frameIndex % MAX_FRAME_DRAWS) index,
        FrameOp.resetFence (st.frameIndex % MAX_FRAME_DRAWS),
        FrameOp.submit (st.frameIndex % MAX_FRAME_DRAWS) index,
        FrameOp.present (st.frameIndex % MAX_FRAME_DRAWS) index], ?_⟩
      unfold drawFrame
      simp only []
      split <;> simp only [hextra] <;> simp [FrameScheduler.waitFence]
  · intro index hacq
    subst hacq
    have hfree := gpuCompletes_fenceSignaled st (st.frameIndex % MAX_FRAME_DRAWS)
    have hz := hazardCheck_pending
      ({ st.waitFence (st.frameIndex % MAX_FRAME_DRAWS) with
          ops := (st.waitFence (st.frameIndex % MAX_FRAME_DRAWS)).ops ++
            [FrameOp.acquire (st.frameIndex % MAX_FRAME_DRAWS)] } : FrameScheduler)
      (st.frameIndex % MAX_FRAME_DRAWS) index
    obtain ⟨_, hz2, _⟩ := hz
    have hnone : (({ st.waitFence (st.frameIndex % MAX_FRAME_DRAWS) with
          ops := (st.waitFence (st.frameIndex % MAX_FRAME_DRAWS)).ops ++
            [FrameOp.acquire (st.frameIndex % MAX_FRAME_DRAWS)] } : FrameScheduler).hazardCheck
              (st.frameIndex % MAX_FRAME_DRAWS) index).pending.filter
        (fun sub => sub.slot == st.frameIndex % MAX_FRAME_DRAWS) = [] := by
      rw [List.filter_eq_nil_iff]
      intro sub hsub
      have := hfree sub (hz2 sub hsub)
      simpa using this
    unfold drawFrame
    simp only []
    split <;> simp only [List.filter_append, hnone, List.nil_append] <;> simp

/-- Three frames with three swapchain images and a GPU that completes nothing by itself:
the third call waits for the first frame, and two submissions are outstanding after it. -/
theorem frames_in_flight_bounded_witness :
    (drawFrames true FrameScheduler.initial
      [⟨[], Acquired.image 0, false⟩, ⟨[], Acquired.image 1, false⟩]).pending =
        [⟨0, 0⟩, ⟨1, 1⟩] ∧
    (drawFrames true FrameScheduler.initial
      [⟨[], Acquired.image 0, false⟩, ⟨[], Acquired.image 1, false⟩,
        ⟨[], Acquired.image 2, false⟩]).pending = [⟨1, 1⟩, ⟨0, 2⟩] ∧
    (drawFrames true FrameScheduler.initial
      [⟨[], Acquired.image 0, false⟩, ⟨[], Acquired.image 1, false⟩,
        ⟨[], Acquired.image 2, false⟩]).pending.length ≤ MAX_FRAME_DRAWS ∧
    Acquired.image 2 = Acquired.image 2 ∧
    ((drawFrame true
        (drawFrames true FrameScheduler.initial
          [⟨[], Acquired.image 0, false⟩, ⟨[], Acquired.image 1, false⟩])
        (Acquired.image 2) false).1.pending.filter
      (fun sub => sub.slot ==
        (drawFrames true FrameScheduler.initial
          [⟨[], Acquired.image 0, false⟩, ⟨[], Acquired.image 1, false⟩]).frameIndex %
            MAX_FRAME_DRAWS)) =
      [⟨(drawFrames true FrameScheduler.initial
          [⟨[], Acquired.image 0, false⟩, ⟨[], Acquired.image 1, false⟩]).frameIndex %
            MAX_FRAME_DRAWS, 2⟩] :=
  ⟨by decide, by decide,
    (frames_in_flight_bounded true
      [⟨[], Acquired.image 0, false⟩, ⟨[], Acquired.image 1, false⟩,
        ⟨[], Acquired.image 2, false⟩]
      (drawFrames true FrameScheduler.initial
        [⟨[], Acquired.image 0, false⟩, ⟨[], Acquired.image 1, false⟩])
      (Acquired.image 2) false).2.2.1,
    rfl,
    (frames_in_flight_bounded true
      [⟨[], Acquired.image 0, false⟩, ⟨[], Acquired.image 1, false⟩,
        ⟨[], Acquired.image 2, false⟩]
      (drawFrames true FrameScheduler.initial
        [⟨[], Acquired.image 0, false⟩, ⟨[], Acquired.image 1, false⟩])
      (Acquired.image 2) false).2.2.2.2.2.2 2 rfl⟩

/-! ## A stale surface -/

/-- Failure of the claim C17.  `draw` is declared `void`: on the scheduler that has drawn
nothing, the value the caller receives when acquisition reports a stale surface is the
value it receives when the frame is drawn and presented, although the iteration itself
ends differently, so no function of that value tells the caller of the stale surface. -/
theorem draw_returns_no_status :
    (drawFrame true FrameScheduler.initial Acquired.stale false).2 = FrameResult.surfaceStale ∧
    (drawFrame true FrameScheduler.initial (Acquired.image 0) false).2 = FrameResult.ok ∧
    (VulkanRenderer.draw true FrameScheduler.initial Acquired.stale false).2 =
      (VulkanRenderer.draw true FrameScheduler.initial (Acquired.image 0) false).2 ∧
    ∀ report : Unit → FrameResult,
      report (VulkanRenderer.draw true FrameScheduler.initial Acquired.stale false).2 =
        report (VulkanRenderer.draw true FrameScheduler.initial (Acquired.image 0) false).2 :=
  ⟨rfl, rfl, rfl, fun _ => rfl⟩

/-- C17, as the code has it.  When acquisition reports an out-of-date or suboptimal
surface, the loop iteration ends as stale after two operations, the wait on the fence of
the slot and the acquisition: it records, resets and submits nothing, the frame index and
the image map are unchanged, and the outstanding submissions are those from before
without the one the wait has waited for, so all of them when the fence of the slot was
signaled at the call.  `draw` leaves this state and hands no value to its caller. -/
theorem stale_acquisition_abandons_frame (advanceOnStalePresent : Bool)
    (st : FrameScheduler) (presentStale : Bool) :
    (drawFrame advanceOnStalePresent st Acquired.stale presentStale).2 =
      FrameResult.surfaceStale ∧
    (VulkanRenderer.draw advanceOnStalePresent st Acquired.stale presentStale).1 =
      (drawFrame advanceOnStalePresent st Acquired.stale presentStale).1 ∧
    (VulkanRenderer.draw advanceOnStalePresent st Acquired.stale presentStale).1.ops =
      st.ops ++ [FrameOp.waitFence (st.frameIndex % MAX_FRAME_DRAWS),
        FrameOp.acquire (st.frameIndex % MAX_FRAME_DRAWS)] ∧
    (VulkanRenderer.draw advanceOnStalePresent st Acquired.stale presentStale).1.frameIndex =
      st.frameIndex ∧
    (VulkanRenderer.draw advanceOnStalePresent st Acquired.stale presentStale).1.inFlightImage =
      st.inFlightImage ∧
    (VulkanRenderer.draw advanceOnStalePresent st Acquired.stale presentStale).1.pending =
      st.pending.filter (fun sub => sub.slot != st.frameIndex % MAX_FRAME_DRAWS) ∧
    (st.fenceSignaled (st.frameIndex % MAX_FRAME_DRAWS) = true →
      (VulkanRenderer.draw advanceOnStalePresent st Acquired.stale presentStale).1.pending =
        st.pending) := by
  refine ⟨rfl, rfl, ?_, rfl, rfl, rfl, ?_⟩
  · simp [VulkanRenderer.draw, drawFrame, FrameScheduler.waitFence]
  · intro hsignaled
    simp only [VulkanRenderer.draw, drawFrame, FrameScheduler.waitFence,
      FrameScheduler.gpuCompletes]
    rw [List.filter_eq_self]
    exact List.all_eq_true.1 hsignaled

/-- After one drawn frame, whose submission on slot 0 is outstanding, the second call is
for slot 1, whose fence is signaled: a stale acquisition leaves the frame index at 1 and
the outstanding submission as it is. -/
theorem stale_acquisition_abandons_frame_witness :
    (drawFrame true FrameScheduler.initial (Acquired.image 0) false).1.fenceSignaled
      ((drawFrame true FrameScheduler.initial (Acquired.image 0) false).1.frameIndex %
        MAX_FRAME_DRAWS) = true ∧
    (drawFrame true FrameScheduler.initial (Acquired.image 0) false).1.pending = [⟨0, 0⟩] ∧
    (VulkanRenderer.draw true (drawFrame true FrameScheduler.initial (Acquired.image 0) false).1
      Acquired.stale false).1.pending =
        (drawFrame true FrameScheduler.initial (Acquired.image 0) false).1.pending :=
  ⟨by decide, by decide,
    (stale_acquisition_abandons_frame true
      (drawFrame true FrameScheduler.initial (Acquired.image 0) false).1 false).2.2.2.2.2.2
      (by decide)⟩

/-- On `outOfMemoryDriver` the allocation for the buffer fails: `createBuffer` throws after
three calls, none of which destroys the buffer it created. -/
theorem failure_releases_nothing_witness :
    createBuffer outOfMemoryDriver [] 72 VK_BUFFER_USAGE_TRANSFER_SRC_BIT
        (VK_MEMORY_PROPERTY_HOST_VISIBLE_BIT ||| VK_MEMORY_PROPERTY_HOST_COHERENT_BIT) =
      ([Event.vkCreateBuffer ⟨72, 1, 0⟩ VK_SUCCESS 1,
        Event.vkGetBufferMemoryRequirements 1 ⟨72, 1, 3⟩,
        Event.vkAllocateMemory ⟨72, 1⟩ VK_ERROR_OUT_OF_DEVICE_MEMORY 0],
       Outcome.raised RuntimeError.failedToAllocateVertexBufferMemory) ∧
    ∃ evs,
      [Event.vkCreateBuffer ⟨72, 1, 0⟩ VK_SUCCESS 1,
        Event.vkGetBufferMemoryRequirements 1 ⟨72, 1, 3⟩,
        Event.vkAllocateMemory ⟨72, 1⟩ VK_ERROR_OUT_OF_DEVICE_MEMORY 0] = [] ++ evs ∧
      evs.filter Event.isRelease = [] ∧
      CreateBufferRaised outOfMemoryDriver.memoryProperties 72 VK_BUFFER_USAGE_TRANSFER_SRC_BIT
        (VK_MEMORY_PROPERTY_HOST_VISIBLE_BIT ||| VK_MEMORY_PROPERTY_HOST_COHERENT_BIT) evs
        RuntimeError.failedToAllocateVertexBufferMemory :=
  ⟨by decide,
    (failure_releases_nothing outOfMemoryDriver [] ⟨3, 3, 0, 0, 0, 0⟩ 7 8 triangleVertices
      triangleIndices 72 VK_BUFFER_USAGE_TRANSFER_SRC_BIT
      (VK_MEMORY_PROPERTY_HOST_VISIBLE_BIT ||| VK_MEMORY_PROPERTY_HOST_COHERENT_BIT)).1
      [Event.vkCreateBuffer ⟨72, 1, 0⟩ VK_SUCCESS 1,
        Event.vkGetBufferMemoryRequirements 1 ⟨72, 1, 3⟩,
        Event.vkAllocateMemory ⟨72, 1⟩ VK_ERROR_OUT_OF_DEVICE_MEMORY 0]
      RuntimeError.failedToAllocateVertexBufferMemory (by decide)⟩

/-! ## The choices made for the swapchain -/

/-- C25. `getBestPresentMode` returns `VK_PRESENT_MODE_MAILBOX_KHR` if and only if that
mode occurs in the list; for every list in which it does not occur, the empty list
included, it returns `VK_PRESENT_MODE_FIFO_KHR`; it returns no third mode. -/
theorem getBestPresentMode_mailbox_iff (modes : List Nat) :
    (VulkanRenderer.getBestPresentMode modes = VK_PRESENT_MODE_MAILBOX_KHR ↔
      VK_PRESENT_MODE_MAILBOX_KHR ∈ modes) ∧
    (VK_PRESENT_MODE_MAILBOX_KHR ∉ modes →
      VulkanRenderer.getBestPresentMode modes = VK_PRESENT_MODE_FIFO_KHR) ∧
    VulkanRenderer.getBestPresentMode [] = VK_PRESENT_MODE_FIFO_KHR ∧
    (VulkanRenderer.getBestPresentMode modes = VK_PRESENT_MODE_MAILBOX_KHR ∨
      VulkanRenderer.getBestPresentMode modes = VK_PRESENT_MODE_FIFO_KHR) := by
  have hne : VK_PRESENT_MODE_FIFO_KHR ≠ VK_PRESENT_MODE_MAILBOX_KHR := by decide
  have hin : VK_PRESENT_MODE_MAILBOX_KHR ∈ modes →
      VulkanRenderer.getBestPresentMode modes = VK_PRESENT_MODE_MAILBOX_KHR := by
    induction modes with
    | nil => intro h; simp at h
    | cons mode rest ih =>
      intro h
      simp only [VulkanRenderer.getBestPresentMode]
      split
      · assumption
      · rename_i hmode
        rcases List.mem_cons.1 h with h | h
        · exact absurd h.symm hmode
        · exact ih h
  have hout : VK_PRESENT_MODE_MAILBOX_KHR ∉ modes →
      VulkanRenderer.getBestPresentMode modes = VK_PRESENT_MODE_FIFO_KHR := by
    clear hin
    induction modes with
    | nil => intro _; rfl
    | cons mode rest ih =>
      intro h
      simp only [VulkanRenderer.getBestPresentMode]
      split
      · rename_i hmode
        exact absurd (List.mem_cons.2 (Or.inl hmode.symm)) h
      · exact ih (fun hr => h (List.mem_cons.2 (Or.inr hr)))
  refine ⟨⟨?_, hin⟩, hout, rfl, ?_⟩
  · intro h
    by_contra hnot
    rw [hout hnot] at h
    exact hne h
  · by_cases h : VK_PRESENT_MODE_MAILBOX_KHR ∈ modes
    · exact Or.inl (hin h)
    · exact Or.inr (hout h)

/-- For the modes immediate and FIFO-relaxed the result is FIFO, which is not in the
list. -/
theorem getBestPresentMode_mailbox_iff_witness :
    VK_PRESENT_MODE_MAILBOX_KHR ∉ [0, 3] ∧
    VulkanRenderer.getBestPresentMode [0, 3] = VK_PRESENT_MODE_FIFO_KHR :=
  ⟨by decide, (getBestPresentMode_mailbox_iff [0, 3]).2.1 (by decide)⟩

/-- The loop of `getBestSurfaceFormat` stops at the first wanted entry. -/
theorem firstWantedFormat_first (pre post : List VkSurfaceFormatKHR)
    (format : VkSurfaceFormatKHR) (hformat : format.isWanted = true)
    (hpre : ∀ other ∈ pre, other.isWanted = false) :
    firstWantedFormat (pre ++ format :: post) = some format := by
  induction pre with
  | nil =>
    simp only [List.nil_append, firstWantedFormat]
    simp only [VkSurfaceFormatKHR.isWanted, Bool.and_eq_true, Bool.or_eq_true,
      beq_iff_eq] at hformat
    rw [if_pos hformat]
  | cons first rest ih =>
    have hfirst := hpre first (List.mem_cons_self _ _)
    simp only [VkSurfaceFormatKHR.isWanted, Bool.and_eq_false_iff, Bool.or_eq_false_iff,
      beq_eq_false_iff_ne, ne_eq] at hfirst
    simp only [List.cons_append, firstWantedFormat]
    rw [if_neg (by tauto)]
    exact ih (fun other hother => hpre other (List.mem_cons_of_mem _ hother))

/-- The loop of `getBestSurfaceFormat` ends without a result when no entry is wanted. -/
theorem firstWantedFormat_none (formats : List VkSurfaceFormatKHR)
    (h : ∀ other ∈ formats, other.isWanted = false) :
    firstWantedFormat formats = none := by
  induction formats with
  | nil => rfl
  | cons first rest ih =>
    have hfirst := h first (List.mem_cons_self _ _)
    simp only [VkSurfaceFormatKHR.isWanted, Bool.and_eq_false_iff, Bool.or_eq_false_iff,
      beq_eq_false_iff_ne, ne_eq] at hfirst
    simp only [firstWantedFormat]
    rw [if_neg (by tauto)]
    exact ih (fun other hother => h other (List.mem_cons_of_mem _ hother))

/-- What the loop of `getBestSurfaceFormat` returns is an entry of the list. -/
theorem firstWantedFormat_mem (formats : List VkSurfaceFormatKHR)
    (format : VkSurfaceFormatKHR) (h : firstWantedFormat formats = some format) :
    format ∈ formats := by
  induction formats with
  | nil => simp [firstWantedFormat] at h
  | cons first rest ih =>
    simp only [firstWantedFormat] at h
    split at h
    · simp only [Option.some.injEq] at h
      subst h
      exact List.mem_cons_self _ _
    · exact List.mem_cons_of_mem _ (ih h)

/-- The first branch of `getBestSurfaceFormat` is not taken unless the list is the single
entry with the undefined format. -/
theorem getBestSurfaceFormat_loop (formats : List VkSurfaceFormatKHR)
    (h : ¬ ∃ only, formats = [only] ∧ only.format = VK_FORMAT_UNDEFINED) :
    VulkanRenderer.getBestSurfaceFormat formats =
      match firstWantedFormat formats with
      | some format => some format
      | none => formats.head? := by
  unfold VulkanRenderer.getBestSurfaceFormat
  simp only []
  split
  · rename_i hundefined
    split at hundefined
    · rename_i only
      exact absurd ⟨only, rfl, of_decide_eq_true hundefined⟩ h
    · simp at hundefined
  · rfl

/-- C24. `getBestSurfaceFormat` on the single entry with format `VK_FORMAT_UNDEFINED`
returns `VK_FORMAT_R8G8B8A8_UNORM` with `VK_COLOR_SPACE_SRGB_NONLINEAR_KHR`.  On every other
non-empty list it returns the first entry whose format is `R8G8B8A8_UNORM` or
`B8G8R8A8_UNORM` and whose colour space is `SRGB_NONLINEAR`, when there is one, and the
first entry of the list when there is none; in both cases the result is an entry of the
list. -/
theorem getBestSurfaceFormat_choice (formats : List VkSurfaceFormatKHR) :
    (∀ only, formats = [only] → only.format = VK_FORMAT_UNDEFINED →
      VulkanRenderer.getBestSurfaceFormat formats =
        some ⟨VK_FORMAT_R8G8B8A8_UNORM, VK_COLOR_SPACE_SRGB_NONLINEAR_KHR⟩) ∧
    (formats ≠ [] → (¬ ∃ only, formats = [only] ∧ only.format = VK_FORMAT_UNDEFINED) →
      (∀ pre format post, formats = pre ++ format :: post → format.isWanted = true →
        (∀ other ∈ pre, other.isWanted = false) →
        VulkanRenderer.getBestSurfaceFormat formats = some format) ∧
      ((∀ other ∈ formats, other.isWanted = false) →
        VulkanRenderer.getBestSurfaceFormat formats = formats.head?) ∧
      ∃ format, VulkanRenderer.getBestSurfaceFormat formats = some format ∧
        format ∈ formats) := by
  constructor
  · intro only hformats hundefined
    subst hformats
    simp [VulkanRenderer.getBestSurfaceFormat, hundefined]
  · intro hne hnot
    rw [getBestSurfaceFormat_loop formats hnot]
    refine ⟨?_, ?_, ?_⟩
    · intro pre format post hformats hwanted hpre
      rw [hformats, firstWantedFormat_first pre post format hwanted hpre]
    · intro hnone
      rw [firstWantedFormat_none formats hnone]
    · rcases hfirst : firstWantedFormat formats with _ | format
      · cases formats with
        | nil => exact absurd rfl hne
        | cons first rest => exact ⟨first, rfl, List.mem_cons_self _ _⟩
      · exact ⟨format, rfl, firstWantedFormat_mem formats format hfirst⟩

/-- Of a list with an R8G8B8A8 entry in a foreign colour space, then a B8G8R8A8 and an
R8G8B8A8 entry in the wanted colour space, the B8G8R8A8 entry is returned. -/
theorem getBestSurfaceFormat_choice_witness :
    VulkanRenderer.getBestSurfaceFormat [⟨37, 7⟩, ⟨44, 0⟩, ⟨37, 0⟩] = some ⟨44, 0⟩ ∧
    VulkanRenderer.getBestSurfaceFormat [⟨0, 0⟩] = some ⟨37, 0⟩ :=
  ⟨((getBestSurfaceFormat_choice [⟨37, 7⟩, ⟨44, 0⟩, ⟨37, 0⟩]).2 (by decide)
      (by rintro ⟨only, h, _⟩; simp at h)).1 [⟨37, 7⟩] ⟨44, 0⟩ [⟨37, 0⟩] rfl (by decide)
      (by decide),
    (getBestSurfaceFormat_choice [⟨0, 0⟩]).1 ⟨0, 0⟩ rfl rfl⟩

/-! ## Extension checks -/

/-- The inner loop of the extension checks finds a name exactly when it is in the list. -/
theorem hasExtension_iff (ext : String) (extensions : List String) :
    hasExtension ext extensions = true ↔ ext ∈ extensions := by
  induction extensions with
  | nil => simp [hasExtension]
  | cons vkext rest ih =>
    simp only [hasExtension, List.mem_cons]
    split
    · rename_i h
      have : ext = vkext := by simpa using h
      simp [this]
    · rename_i h
      have : ext ≠ vkext := by simpa using h
      simp [this, ih]

/-- The outer loop of the extension checks holds exactly when every name to check is in
the list. -/
theorem checkExtensions_iff (extensions tocheck : List String) :
    checkExtensions extensions tocheck = true ↔ ∀ ext ∈ tocheck, ext ∈ extensions := by
  induction tocheck with
  | nil => simp [checkExtensions]
  | cons ext rest ih =>
    simp only [checkExtensions, List.mem_cons, forall_eq_or_imp]
    by_cases h : hasExtension ext extensions = true
    · simp only [h, Bool.not_true, Bool.false_eq_true, if_false]
      rw [ih]
      exact ⟨fun hr => ⟨(hasExtension_iff _ _).1 h, hr⟩, fun hr => hr.2⟩
    · have hnot : ext ∉ extensions := fun hmem => h ((hasExtension_iff _ _).2 hmem)
      simp only [Bool.not_eq_true] at h
      simp [h, hnot]

/-- C29. `checkInstanceExtensionSupport(tocheck)` is true if and only if every name of
`tocheck` is, as a string, the name of some extension that the instance reports.  It is
true for the empty list, and it depends only on which names occur in the two lists, not
on their order or on how often they occur. -/
theorem checkInstanceExtensionSupport_iff (p : Platform) (tocheck : List String) :
    (VulkanRenderer.checkInstanceExtensionSupport p tocheck = true ↔
      ∀ ext ∈ tocheck, ext ∈ p.vkEnumerateInstanceExtensionProperties) ∧
    VulkanRenderer.checkInstanceExtensionSupport p [] = true ∧
    (∀ (q : Platform) (other : List String),
      (∀ name, name ∈ q.vkEnumerateInstanceExtensionProperties ↔
        name ∈ p.vkEnumerateInstanceExtensionProperties) →
      (∀ name, name ∈ other ↔ name ∈ tocheck) →
      VulkanRenderer.checkInstanceExtensionSupport q other =
        VulkanRenderer.checkInstanceExtensionSupport p tocheck) := by
  refine ⟨checkExtensions_iff _ _, rfl, ?_⟩
  intro q other hreported hother
  have hiff : VulkanRenderer.checkInstanceExtensionSupport q other = true ↔
      VulkanRenderer.checkInstanceExtensionSupport p tocheck = true := by
    unfold VulkanRenderer.checkInstanceExtensionSupport
    rw [checkExtensions_iff, checkExtensions_iff]
    constructor
    · intro h ext hext
      exact (hreported ext).1 (h ext ((hother ext).2 hext))
    · intro h ext hext
      exact (hreported ext).2 (h ext ((hother ext).1 hext))
  cases h1 : VulkanRenderer.checkInstanceExtensionSupport q other <;>
    cases h2 : VulkanRenderer.checkInstanceExtensionSupport p tocheck <;>
    simp_all

/-- The two extensions that `okPlatform` reports, asked for in the other order and with
one name twice, are supported, as they are in the order reported. -/
theorem checkInstanceExtensionSupport_iff_witness :
    VulkanRenderer.checkInstanceExtensionSupport okPlatform
      ["VK_KHR_xcb_surface", "VK_KHR_surface", "VK_KHR_xcb_surface"] = true ∧
    VulkanRenderer.checkInstanceExtensionSupport okPlatform
      ["VK_KHR_xcb_surface", "VK_KHR_surface", "VK_KHR_xcb_surface"] =
        VulkanRenderer.checkInstanceExtensionSupport okPlatform
          ["VK_KHR_surface", "VK_KHR_xcb_surface"] ∧
    VulkanRenderer.checkInstanceExtensionSupport okPlatform ["VK_KHR_display"] = false :=
  ⟨(checkInstanceExtensionSupport_iff okPlatform
      ["VK_KHR_xcb_surface", "VK_KHR_surface", "VK_KHR_xcb_surface"]).1.2 (by decide),
    (checkInstanceExtensionSupport_iff okPlatform ["VK_KHR_surface", "VK_KHR_xcb_surface"]).2.2
      okPlatform ["VK_KHR_xcb_surface", "VK_KHR_surface", "VK_KHR_xcb_surface"]
      (fun _ => Iff.rfl) (by intro name; simp only [List.mem_cons, List.mem_singleton,
        List.not_mem_nil, or_false]; tauto),
    by decide⟩

/-! ## The selection of the physical device -/

/-- The loop of `getPhysicalDevice` stops at the first device that `checkPhysicalDevice`
accepts. -/
theorem firstSuitableDevice_first (p : Platform) (r : VulkanRenderer)
    (pre post : List Handle) (device : Handle)
    (hdevice : VulkanRenderer.checkPhysicalDevice p r device = true)
    (hpre : ∀ other ∈ pre, VulkanRenderer.checkPhysicalDevice p r other = false) :
    firstSuitableDevice p r (pre ++ device :: post) = some device := by
  induction pre with
  | nil => simp [firstSuitableDevice, hdevice]
  | cons first rest ih =>
    simp only [List.cons_append, firstSuitableDevice, hpre first (List.mem_cons_self _ _),
      Bool.false_eq_true, if_false]
    exact ih (fun other hother => hpre other (List.mem_cons_of_mem _ hother))

/-- The loop of `getPhysicalDevice` ends without a device when none is accepted. -/
theorem firstSuitableDevice_none (p : Platform) (r : VulkanRenderer) (devices : List Handle)
    (h : ∀ other ∈ devices, VulkanRenderer.checkPhysicalDevice p r other = false) :
    firstSuitableDevice p r devices = none := by
  induction devices with
  | nil => rfl
  | cons first rest ih =>
    simp only [firstSuitableDevice, h first (List.mem_cons_self _ _), Bool.false_eq_true,
      if_false]
    exact ih (fun other hother => h other (List.mem_cons_of_mem _ hother))

/-- With at least one device, `getPhysicalDevice` returns: with the first accepted device
in `m_device.physical` when there is one, and with the object unchanged when there is
none. -/
theorem getPhysicalDevice_of_devices (p : Platform) (s : Machine)
    (hdevices : p.vkEnumeratePhysicalDevices s.renderer.m_instance ≠ []) :
    (∀ pre device post,
      p.vkEnumeratePhysicalDevices s.renderer.m_instance = pre ++ device :: post →
      VulkanRenderer.checkPhysicalDevice p s.renderer device = true →
      (∀ other ∈ pre, VulkanRenderer.checkPhysicalDevice p s.renderer other = false) →
      VulkanRenderer.getPhysicalDevice p s =
        ({ s with renderer :=
            { s.renderer with m_device := { s.renderer.m_device with physical := device } } },
          Completion.returned ())) ∧
    ((∀ other ∈ p.vkEnumeratePhysicalDevices s.renderer.m_instance,
        VulkanRenderer.checkPhysicalDevice p s.renderer other = false) →
      VulkanRenderer.getPhysicalDevice p s = (s, Completion.returned ())) := by
  have hlen : ((p.vkEnumeratePhysicalDevices s.renderer.m_instance).length == 0) = false := by
    cases hd : p.vkEnumeratePhysicalDevices s.renderer.m_instance with
    | nil => exact absurd hd hdevices
    | cons first rest => rfl
  constructor
  · intro pre device post hlist hdevice hpre
    unfold VulkanRenderer.getPhysicalDevice
    simp only [hlen, Bool.false_eq_true, if_false]
    rw [hlist, firstSuitableDevice_first p s.renderer pre post device hdevice hpre]
  · intro hnone
    unfold VulkanRenderer.getPhysicalDevice
    simp only [hlen, Bool.false_eq_true, if_false]
    rw [firstSuitableDevice_none p s.renderer _ hnone]

/-- C21 fails on the code.  On `unsuitableDevicePlatform` one device is enumerated and
`checkPhysicalDevice` rejects it, so no enumerated device is suitable; `getPhysicalDevice`
returns without raising and leaves `m_device.physical` as it was. -/
theorem no_suitable_device_returns :
    unsuitableDevicePlatform.vkEnumeratePhysicalDevices startMachine.renderer.m_instance =
      [2] ∧
    VulkanRenderer.checkPhysicalDevice unsuitableDevicePlatform startMachine.renderer 2 =
      false ∧
    VulkanRenderer.getPhysicalDevice unsuitableDevicePlatform startMachine =
      (startMachine, Completion.returned ()) ∧
    (VulkanRenderer.getPhysicalDevice unsuitableDevicePlatform startMachine).1.renderer.m_device.physical =
      VK_NULL_HANDLE := by
  decide

/-! ## The extent of the swapchain -/

/-- A value clamped between a bound and the same bound is that bound. -/
theorem clamp_same (v bound : Nat) : clamp v bound bound = bound := by
  unfold clamp
  split
  · rfl
  · split
    · rfl
    · omega

/-- A `uint32_t` stored in an `int` and converted back is unchanged. -/
theorem toUInt32_toInt (n : Nat) (h : n < 2 ^ 32) : toUInt32 (toInt n) = n := by
  unfold toUInt32 toInt
  have hmod : n % 2 ^ 32 = n := Nat.mod_eq_of_lt h
  rw [hmod]
  split
  · have h1 : ((n : Int) % 2 ^ 32) = (n : Int) := by
      apply Int.emod_eq_of_lt (Int.natCast_nonneg n)
      exact_mod_cast h
    rw [h1]
    exact Int.toNat_natCast n
  · have h1 : (((n : Int) - 2 ^ 32) % 2 ^ 32) = (n : Int) := by
      rw [Int.sub_emod, Int.emod_self, sub_zero, Int.emod_emod_of_dvd _ (dvd_refl _)]
      apply Int.emod_eq_of_lt (Int.natCast_nonneg n)
      exact_mod_cast h
    rw [h1]
    exact Int.toNat_natCast n

/-- When the extent is set manually, `getBestSwapchainExtent` returns `maxImageExtent`,
whatever the size of the framebuffer: both bounds of each `std::clamp` are the maximum. -/
theorem getBestSwapchainExtent_manual (p : Platform) (r : VulkanRenderer)
    (capabilities : VkSurfaceCapabilitiesKHR)
    (hcurrent : capabilities.currentExtent.width = UINT32_MAX)
    (hwidth : capabilities.maxImageExtent.width < 2 ^ 32)
    (hheight : capabilities.maxImageExtent.height < 2 ^ 32) :
    VulkanRenderer.getBestSwapchainExtent p r capabilities = capabilities.maxImageExtent := by
  unfold VulkanRenderer.getBestSwapchainExtent
  simp only [hcurrent, ne_eq, not_true_eq_false, if_false, clamp_same]
  rw [toUInt32_toInt _ hwidth, toUInt32_toInt _ hheight]

/-- C22 fails on the code.  On `manualExtentPlatform` the current extent is 2^32-1, the
framebuffer of the window is 800 by 600, and the surface allows extents from 1 by 1 to 4096
by 4096, so width 800 and height 600 are in range; `getBestSwapchainExtent` returns 4096 by
4096.  With a current width other than 2^32-1 it returns the current extent. -/
theorem manual_extent_is_maximum :
    (manualExtentPlatform.vkGetPhysicalDeviceSurfaceCapabilitiesKHR 2 20) =
      ⟨2, 3, ⟨4294967295, 4294967295⟩, ⟨1, 1⟩, ⟨4096, 4096⟩, 1⟩ ∧
    manualExtentPlatform.glfwGetFramebufferSize 7 = (800, 600) ∧
    clamp 800 1 4096 = 800 ∧
    clamp 600 1 4096 = 600 ∧
    VulkanRenderer.getBestSwapchainExtent manualExtentPlatform
      { newRenderer with m_window := 7 }
      ⟨2, 3, ⟨4294967295, 4294967295⟩, ⟨1, 1⟩, ⟨4096, 4096⟩, 1⟩ = ⟨4096, 4096⟩ ∧
    VulkanRenderer.getBestSwapchainExtent manualExtentPlatform
      { newRenderer with m_window := 7 }
      ⟨2, 3, ⟨1024, 768⟩, ⟨1, 1⟩, ⟨4096, 4096⟩, 1⟩ = ⟨1024, 768⟩ := by
  refine ⟨rfl, rfl, by decide, by decide, ?_, ?_⟩
  · exact getBestSwapchainExtent_manual _ _ _ rfl (by decide) (by decide)
  · decide

/-! ## The calls of `createSwapChain` and `createLogicalDevice` -/

/-- The image view loop of `createSwapChain`, when it returns: one entry is appended to
`m_swapchainImages` for each image, in order, after one successful `vkCreateImageView`
call for that image with the format of the surface; nothing else changes. -/
theorem createSwapChainImages_returned (p : Platform) (images : List Handle) :
    ∀ (s s' : Machine), createSwapChainImages p images s = (s', Completion.returned ()) →
      ∃ entries : List SwapchainImage,
        entries.map SwapchainImage.image = images ∧
        s'.renderer =
          { s.renderer with m_swapchainImages := s.renderer.m_swapchainImages ++ entries } ∧
        s'.calls = s.calls ++
          entries.map (imageViewCall s.renderer.m_device.logical s.renderer.m_surface.format) := by
  induction images with
  | nil =>
    intro s s' h
    simp only [createSwapChainImages, Prod.mk.injEq, and_true] at h
    subst h
    exact ⟨[], rfl, by simp, by simp⟩
  | cons img rest ih =>
    intro s s' h
    simp only [createSwapChainImages, VulkanRenderer.createImageView] at h
    generalize p.vkCreateImageView _ _ _ = created at h
    obtain ⟨result, view⟩ := created
    by_cases hresult : result = VK_SUCCESS
    · subst hresult
      simp only [ne_eq, not_true_eq_false, if_false] at h
      obtain ⟨entries, hmap, hrenderer, hcalls⟩ := ih _ _ h
      refine ⟨⟨img, view⟩ :: entries, by simp [hmap], ?_, ?_⟩
      · rw [hrenderer]
        simp
      · rw [hcalls]
        simp [imageViewCall]
    · simp only [ne_eq, hresult, not_false_eq_true, if_true] at h
      simp at h

/-- The image view loop of `createSwapChain` returns or throws; its behaviour is defined. -/
theorem createSwapChainImages_defined (p : Platform) (images : List Handle) :
    ∀ s : Machine, (createSwapChainImages p images s).2 ≠ Completion.undefined := by
  induction images with
  | nil => intro s; simp [createSwapChainImages]
  | cons img rest ih =>
    intro s
    simp only [createSwapChainImages, VulkanRenderer.createImageView]
    generalize p.vkCreateImageView _ _ _ = created
    obtain ⟨result, view⟩ := created
    by_cases hresult : result = VK_SUCCESS
    · subst hresult
      simp only [ne_eq, not_true_eq_false, if_false]
      exact ih _
    · simp [hresult]

/-- The `vkCreateSwapchainKHR` call of `createSwapChain` and what follows it, when
`getBestSurfaceFormat` has a result. -/
theorem createSwapChain_eq (p : Platform) (s : Machine) (format : VkSurfaceFormatKHR)
    (h : VulkanRenderer.getBestSurfaceFormat
      (VulkanRenderer.getSwapchainDetails p s.renderer s.renderer.m_device.physical).formats =
        some format) :
    ∃ info result swapchain,
      info.surface = s.renderer.m_surface.surface ∧
      info.minImageCount = requestedImageCount
        (VulkanRenderer.getSwapchainDetails p s.renderer
          s.renderer.m_device.physical).surfaceCapabilities ∧
      info.imageFormat = format.format ∧
      info.imageSharingMode =
        (if (VulkanRenderer.getQueueFamilies p s.renderer
              s.renderer.m_device.physical).graphicsFamily ≠
            (VulkanRenderer.getQueueFamilies p s.renderer
              s.renderer.m_device.physical).presentationFamily
          then VK_SHARING_MODE_CONCURRENT else VK_SHARING_MODE_EXCLUSIVE) ∧
      info.queueFamilyIndices =
        (if (VulkanRenderer.getQueueFamilies p s.renderer
              s.renderer.m_device.physical).graphicsFamily ≠
            (VulkanRenderer.getQueueFamilies p s.renderer
              s.renderer.m_device.physical).presentationFamily
          then [p.danglingQueueIndices.1, p.danglingQueueIndices.2]
          else []) ∧
      VulkanRenderer.createSwapChain p s =
        createSwapChainImages p
          (p.vkGetSwapchainImagesKHR s.renderer.m_device.logical swapchain)
          { renderer :=
              { s.renderer with
                m_surface :=
                  { surface := s.renderer.m_surface.surface,
                    format := format.format,
                    extent := VulkanRenderer.getBestSwapchainExtent p s.renderer
                      (VulkanRenderer.getSwapchainDetails p s.renderer
                        s.renderer.m_device.physical).surfaceCapabilities },
                m_swapchain := swapchain },
            calls := s.calls ++
              [Call.vkCreateSwapchainKHR s.renderer.m_device.logical info result swapchain] } := by
  unfold VulkanRenderer.createSwapChain
  simp only [h]
  exact ⟨_, _, _, rfl, rfl, rfl, rfl, rfl, rfl⟩

/-- The behaviour of `createSwapChain` is undefined only when `getBestSurfaceFormat` reads
the first entry of an empty list. -/
theorem createSwapChain_defined (p : Platform) (s : Machine) (format : VkSurfaceFormatKHR)
    (h : VulkanRenderer.getBestSurfaceFormat
      (VulkanRenderer.getSwapchainDetails p s.renderer s.renderer.m_device.physical).formats =
        some format) :
    (VulkanRenderer.createSwapChain p s).2 ≠ Completion.undefined := by
  obtain ⟨info, result, swapchain, _, _, _, _, _, heq⟩ := createSwapChain_eq p s format h
  rw [heq]
  exact createSwapChainImages_defined _ _ _

/-- The `vkCreateDevice` call of `createLogicalDevice`: the first call it makes, with one
entry of queue count 1 for each element of the set of the two family indices. -/
theorem createLogicalDevice_call (p : Platform) (s : Machine) :
    ∃ result device rest,
      (VulkanRenderer.createLogicalDevice p s).1.calls = s.calls ++
        Call.vkCreateDevice s.renderer.m_device.physical
          { queueCreateInfos :=
              (intSet
                (VulkanRenderer.getQueueFamilies p s.renderer
                  s.renderer.m_device.physical).graphicsFamily
                (VulkanRenderer.getQueueFamilies p s.renderer
                  s.renderer.m_device.physical).presentationFamily).map
                (fun index => { queueFamilyIndex := toUInt32 index, queueCount := 1 }),
            enabledExtensionNames := DEVICE_EXTENSIONS }
          result device :: rest := by
  unfold VulkanRenderer.createLogicalDevice
  simp only []
  split
  · exact ⟨_, _, [], rfl⟩
  · exact ⟨_, _, _, by simp only [List.append_assoc, List.singleton_append]; rfl⟩

/-- The family indices that `getQueueFamilies` returns are -1 or indices into the family
list. -/
theorem getQueueFamilies_range (p : Platform) (r : VulkanRenderer) (dev : Handle)
    (hcount : (p.vkGetPhysicalDeviceQueueFamilyProperties dev).length < 2 ^ 31) :
    -1 ≤ (VulkanRenderer.getQueueFamilies p r dev).graphicsFamily ∧
    (VulkanRenderer.getQueueFamilies p r dev).graphicsFamily < 2 ^ 31 ∧
    -1 ≤ (VulkanRenderer.getQueueFamilies p r dev).presentationFamily ∧
    (VulkanRenderer.getQueueFamilies p r dev).presentationFamily < 2 ^ 31 := by
  have hspec := getQueueFamiliesLoop_spec p dev r.m_surface.surface
    (p.vkGetPhysicalDeviceQueueFamilyProperties dev) 0 {} (by omega)
  simp only [Nat.cast_zero, Nat.zero_add] at hspec
  unfold VulkanRenderer.getQueueFamilies
  generalize getQueueFamiliesLoop p dev r.m_surface.surface
    (p.vkGetPhysicalDeviceQueueFamilyProperties dev) 0 {} = result at hspec ⊢
  obtain ⟨hg, hp, _, _, _, _⟩ := hspec
  have hg2 : -1 ≤ result.graphicsFamily ∧ result.graphicsFamily < 2 ^ 31 := by
    rcases hg with h | ⟨n, h, q, hq, _⟩
    · rw [h]; decide
    · have hn := (List.getElem?_eq_some_iff.1 hq).1
      rw [h]
      constructor
      · have := Int.natCast_nonneg n
        omega
      · have : (n : Int) < ((2 ^ 31 : Nat) : Int) := by exact_mod_cast (by omega : n < 2 ^ 31)
        simpa using this
  have hp2 : -1 ≤ result.presentationFamily ∧ result.presentationFamily < 2 ^ 31 := by
    rcases hp with h | ⟨n, q, h, hq, _⟩
    · rw [h]; decide
    · have hn := (List.getElem?_eq_some_iff.1 hq).1
      rw [h]
      constructor
      · have := Int.natCast_nonneg n
        omega
      · have : (n : Int) < ((2 ^ 31 : Nat) : Int) := by exact_mod_cast (by omega : n < 2 ^ 31)
        simpa using this
  exact ⟨hg2.1, hg2.2, hp2.1, hp2.2⟩

/-- Distinct `int` values from -1 up convert to distinct `uint32_t` values. -/
theorem toUInt32_ne (a b : Int) (ha : -1 ≤ a ∧ a < 2 ^ 31) (hb : -1 ≤ b ∧ b < 2 ^ 31)
    (hne : a ≠ b) : toUInt32 a ≠ toUInt32 b := by
  unfold toUInt32
  intro h
  have h1 : (0 : Int) ≤ a % 2 ^ 32 := Int.emod_nonneg a (by norm_num)
  have h2 : (0 : Int) ≤ b % 2 ^ 32 := Int.emod_nonneg b (by norm_num)
  have h3 : a % 2 ^ 32 = b % 2 ^ 32 := by
    have := congrArg (fun n : Nat => (n : Int)) h
    simp only [Int.toNat_of_nonneg h1, Int.toNat_of_nonneg h2] at this
    exact this
  apply hne
  obtain ⟨ha1, ha2⟩ := ha
  obtain ⟨hb1, hb2⟩ := hb
  norm_num at ha2 hb2 h3
  omega

/-- The image view loop of `createSwapChain` adds calls at the end and removes none,
however it ends. -/
theorem createSwapChainImages_calls (p : Platform) (images : List Handle) :
    ∀ s : Machine, ∃ rest, (createSwapChainImages p images s).1.calls = s.calls ++ rest := by
  induction images with
  | nil => intro s; exact ⟨[], by simp [createSwapChainImages]⟩
  | cons img rest ih =>
    intro s
    simp only [createSwapChainImages, VulkanRenderer.createImageView]
    generalize p.vkCreateImageView _ _ _ = created
    obtain ⟨result, view⟩ := created
    by_cases hresult : result = VK_SUCCESS
    · subst hresult
      simp only [ne_eq, not_true_eq_false, if_false]
      obtain ⟨more, hmore⟩ := ih
        { renderer :=
            { s.renderer with
              m_swapchainImages := s.renderer.m_swapchainImages ++ [⟨img, view⟩] },
          calls := s.calls ++
            [Call.vkCreateImageView s.renderer.m_device.logical
              { image := img, viewType := VK_IMAGE_VIEW_TYPE_2D,
                format := s.renderer.m_surface.format,
                aspectMask := VK_IMAGE_ASPECT_COLOR_BIT } VK_SUCCESS view] }
      exact ⟨_, by rw [hmore, List.append_assoc]⟩
    · simp only [ne_eq, hresult, not_false_eq_true, if_true]
      exact ⟨_, rfl⟩

/-- The first call of `createSwapChain`, when `getBestSurfaceFormat` has a result, is the
`vkCreateSwapchainKHR` call, with the image count, the format and the sharing mode that the
function has chosen. -/
theorem createSwapChain_create_call (p : Platform) (s : Machine) (format : VkSurfaceFormatKHR)
    (h : VulkanRenderer.getBestSurfaceFormat
      (VulkanRenderer.getSwapchainDetails p s.renderer s.renderer.m_device.physical).formats =
        some format) :
    ∃ info result swapchain rest,
      (VulkanRenderer.createSwapChain p s).1.calls = s.calls ++
        Call.vkCreateSwapchainKHR s.renderer.m_device.logical info result swapchain :: rest ∧
      info.minImageCount = requestedImageCount
        (VulkanRenderer.getSwapchainDetails p s.renderer
          s.renderer.m_device.physical).surfaceCapabilities ∧
      info.imageFormat = format.format ∧
      info.imageSharingMode =
        (if (VulkanRenderer.getQueueFamilies p s.renderer
              s.renderer.m_device.physical).graphicsFamily ≠
            (VulkanRenderer.getQueueFamilies p s.renderer
              s.renderer.m_device.physical).presentationFamily
          then VK_SHARING_MODE_CONCURRENT else VK_SHARING_MODE_EXCLUSIVE) ∧
      info.queueFamilyIndices =
        (if (VulkanRenderer.getQueueFamilies p s.renderer
              s.renderer.m_device.physical).graphicsFamily ≠
            (VulkanRenderer.getQueueFamilies p s.renderer
              s.renderer.m_device.physical).presentationFamily
          then [p.danglingQueueIndices.1, p.danglingQueueIndices.2]
          else []) := by
  obtain ⟨info, result, swapchain, _, hcount, hformat, hmode, hindices, heq⟩ :=
    createSwapChain_eq p s format h
  rw [heq]
  obtain ⟨rest, hrest⟩ := createSwapChainImages_calls p
    (p.vkGetSwapchainImagesKHR s.renderer.m_device.logical swapchain)
    { renderer :=
        { s.renderer with
          m_surface :=
            { surface := s.renderer.m_surface.surface,
              format := format.format,
              extent := VulkanRenderer.getBestSwapchainExtent p s.renderer
                (VulkanRenderer.getSwapchainDetails p s.renderer
                  s.renderer.m_device.physical).surfaceCapabilities },
          m_swapchain := swapchain },
      calls := s.calls ++
        [Call.vkCreateSwapchainKHR s.renderer.m_device.logical info result swapchain] }
  refine ⟨info, result, swapchain, rest, ?_, hcount, hformat, hmode, hindices⟩
  rw [hrest, List.append_assoc]
  rfl

/-! ## The number of swapchain images requested -/

/-- C23. For every capability record with `minImageCount < 2^32-1`, the image count that
`createSwapChain` requests is `min(minImageCount+1, maxImageCount)` when `maxImageCount` is
not zero and `minImageCount+1` when it is zero.  It does not exceed a non-zero
`maxImageCount`, and it is not below `minImageCount` when `minImageCount ≤ maxImageCount`.
It is the `minImageCount` of the `vkCreateSwapchainKHR` call that `createSwapChain` makes
with the capabilities of the surface. -/
theorem requested_image_count (p : Platform) (s : Machine)
    (capabilities : VkSurfaceCapabilitiesKHR)
    (hmin : capabilities.minImageCount < 2 ^ 32 - 1) :
    requestedImageCount capabilities =
      (if capabilities.maxImageCount ≠ 0 then
        min (capabilities.minImageCount + 1) capabilities.maxImageCount
      else capabilities.minImageCount + 1) ∧
    (capabilities.maxImageCount ≠ 0 →
      requestedImageCount capabilities ≤ capabilities.maxImageCount) ∧
    (capabilities.minImageCount ≤ capabilities.maxImageCount →
      capabilities.minImageCount ≤ requestedImageCount capabilities) ∧
    (∀ format,
      VulkanRenderer.getBestSurfaceFormat
        (VulkanRenderer.getSwapchainDetails p s.renderer s.renderer.m_device.physical).formats =
          some format →
      (VulkanRenderer.getSwapchainDetails p s.renderer
        s.renderer.m_device.physical).surfaceCapabilities = capabilities →
      ∃ info result swapchain rest,
        (VulkanRenderer.createSwapChain p s).1.calls = s.calls ++
          Call.vkCreateSwapchainKHR s.renderer.m_device.logical info result swapchain :: rest ∧
        info.minImageCount = requestedImageCount capabilities) := by
  have hmod : (capabilities.minImageCount + 1) % 2 ^ 32 = capabilities.minImageCount + 1 :=
    Nat.mod_eq_of_lt (by omega)
  have hvalue : requestedImageCount capabilities =
      (if capabilities.maxImageCount ≠ 0 then
        min (capabilities.minImageCount + 1) capabilities.maxImageCount
      else capabilities.minImageCount + 1) := by
    unfold requestedImageCount
    simp only [hmod]
    by_cases hmax : capabilities.maxImageCount = 0
    · simp [hmax]
    · simp only [ne_eq, hmax, not_false_eq_true, true_and, if_true]
      split
      · rw [Nat.min_eq_right (by omega)]
      · rw [Nat.min_eq_left (by omega)]
  refine ⟨hvalue, ?_, ?_, ?_⟩
  · intro hmax
    rw [hvalue, if_pos hmax]
    exact Nat.min_le_right _ _
  · intro hle
    rw [hvalue]
    split
    · exact Nat.le_min.2 ⟨by omega, hle⟩
    · omega
  · intro format hformat hcaps
    obtain ⟨info, result, swapchain, rest, hcalls, hcount, _⟩ :=
      createSwapChain_create_call p s format hformat
    exact ⟨info, result, swapchain, rest, hcalls, by rw [hcount, hcaps]⟩

/-- On `okPlatform` the surface has two to three images: three are requested, and the
`vkCreateSwapchainKHR` call carries that count. -/
theorem requested_image_count_witness :
    (2 : Nat) < 2 ^ 32 - 1 ∧
    requestedImageCount ⟨2, 3, ⟨800, 600⟩, ⟨1, 1⟩, ⟨4096, 4096⟩, 1⟩ = 3 ∧
    requestedImageCount ⟨2, 3, ⟨800, 600⟩, ⟨1, 1⟩, ⟨4096, 4096⟩, 1⟩ ≤ 3 ∧
    ∃ info result swapchain rest,
      (VulkanRenderer.createSwapChain okPlatform deviceMachine).1.calls = deviceMachine.calls ++
        Call.vkCreateSwapchainKHR deviceMachine.renderer.m_device.logical info result
          swapchain :: rest ∧
      info.minImageCount = requestedImageCount ⟨2, 3, ⟨800, 600⟩, ⟨1, 1⟩, ⟨4096, 4096⟩, 1⟩ :=
  ⟨by decide, by decide,
    (requested_image_count okPlatform deviceMachine ⟨2, 3, ⟨800, 600⟩, ⟨1, 1⟩, ⟨4096, 4096⟩, 1⟩
      (by decide)).2.1 (by decide),
    (requested_image_count okPlatform deviceMachine ⟨2, 3, ⟨800, 600⟩, ⟨1, 1⟩, ⟨4096, 4096⟩, 1⟩
      (by decide)).2.2.2 ⟨44, 0⟩ (by decide) (by decide)⟩

/-! ## One queue per family -/

/-- On a device whose family count fits the `int` counter, the `vkCreateDevice` call of
`createLogicalDevice` has one queue-create entry when the graphics and the presentation
family index are equal and two when they differ; each entry has queue count 1, no family
index occurs twice, and the indices are those of the two families.  The
`vkCreateSwapchainKHR` call of `createSwapChain` on the same device and surface has
exclusive sharing with no index when the families are equal; when they differ it has
concurrent sharing, and the two indices it reads are those found where the array
`queueIndices` was. -/
theorem one_queue_per_family (p : Platform) (s : Machine)
    (hcount : (p.vkGetPhysicalDeviceQueueFamilyProperties
      s.renderer.m_device.physical).length < 2 ^ 31) :
    (∃ info result device rest,
      (VulkanRenderer.createLogicalDevice p s).1.calls = s.calls ++
        Call.vkCreateDevice s.renderer.m_device.physical info result device :: rest ∧
      info.queueCreateInfos.length =
        (if (VulkanRenderer.getQueueFamilies p s.renderer
              s.renderer.m_device.physical).graphicsFamily =
            (VulkanRenderer.getQueueFamilies p s.renderer
              s.renderer.m_device.physical).presentationFamily then 1 else 2) ∧
      (∀ queueInfo ∈ info.queueCreateInfos, queueInfo.queueCount = 1) ∧
      (info.queueCreateInfos.map VkDeviceQueueCreateInfo.queueFamilyIndex).Nodup ∧
      (∀ index, index ∈ info.queueCreateInfos.map VkDeviceQueueCreateInfo.queueFamilyIndex ↔
        index = toUInt32 (VulkanRenderer.getQueueFamilies p s.renderer
          s.renderer.m_device.physical).graphicsFamily ∨
        index = toUInt32 (VulkanRenderer.getQueueFamilies p s.renderer
          s.renderer.m_device.physical).presentationFamily)) ∧
    (∀ format,
      VulkanRenderer.getBestSurfaceFormat
        (VulkanRenderer.getSwapchainDetails p s.renderer s.renderer.m_device.physical).formats =
          some format →
      ∃ info result swapchain rest,
        (VulkanRenderer.createSwapChain p s).1.calls = s.calls ++
          Call.vkCreateSwapchainKHR s.renderer.m_device.logical info result swapchain :: rest ∧
        ((VulkanRenderer.getQueueFamilies p s.renderer
              s.renderer.m_device.physical).graphicsFamily ≠
            (VulkanRenderer.getQueueFamilies p s.renderer
              s.renderer.m_device.physical).presentationFamily →
          info.imageSharingMode = VK_SHARING_MODE_CONCURRENT ∧
          info.queueFamilyIndices =
            [p.danglingQueueIndices.1, p.danglingQueueIndices.2]) ∧
        ((VulkanRenderer.getQueueFamilies p s.renderer
              s.renderer.m_device.physical).graphicsFamily =
            (VulkanRenderer.getQueueFamilies p s.renderer
              s.renderer.m_device.physical).presentationFamily →
          info.imageSharingMode = VK_SHARING_MODE_EXCLUSIVE ∧
          info.queueFamilyIndices = [])) := by
  obtain ⟨hg1, hg2, hp1, hp2⟩ :=
    getQueueFamilies_range p s.renderer s.renderer.m_device.physical hcount
  constructor
  · obtain ⟨result, device, rest, hcalls⟩ := createLogicalDevice_call p s
    refine ⟨_, result, device, rest, hcalls, ?_, ?_, ?_, ?_⟩
    · simp only [List.length_map, intSet]
      split
      · rfl
      · split <;> rfl
    · intro queueInfo hmem
      simp only [List.mem_map] at hmem
      obtain ⟨index, _, rfl⟩ := hmem
      rfl
    · simp only [List.map_map, intSet]
      split
      · simp
      · rename_i hne
        have hne2 := toUInt32_ne _ _ ⟨hg1, hg2⟩ ⟨hp1, hp2⟩ hne
        split
        · simp [hne2]
        · simp [Ne.symm hne2]
    · intro index
      simp only [List.map_map, intSet]
      split
      · rename_i heq
        simp [heq]
      · split
        · simp
        · simp [or_comm]
  · intro format hformat
    obtain ⟨info, result, swapchain, rest, hcalls, _, _, hmode, hindices⟩ :=
      createSwapChain_create_call p s format hformat
    refine ⟨info, result, swapchain, rest, hcalls, ?_, ?_⟩
    · intro hne
      rw [hmode, hindices, if_pos hne, if_pos hne]
      exact ⟨rfl, rfl⟩
    · intro heq
      rw [hmode, hindices, if_neg (not_not.2 heq), if_neg (not_not.2 heq)]
      exact ⟨rfl, rfl⟩

/-- On `splitQueuePlatform` the graphics family is 1 and the presentation family is 2: the
device is created with two queue-create entries, for the families 1 and 2. -/
theorem one_queue_per_family_witness :
    (splitQueuePlatform.vkGetPhysicalDeviceQueueFamilyProperties
      splitQueueMachine.renderer.m_device.physical).length < 2 ^ 31 ∧
    VulkanRenderer.getQueueFamilies splitQueuePlatform splitQueueMachine.renderer
      splitQueueMachine.renderer.m_device.physical = ⟨1, 2⟩ ∧
    (VulkanRenderer.createLogicalDevice splitQueuePlatform splitQueueMachine).1.calls.drop
      splitQueueMachine.calls.length =
      [Call.vkCreateDevice 2 ⟨[⟨1, 1⟩, ⟨2, 1⟩], DEVICE_EXTENSIONS⟩ VK_SUCCESS 30,
        Call.vkGetDeviceQueue 30 1 0 32, Call.vkGetDeviceQueue 30 2 0 33] ∧
    (∃ info result device rest,
      (VulkanRenderer.createLogicalDevice splitQueuePlatform splitQueueMachine).1.calls =
        splitQueueMachine.calls ++
          Call.vkCreateDevice splitQueueMachine.renderer.m_device.physical info result device ::
            rest ∧
      info.queueCreateInfos.length =
        (if (VulkanRenderer.getQueueFamilies splitQueuePlatform splitQueueMachine.renderer
              splitQueueMachine.renderer.m_device.physical).graphicsFamily =
            (VulkanRenderer.getQueueFamilies splitQueuePlatform splitQueueMachine.renderer
              splitQueueMachine.renderer.m_device.physical).presentationFamily then 1 else 2) ∧
      (∀ queueInfo ∈ info.queueCreateInfos, queueInfo.queueCount = 1) ∧
      (info.queueCreateInfos.map VkDeviceQueueCreateInfo.queueFamilyIndex).Nodup ∧
      (∀ index, index ∈ info.queueCreateInfos.map VkDeviceQueueCreateInfo.queueFamilyIndex ↔
        index = toUInt32 (VulkanRenderer.getQueueFamilies splitQueuePlatform
          splitQueueMachine.renderer splitQueueMachine.renderer.m_device.physical).graphicsFamily ∨
        index = toUInt32 (VulkanRenderer.getQueueFamilies splitQueuePlatform
          splitQueueMachine.renderer
          splitQueueMachine.renderer.m_device.physical).presentationFamily)) :=
  ⟨by decide, by decide, by decide,
    (one_queue_per_family splitQueuePlatform splitQueueMachine (by decide)).1⟩

/-! ## The swapchain images -/

/-- C27. When `createSwapChain` returns on a renderer whose list of swapchain images was
empty, its calls are the `vkCreateSwapchainKHR` call followed by one successful
`vkCreateImageView` call for each entry of `m_swapchainImages`, in order, each for the
image of the entry, yielding the view of the entry, with the format stored in
`m_surface.format`.  The images of the entries are the images that the swapchain reports,
in the reported order, and `m_surface.format` is the image format of the
`vkCreateSwapchainKHR` call. -/
theorem swapchain_images_match (p : Platform) (s s' : Machine)
    (hempty : s.renderer.m_swapchainImages = [])
    (h : VulkanRenderer.createSwapChain p s = (s', Completion.returned ())) :
    ∃ info result,
      s'.calls = s.calls ++
        Call.vkCreateSwapchainKHR s.renderer.m_device.logical info result
            s'.renderer.m_swapchain ::
          s'.renderer.m_swapchainImages.map
            (imageViewCall s.renderer.m_device.logical s'.renderer.m_surface.format) ∧
      s'.renderer.m_swapchainImages.map SwapchainImage.image =
        p.vkGetSwapchainImagesKHR s.renderer.m_device.logical s'.renderer.m_swapchain ∧
      s'.renderer.m_swapchainImages.length =
        (p.vkGetSwapchainImagesKHR s.renderer.m_device.logical
          s'.renderer.m_swapchain).length ∧
      info.imageFormat = s'.renderer.m_surface.format := by
  rcases hformat : VulkanRenderer.getBestSurfaceFormat
      (VulkanRenderer.getSwapchainDetails p s.renderer
        s.renderer.m_device.physical).formats with _ | format
  · unfold VulkanRenderer.createSwapChain at h
    simp only [hformat] at h
    simp at h
  · obtain ⟨info, result, swapchain, _, _, himage, _, _, heq⟩ :=
      createSwapChain_eq p s format hformat
    rw [heq] at h
    obtain ⟨entries, hmap, hrenderer, hcalls⟩ := createSwapChainImages_returned p _ _ _ h
    simp only [hempty, List.nil_append] at hrenderer
    have hswap : s'.renderer.m_swapchain = swapchain := by rw [hrenderer]
    have himages : s'.renderer.m_swapchainImages = entries := by rw [hrenderer]
    have hfmt : s'.renderer.m_surface.format = format.format := by rw [hrenderer]
    refine ⟨info, result, ?_, ?_, ?_, ?_⟩
    · rw [hcalls, hswap, himages, hfmt, List.append_assoc]
      rfl
    · rw [himages, hswap, hmap]
    · rw [himages, hswap, ← hmap, List.length_map]
    · rw [himage, hfmt]

/-- On `okPlatform` the swapchain reports the images 61, 62 and 63: `createSwapChain`
returns with one entry for each, in this order, with the views 70, 80 and 90. -/
theorem swapchain_images_match_witness :
    deviceMachine.renderer.m_swapchainImages = [] ∧
    (VulkanRenderer.createSwapChain okPlatform deviceMachine).2 = Completion.returned () ∧
    (VulkanRenderer.createSwapChain okPlatform deviceMachine).1.renderer.m_swapchainImages =
      [⟨61, 70⟩, ⟨62, 80⟩, ⟨63, 90⟩] ∧
    ∃ info result,
      (VulkanRenderer.createSwapChain okPlatform deviceMachine).1.calls =
        deviceMachine.calls ++
          Call.vkCreateSwapchainKHR deviceMachine.renderer.m_device.logical info result
              (VulkanRenderer.createSwapChain okPlatform deviceMachine).1.renderer.m_swapchain ::
            (VulkanRenderer.createSwapChain okPlatform deviceMachine).1.renderer.m_swapchainImages.map
              (imageViewCall deviceMachine.renderer.m_device.logical
                (VulkanRenderer.createSwapChain okPlatform
                  deviceMachine).1.renderer.m_surface.format) ∧
      (VulkanRenderer.createSwapChain okPlatform deviceMachine).1.renderer.m_swapchainImages.map
          SwapchainImage.image =
        okPlatform.vkGetSwapchainImagesKHR deviceMachine.renderer.m_device.logical
          (VulkanRenderer.createSwapChain okPlatform deviceMachine).1.renderer.m_swapchain ∧
      (VulkanRenderer.createSwapChain okPlatform
          deviceMachine).1.renderer.m_swapchainImages.length =
        (okPlatform.vkGetSwapchainImagesKHR deviceMachine.renderer.m_device.logical
          (VulkanRenderer.createSwapChain okPlatform
            deviceMachine).1.renderer.m_swapchain).length ∧
      info.imageFormat =
        (VulkanRenderer.createSwapChain okPlatform deviceMachine).1.renderer.m_surface.format :=
  ⟨by decide, by decide, by decide,
    swapchain_images_match okPlatform deviceMachine
      (VulkanRenderer.createSwapChain okPlatform deviceMachine).1 (by decide) (by decide)⟩

/-! ## Suitable devices -/

/-- C28. `checkPhysicalDevice` is true if and only if `getQueueFamilies` is valid for the
device, `checkDeviceExtensionSupport` is true, the list of surface formats is not empty and
the list of present modes is not empty.  `checkDeviceExtensionSupport` is true if and only
if the device reports at least one extension and every name of `DEVICE_EXTENSIONS` is among
the reported names.  For a device that `checkPhysicalDevice` accepts, `createSwapChain` on
that device and the same surface calls `getBestSurfaceFormat` on a non-empty list: the call
has a result, and the behaviour of `createSwapChain` is defined. -/
theorem checkPhysicalDevice_iff (p : Platform) (r : VulkanRenderer) (device : Handle) :
    (VulkanRenderer.checkPhysicalDevice p r device = true ↔
      (VulkanRenderer.getQueueFamilies p r device).isValid = true ∧
      VulkanRenderer.checkDeviceExtensionSupport p device = true ∧
      (VulkanRenderer.getSwapchainDetails p r device).formats ≠ [] ∧
      (VulkanRenderer.getSwapchainDetails p r device).presentModes ≠ []) ∧
    (VulkanRenderer.checkDeviceExtensionSupport p device = true ↔
      p.vkEnumerateDeviceExtensionProperties device ≠ [] ∧
      ∀ ext ∈ DEVICE_EXTENSIONS, ext ∈ p.vkEnumerateDeviceExtensionProperties device) ∧
    (VulkanRenderer.checkPhysicalDevice p r device = true →
      ∀ s : Machine, s.renderer.m_device.physical = device →
        s.renderer.m_surface.surface = r.m_surface.surface →
        (VulkanRenderer.getSwapchainDetails p s.renderer
          s.renderer.m_device.physical).formats ≠ [] ∧
        (∃ format, VulkanRenderer.getBestSurfaceFormat
          (VulkanRenderer.getSwapchainDetails p s.renderer
            s.renderer.m_device.physical).formats = some format) ∧
        (VulkanRenderer.createSwapChain p s).2 ≠ Completion.undefined) := by
  have hcheck : VulkanRenderer.checkPhysicalDevice p r device = true ↔
      (VulkanRenderer.getQueueFamilies p r device).isValid = true ∧
      VulkanRenderer.checkDeviceExtensionSupport p device = true ∧
      (VulkanRenderer.getSwapchainDetails p r device).formats ≠ [] ∧
      (VulkanRenderer.getSwapchainDetails p r device).presentModes ≠ [] := by
    unfold VulkanRenderer.checkPhysicalDevice
    simp only [Bool.true_and, Bool.and_eq_true, Bool.not_eq_true', List.isEmpty_eq_false_iff_exists_mem,
      ne_eq, and_assoc]
    constructor
    · rintro ⟨h1, h2, ⟨f, hf⟩, ⟨m, hm⟩⟩
      exact ⟨h1, h2, List.ne_nil_of_mem hf, List.ne_nil_of_mem hm⟩
    · rintro ⟨h1, h2, h3, h4⟩
      exact ⟨h1, h2, List.exists_mem_of_ne_nil _ h3, List.exists_mem_of_ne_nil _ h4⟩
  refine ⟨hcheck, ?_, ?_⟩
  · unfold VulkanRenderer.checkDeviceExtensionSupport
    simp only []
    cases hlist : p.vkEnumerateDeviceExtensionProperties device with
    | nil => simp
    | cons first rest =>
      simp only [List.length_cons, Nat.add_one_ne_zero, beq_iff_eq, if_false, ne_eq,
        reduceCtorEq, not_false_eq_true, true_and]
      exact checkExtensions_iff _ _
  · intro haccept s hdevice hsurface
    obtain ⟨_, _, hformats, _⟩ := hcheck.1 haccept
    have hsame : (VulkanRenderer.getSwapchainDetails p s.renderer
        s.renderer.m_device.physical).formats =
        (VulkanRenderer.getSwapchainDetails p r device).formats := by
      simp only [VulkanRenderer.getSwapchainDetails, hdevice, hsurface]
    have hne : (VulkanRenderer.getSwapchainDetails p s.renderer
        s.renderer.m_device.physical).formats ≠ [] := by
      rw [hsame]; exact hformats
    have hsome : ∃ format, VulkanRenderer.getBestSurfaceFormat
        (VulkanRenderer.getSwapchainDetails p s.renderer
          s.renderer.m_device.physical).formats = some format := by
      by_cases hundef : ∃ only, (VulkanRenderer.getSwapchainDetails p s.renderer
          s.renderer.m_device.physical).formats = [only] ∧ only.format = VK_FORMAT_UNDEFINED
      · obtain ⟨only, h1, h2⟩ := hundef
        exact ⟨_, (getBestSurfaceFormat_choice _).1 only h1 h2⟩
      · obtain ⟨format, hf, _⟩ := ((getBestSurfaceFormat_choice _).2 hne hundef).2.2
        exact ⟨format, hf⟩
    obtain ⟨format, hf⟩ := hsome
    exact ⟨hne, ⟨format, hf⟩, createSwapChain_defined p s format hf⟩

/-- On `okPlatform` the device `2` is accepted, and `createSwapChain` on it finds the
format of the surface; on `unsuitableDevicePlatform` the same device is rejected. -/
theorem checkPhysicalDevice_iff_witness :
    VulkanRenderer.checkPhysicalDevice okPlatform deviceMachine.renderer 2 = true ∧
    VulkanRenderer.checkPhysicalDevice unsuitableDevicePlatform deviceMachine.renderer 2 =
      false ∧
    (VulkanRenderer.getSwapchainDetails okPlatform deviceMachine.renderer
      deviceMachine.renderer.m_device.physical).formats ≠ [] ∧
    (∃ format, VulkanRenderer.getBestSurfaceFormat
      (VulkanRenderer.getSwapchainDetails okPlatform deviceMachine.renderer
        deviceMachine.renderer.m_device.physical).formats = some format) ∧
    (VulkanRenderer.createSwapChain okPlatform deviceMachine).2 ≠ Completion.undefined :=
  ⟨by decide, by decide,
    (checkPhysicalDevice_iff okPlatform deviceMachine.renderer 2).2.2 (by decide)
      deviceMachine (by decide) rfl⟩

/-! ## The order of destruction -/

/-- The order of calls in a list of the shape that `destroy` produces. -/
theorem precedes_in_destroy_shape (pipeline layout renderPass swapchain device surface inst : Call)
    (views : List Call) :
    Precedes pipeline device
      ([pipeline, layout, renderPass] ++ views ++ [swapchain, device, surface, inst]) ∧
    Precedes layout device
      ([pipeline, layout, renderPass] ++ views ++ [swapchain, device, surface, inst]) ∧
    Precedes renderPass device
      ([pipeline, layout, renderPass] ++ views ++ [swapchain, device, surface, inst]) ∧
    Precedes swapchain device
      ([pipeline, layout, renderPass] ++ views ++ [swapchain, device, surface, inst]) ∧
    (∀ view ∈ views,
      Precedes view swapchain
        ([pipeline, layout, renderPass] ++ views ++ [swapchain, device, surface, inst]) ∧
      Precedes view device
        ([pipeline, layout, renderPass] ++ views ++ [swapchain, device, surface, inst])) ∧
    Precedes device inst
      ([pipeline, layout, renderPass] ++ views ++ [swapchain, device, surface, inst]) ∧
    Precedes surface inst
      ([pipeline, layout, renderPass] ++ views ++ [swapchain, device, surface, inst]) := by
  refine ⟨?_, ?_, ?_, ?_, ?_, ?_, ?_⟩
  · exact ⟨[], [layout, renderPass] ++ views ++ [swapchain], [surface, inst], by simp⟩
  · exact ⟨[pipeline], [renderPass] ++ views ++ [swapchain], [surface, inst], by simp⟩
  · exact ⟨[pipeline, layout], views ++ [swapchain], [surface, inst], by simp⟩
  · exact ⟨[pipeline, layout, renderPass] ++ views, [], [surface, inst], by simp⟩
  · intro view hview
    obtain ⟨before, after, rfl⟩ := List.append_of_mem hview
    constructor
    · exact ⟨[pipeline, layout, renderPass] ++ before, after, [device, surface, inst], by simp⟩
    · exact ⟨[pipeline, layout, renderPass] ++ before, after ++ [swapchain], [surface, inst],
        by simp⟩
  · exact ⟨[pipeline, layout, renderPass] ++ views ++ [swapchain], [surface], [], by simp⟩
  · exact ⟨[pipeline, layout, renderPass] ++ views ++ [swapchain, device], [], [], by simp⟩

/-- C30. The calls of `VulkanRenderer::destroy`, in order: the pipeline, the pipeline
layout, the render pass, the image view of each entry of `m_swapchainImages` in list order,
the swapchain, the logical device, the surface, the instance.  So the pipeline, the layout,
the render pass, every image view and the swapchain are destroyed before the device, every
image view is destroyed before the swapchain, and the device and the surface are destroyed
before the instance.  There is one `vkDestroyImageView` call for each entry of the list,
and when the views of the entries are pairwise distinct, each view is destroyed exactly
once. -/
theorem destroy_children_first (s : Machine) :
    (VulkanRenderer.destroy s).calls = s.calls ++
      ([Call.vkDestroyPipeline s.renderer.m_device.logical s.renderer.m_gfxpipeline,
        Call.vkDestroyPipelineLayout s.renderer.m_device.logical s.renderer.m_pipelineLayout,
        Call.vkDestroyRenderPass s.renderer.m_device.logical s.renderer.m_renderpass] ++
      s.renderer.m_swapchainImages.map
        (fun image => Call.vkDestroyImageView s.renderer.m_device.logical image.imageView) ++
      [Call.vkDestroySwapchainKHR s.renderer.m_device.logical s.renderer.m_swapchain,
        Call.vkDestroyDevice s.renderer.m_device.logical,
        Call.vkDestroySurfaceKHR s.renderer.m_instance s.renderer.m_surface.surface,
        Call.vkDestroyInstance s.renderer.m_instance]) ∧
    Precedes (Call.vkDestroyPipeline s.renderer.m_device.logical s.renderer.m_gfxpipeline)
      (Call.vkDestroyDevice s.renderer.m_device.logical) (destroyCalls s.renderer) ∧
    Precedes
      (Call.vkDestroyPipelineLayout s.renderer.m_device.logical s.renderer.m_pipelineLayout)
      (Call.vkDestroyDevice s.renderer.m_device.logical) (destroyCalls s.renderer) ∧
    Precedes (Call.vkDestroyRenderPass s.renderer.m_device.logical s.renderer.m_renderpass)
      (Call.vkDestroyDevice s.renderer.m_device.logical) (destroyCalls s.renderer) ∧
    Precedes (Call.vkDestroySwapchainKHR s.renderer.m_device.logical s.renderer.m_swapchain)
      (Call.vkDestroyDevice s.renderer.m_device.logical) (destroyCalls s.renderer) ∧
    (∀ image ∈ s.renderer.m_swapchainImages,
      Precedes (Call.vkDestroyImageView s.renderer.m_device.logical image.imageView)
        (Call.vkDestroySwapchainKHR s.renderer.m_device.logical s.renderer.m_swapchain)
        (destroyCalls s.renderer) ∧
      Precedes (Call.vkDestroyImageView s.renderer.m_device.logical image.imageView)
        (Call.vkDestroyDevice s.renderer.m_device.logical) (destroyCalls s.renderer)) ∧
    Precedes (Call.vkDestroyDevice s.renderer.m_device.logical)
      (Call.vkDestroyInstance s.renderer.m_instance) (destroyCalls s.renderer) ∧
    Precedes (Call.vkDestroySurfaceKHR s.renderer.m_instance s.renderer.m_surface.surface)
      (Call.vkDestroyInstance s.renderer.m_instance) (destroyCalls s.renderer) ∧
    (destroyCalls s.renderer).filter Call.isImageViewDestroy =
      s.renderer.m_swapchainImages.map
        (fun image => Call.vkDestroyImageView s.renderer.m_device.logical image.imageView) ∧
    ((s.renderer.m_swapchainImages.map SwapchainImage.imageView).Nodup →
      ∀ image ∈ s.renderer.m_swapchainImages,
        (destroyCalls s.renderer).count
          (Call.vkDestroyImageView s.renderer.m_device.logical image.imageView) = 1) := by
  obtain ⟨h1, h2, h3, h4, h5, h6, h7⟩ := precedes_in_destroy_shape
    (Call.vkDestroyPipeline s.renderer.m_device.logical s.renderer.m_gfxpipeline)
    (Call.vkDestroyPipelineLayout s.renderer.m_device.logical s.renderer.m_pipelineLayout)
    (Call.vkDestroyRenderPass s.renderer.m_device.logical s.renderer.m_renderpass)
    (Call.vkDestroySwapchainKHR s.renderer.m_device.logical s.renderer.m_swapchain)
    (Call.vkDestroyDevice s.renderer.m_device.logical)
    (Call.vkDestroySurfaceKHR s.renderer.m_instance s.renderer.m_surface.surface)
    (Call.vkDestroyInstance s.renderer.m_instance)
    (s.renderer.m_swapchainImages.map
      (fun image => Call.vkDestroyImageView s.renderer.m_device.logical image.imageView))
  refine ⟨rfl, h1, h2, h3, h4, ?_, h6, h7, ?_, ?_⟩
  · intro image himage
    exact h5 _ (List.mem_map.2 ⟨image, himage, rfl⟩)
  · simp only [destroyCalls, List.filter_append, List.filter_cons, List.filter_nil,
      Call.isImageViewDestroy, Bool.false_eq_true, if_false, List.nil_append, List.append_nil]
    rw [List.filter_eq_self]
    intro call hcall
    obtain ⟨image, _, rfl⟩ := List.mem_map.1 hcall
    rfl
  · intro hnodup image himage
    have hinj : (s.renderer.m_swapchainImages.map
        (fun image => Call.vkDestroyImageView s.renderer.m_device.logical
          image.imageView)).Nodup := by
      have hcomp : s.renderer.m_swapchainImages.map
          (fun image => Call.vkDestroyImageView s.renderer.m_device.logical image.imageView) =
          (s.renderer.m_swapchainImages.map SwapchainImage.imageView).map
            (fun view => Call.vkDestroyImageView s.renderer.m_device.logical view) := by
        rw [List.map_map]
        rfl
      rw [hcomp]
      apply List.Nodup.map _ hnodup
      intro a b hab
      simpa using hab
    have hmem : Call.vkDestroyImageView s.renderer.m_device.logical image.imageView ∈
        s.renderer.m_swapchainImages.map
          (fun image => Call.vkDestroyImageView s.renderer.m_device.logical image.imageView) :=
      List.mem_map.2 ⟨image, himage, rfl⟩
    simp only [destroyCalls, List.count_append, List.count_cons, List.count_nil,
      List.count_eq_one_of_mem hinj hmem]
    simp

/-- On the renderer that `init` leaves on `okPlatform` the three views 70, 80 and 90 are
distinct, and each is destroyed once, before the swapchain 60 and the device 30. -/
theorem destroy_children_first_witness :
    initialisedMachine.renderer.m_swapchainImages = [⟨61, 70⟩, ⟨62, 80⟩, ⟨63, 90⟩] ∧
    destroyCalls initialisedMachine.renderer =
      [Call.vkDestroyPipeline 30 140, Call.vkDestroyPipelineLayout 30 130,
        Call.vkDestroyRenderPass 30 120, Call.vkDestroyImageView 30 70,
        Call.vkDestroyImageView 30 80, Call.vkDestroyImageView 30 90,
        Call.vkDestroySwapchainKHR 30 60, Call.vkDestroyDevice 30,
        Call.vkDestroySurfaceKHR 10 20, Call.vkDestroyInstance 10] ∧
    (initialisedMachine.renderer.m_swapchainImages.map SwapchainImage.imageView).Nodup ∧
    ∀ image ∈ initialisedMachine.renderer.m_swapchainImages,
      (destroyCalls initialisedMachine.renderer).count
        (Call.vkDestroyImageView initialisedMachine.renderer.m_device.logical
          image.imageView) = 1 :=
  ⟨by decide, by decide, by decide,
    (destroy_children_first initialisedMachine).2.2.2.2.2.2.2.2.2 (by decide)⟩

/-! ## A mapping that fails -/

/-- C6 fails on the code.  On `mapFailedDriver` every mapping of memory reports
`VK_ERROR_MEMORY_MAP_FAILED`.  The constructor creates the staging buffer `1` with the
memory `3` and maps the memory; the mapping fails, and the constructor does not raise: its
next statement copies the vertices through the pointer that the mapping has not set, and
the behaviour is undefined from there. -/
theorem failed_mapping_not_raised :
    Mesh.new mapFailedDriver [] 7 8 triangleVertices triangleIndices =
      ([Event.vkCreateBuffer ⟨72, 1, 0⟩ VK_SUCCESS 1,
        Event.vkGetBufferMemoryRequirements 1 ⟨72, 1, 3⟩,
        Event.vkAllocateMemory ⟨72, 1⟩ VK_SUCCESS 3,
        Event.vkBindBufferMemory 1 3 0 VK_SUCCESS,
        Event.vkMapMemory 3 0 72 0 VK_ERROR_MEMORY_MAP_FAILED],
       Outcome.undefined) ∧
    (Event.vkMapMemory 3 0 72 0 VK_ERROR_MEMORY_MAP_FAILED).failed = true ∧
    ¬ ∃ e, (Mesh.new mapFailedDriver [] 7 8 triangleVertices triangleIndices).2 =
      Outcome.raised e := by
  refine ⟨by decide, by decide, ?_⟩
  rintro ⟨e, he⟩
  have h : (Mesh.new mapFailedDriver [] 7 8 triangleVertices triangleIndices).2 =
      Outcome.undefined := by decide
  rw [h] at he
  cases he

/-! ## The family indices given to the swapchain -/

/-- C26 fails on the code.  On `splitQueuePlatform` the graphics family is 1 and the
presentation family is 2, so `createSwapChain` sets concurrent sharing and the count 2.
The indices that `vkCreateSwapchainKHR` reads are not the two family indices: they are the
two values found where the array `queueIndices` was, whatever these are, and on
`splitQueuePlatform`, where these are 0 and 0, the call is made with the indices 0 and
0. -/
theorem swapchain_indices_not_the_families :
    VulkanRenderer.getQueueFamilies splitQueuePlatform splitDeviceMachine.renderer
      splitDeviceMachine.renderer.m_device.physical = ⟨1, 2⟩ ∧
    ((VulkanRenderer.createSwapChain splitQueuePlatform splitDeviceMachine).1.calls.drop
      splitDeviceMachine.calls.length).head? =
      some (Call.vkCreateSwapchainKHR 30
        ⟨20, 3, 44, 0, ⟨800, 600⟩, 1, 16, VK_SHARING_MODE_CONCURRENT, [0, 0], 1, 1, 2, 1, 0⟩
        VK_SUCCESS 60) ∧
    (∀ first second : Nat, ∃ info result swapchain rest,
      (VulkanRenderer.createSwapChain
        { splitQueuePlatform with danglingQueueIndices := (first, second) }
        splitDeviceMachine).1.calls =
        splitDeviceMachine.calls ++
          Call.vkCreateSwapchainKHR splitDeviceMachine.renderer.m_device.logical info result
            swapchain :: rest ∧
      info.imageSharingMode = VK_SHARING_MODE_CONCURRENT ∧
      info.queueFamilyIndices = [first, second]) := by
  refine ⟨by decide, by decide, ?_⟩
  intro first second
  obtain ⟨info, result, swapchain, rest, hcalls, _, _, hmode, hindices⟩ :=
    createSwapChain_create_call
      { splitQueuePlatform with danglingQueueIndices := (first, second) }
      splitDeviceMachine ⟨44, 0⟩ rfl
  have hfamilies : VulkanRenderer.getQueueFamilies
      { splitQueuePlatform with danglingQueueIndices := (first, second) }
      splitDeviceMachine.renderer splitDeviceMachine.renderer.m_device.physical = ⟨1, 2⟩ := rfl
  rw [hfamilies] at hmode hindices
  exact ⟨info, result, swapchain, rest, hcalls, hmode, hindices⟩

end VulkanAPI
